import Mathlib

/-
Billing reconciliation core of json_trans_api: a shallow embedding of
pkg/reconciliation/reconciliation.go, pkg/reconciliation/scheduler.go, of the list,
report and diff handlers of service/api/admin/reconciliation/reconciliation.go and of
the usage functions of service/api/user/stripe/webhook.go, with the properties of
the natural-language specification stated and settled over it.

Modelling conventions
  * time.Time is a natural number (an instant, in nanoseconds from the zero
    time where a duration is involved), a nil *time.Time is none.
  * Go int and int64 are both 64 bit wide and are modelled by Int; where the
    code multiplies or adds request-supplied values (the offset of the list
    handlers, the usage sums) the result is wrapped by wrapInt64, and the
    counters of a run, which are sums of slice lengths, are left unwrapped.
  * Stateful code is explicit state passing over World: the rows of the Record
    Store, the requests issued so far through httpclient.Client, and how many
    identifiers and clock readings have been drawn.
  * The code pastes identifiers and filter values into URLs unescaped and
    discards the error of http.NewRequest. The run and the handlers that fix or
    ignore a diff are embedded for identifiers that reach the gateway as they
    are pasted (unreserved characters, as the provider's identifiers are); the
    repair functions as a whole (namespace ReconciliationService) and the list
    handlers are embedded for every text: the call panics on the nil request
    when NewRequest refuses the URL, and what is sent is the text up to the
    first number sign.
  * Everything the code cannot decide is a parameter, collected in Env: the
    outcome of the k-th HTTP request, the k-th uuid, the k-th clock reading,
    the Remote State Gateway lookups, the formatting of dates and the parts of
    the cron parser that look inside the fields of an expression.
-/

namespace tables

/-- ReconciliationReport of models/tables/reconciliation.go. -/
structure ReconciliationReport where
  ID : String := ""
  ReportDate : Nat := 0
  StartDate : Nat := 0
  EndDate : Nat := 0
  Status : String := ""
  TotalRecords : Int := 0
  MatchedRecords : Int := 0
  MismatchedRecords : Int := 0
  MissingRecords : Int := 0
  CreatedAt : Nat := 0
  UpdatedAt : Nat := 0
  deriving DecidableEq, Repr

/-- ReconciliationDiff of models/tables/reconciliation.go. -/
structure ReconciliationDiff where
  ID : String := ""
  ReportID : String := ""
  RecordType : String := ""
  RecordID : String := ""
  UserID : String := ""
  DiffType : String := ""
  FieldName : String := ""
  LocalValue : String := ""
  StripeValue : String := ""
  Severity : String := ""
  Status : String := ""
  AutoFixed : Bool := false
  FixedAt : Option Nat := none
  FixedBy : String := ""
  Notes : String := ""
  CreatedAt : Nat := 0
  UpdatedAt : Nat := 0
  deriving DecidableEq, Repr

/-- ReconciliationAuditLog of models/tables/reconciliation.go. -/
structure ReconciliationAuditLog where
  ID : String := ""
  ReportID : String := ""
  Action : String := ""
  RecordType : String := ""
  RecordID : String := ""
  UserID : String := ""
  Details : String := ""
  PerformedBy : String := ""
  CreatedAt : Nat := 0
  deriving DecidableEq, Repr

/-- ReconciliationConfig of models/tables/reconciliation.go. -/
structure ReconciliationConfig where
  ID : String := ""
  Enabled : Bool := false
  Schedule : String := ""
  AutoFixEnabled : Bool := false
  AutoFixSeverity : String := ""
  NotificationEnabled : Bool := false
  NotificationEmail : String := ""
  RetentionDays : Int := 0
  CreatedAt : Nat := 0
  UpdatedAt : Nat := 0
  deriving DecidableEq, Repr

/-- StripeCustomer of models/tables/stripe.go. -/
structure StripeCustomer where
  ID : String := ""
  UserID : String := ""
  CustomerID : String := ""
  Email : String := ""
  CreatedAt : Nat := 0
  UpdatedAt : Nat := 0
  deriving DecidableEq, Repr

/-- StripeSubscription of models/tables/stripe.go. -/
structure StripeSubscription where
  ID : String := ""
  UserID : String := ""
  CustomerID : String := ""
  SubscriptionID : String := ""
  Status : String := ""
  PlanID : String := ""
  CurrentPeriodStart : String := ""
  CurrentPeriodEnd : String := ""
  CancelAtPeriodEnd : Bool := false
  CreatedAt : Nat := 0
  UpdatedAt : Nat := 0
  deriving DecidableEq, Repr

/-- StripeInvoice of models/tables/stripe.go. -/
structure StripeInvoice where
  ID : String := ""
  UserID : String := ""
  CustomerID : String := ""
  InvoiceID : String := ""
  SubscriptionID : String := ""
  Amount : Int := 0
  Currency : String := ""
  Status : String := ""
  InvoiceURL : String := ""
  InvoicePDF : String := ""
  CreatedAt : Nat := 0
  UpdatedAt : Nat := 0
  deriving DecidableEq, Repr

end tables

namespace stripe

/-- The field of the provider's subscription object that the comparator reads. -/
structure Subscription where
  Status : String
  deriving DecidableEq, Repr

/-- The field of the provider's invoice object that the comparator reads (an int64). -/
structure Invoice where
  AmountPaid : Int
  deriving DecidableEq, Repr

/-- The field of the provider's customer object that the comparator reads. -/
structure Customer where
  Email : String
  deriving DecidableEq, Repr

end stripe

namespace reconciliation

open tables

/-- A Go error value, as far as the code distinguishes them: the error of
httpclient.Client.Do, or one built by fmt.Errorf. -/
inductive GoError where
  | transport
  | message (msg : String)
  | wrapped (msg : String) (cause : GoError)
  deriving DecidableEq, Repr

/-- What httpclient.Client.Do gives back: an error, or a response with a status code. -/
inductive HttpOutcome where
  | transportError
  | response (statusCode : Nat)
  deriving DecidableEq, Repr

/-- The requests the code sends to the Record Store Gateway, each with the
payload it marshals and the filter it puts in the URL; an identifier held by a
request is the text sent after eq. in the URL. The GET of a list handler holds
its table and the query text as it is sent. -/
inductive Request where
  | getStripeSubscriptions (startDate endDate : Nat)
  | getStripeInvoices (startDate endDate : Nat)
  | getStripeCustomers (startDate endDate : Nat)
  | getDiffsByID (id : String)
  | postReport (id : String) (reportDate startDate endDate : Nat) (status : String)
      (createdAt updatedAt : Nat)
  | patchReportStatus (reportID status : String) (updatedAt : Nat)
  | patchReportStats (reportID : String) (totalRecords matchedRecords mismatchedRecords
      missingRecords : Int) (updatedAt : Nat)
  | postDiff (id reportID recordType recordID userID diffType fieldName localValue
      stripeValue severity status : String) (createdAt updatedAt : Nat)
  | patchDiff (id status : String) (autoFixed : Bool) (fixedAt : Option Nat)
      (fixedBy : String) (updatedAt : Nat)
  | patchDiffIgnore (id notes : String) (updatedAt : Nat)
  | postAuditLog (log : ReconciliationAuditLog)
  | patchSubscriptionStatus (subscriptionID status : String) (updatedAt : Nat)
  | patchInvoiceAmount (invoiceID : String) (amount : Int) (updatedAt : Nat)
  | patchInvoiceStatus (invoiceID status : String) (updatedAt : Nat)
  | patchCustomerEmail (customerID email : String) (updatedAt : Nat)
  | getReportByID (id : String)
  | getList (table query : String)
  deriving DecidableEq, Repr

/-- The state the code runs against: the tables of the Record Store, the
requests issued so far (oldest first) and the number of uuids and clock
readings drawn so far. -/
structure World where
  stripe_subscriptions : List StripeSubscription := []
  stripe_invoices : List StripeInvoice := []
  stripe_customers : List StripeCustomer := []
  reconciliation_reports : List ReconciliationReport := []
  reconciliation_diffs : List ReconciliationDiff := []
  reconciliation_audit_logs : List ReconciliationAuditLog := []
  requests : List Request := []
  uuids : Nat := 0
  ticks : Nat := 0
  deriving DecidableEq, Repr

/-- The collaborators: the outcome of the k-th request sent through
httpclient.Client, the k-th uuid, the k-th reading of the clock, and the
lookups of the Remote State Gateway (none when the lookup returns an error);
the text time.Format gives an instant with the layout 2006-01-02; and, of the
cron library, whether the contents of six fields parse and whether an
expression with a time zone prefix or a descriptor parses. -/
structure Env where
  httpDo : Nat → HttpOutcome
  uuidNew : Nat → String
  timeNow : Nat → Nat
  GetSubscription : String → Option stripe.Subscription
  GetInvoice : String → Option stripe.Invoice
  GetCustomer : String → Option stripe.Customer
  formatDate : Nat → String
  cronFields : List String → Bool
  cronSpecial : String → Bool

/-- The status codes the Record Store Gateway answers an accepted request with. -/
def accepted (statusCode : Nat) : Bool :=
  decide (200 ≤ statusCode) && decide (statusCode < 300)

/-- Record Store Gateway, the row a POST to reconciliation_diffs creates from
the thirteen columns sent; the four fixing columns take their zero value. -/
def insertedDiffRow (id reportID recordType recordID userID diffType fieldName localValue
    stripeValue severity status : String) (createdAt updatedAt : Nat) : ReconciliationDiff :=
  { ID := id, ReportID := reportID, RecordType := recordType, RecordID := recordID,
    UserID := userID, DiffType := diffType, FieldName := fieldName,
    LocalValue := localValue, StripeValue := stripeValue, Severity := severity,
    Status := status, CreatedAt := createdAt, UpdatedAt := updatedAt }

/-- Record Store Gateway, what the PATCH of updateReconciliationDiff does to one row:
the five columns sent are overwritten when the row matches the filter on id. -/
def patchDiffRow (id status : String) (autoFixed : Bool) (fixedAt : Option Nat)
    (fixedBy : String) (updatedAt : Nat) (d : ReconciliationDiff) : ReconciliationDiff :=
  if d.ID = id then
    { d with Status := status, AutoFixed := autoFixed, FixedAt := fixedAt,
             FixedBy := fixedBy, UpdatedAt := updatedAt }
  else d

/-- Record Store Gateway, what the PATCH of IgnoreDiff does to one row. -/
def ignoreDiffRow (id notes : String) (updatedAt : Nat) (d : ReconciliationDiff) :
    ReconciliationDiff :=
  if d.ID = id then { d with Status := "ignored", Notes := notes, UpdatedAt := updatedAt }
  else d

/-- Record Store Gateway, effect of an accepted request on the tables: POST
appends a row (columns that are not sent take their zero value), PATCH updates
the sent columns of every row matched by the equality filter, which compares
the column with the identifier sent, and GET changes nothing. -/
def applyRequest (w : World) : Request → World
  | .getStripeSubscriptions _ _ => w
  | .getStripeInvoices _ _ => w
  | .getStripeCustomers _ _ => w
  | .getDiffsByID _ => w
  | .postReport id reportDate startDate endDate status createdAt updatedAt =>
      { w with reconciliation_reports := w.reconciliation_reports ++
          [{ ID := id, ReportDate := reportDate, StartDate := startDate, EndDate := endDate,
             Status := status, CreatedAt := createdAt, UpdatedAt := updatedAt }] }
  | .patchReportStatus reportID status updatedAt =>
      { w with reconciliation_reports := w.reconciliation_reports.map fun r =>
          if r.ID = reportID then { r with Status := status, UpdatedAt := updatedAt } else r }
  | .patchReportStats reportID total matched mismatched missing updatedAt =>
      { w with reconciliation_reports := w.reconciliation_reports.map fun r =>
          if r.ID = reportID then
            { r with Status := "completed", TotalRecords := total, MatchedRecords := matched,
                     MismatchedRecords := mismatched, MissingRecords := missing,
                     UpdatedAt := updatedAt }
          else r }
  | .postDiff id reportID recordType recordID userID diffType fieldName localValue
      stripeValue severity status createdAt updatedAt =>
      { w with reconciliation_diffs := w.reconciliation_diffs ++
          [insertedDiffRow id reportID recordType recordID userID diffType fieldName localValue
            stripeValue severity status createdAt updatedAt] }
  | .patchDiff id status autoFixed fixedAt fixedBy updatedAt =>
      { w with reconciliation_diffs :=
                 List.map (patchDiffRow id status autoFixed fixedAt fixedBy updatedAt)
                   w.reconciliation_diffs }
  | .patchDiffIgnore id notes updatedAt =>
      { w with reconciliation_diffs :=
                 List.map (ignoreDiffRow id notes updatedAt) w.reconciliation_diffs }
  | .postAuditLog log =>
      { w with reconciliation_audit_logs := w.reconciliation_audit_logs ++ [log] }
  | .patchSubscriptionStatus subscriptionID status updatedAt =>
      { w with stripe_subscriptions := w.stripe_subscriptions.map fun s =>
          if s.SubscriptionID = subscriptionID then
            { s with Status := status, UpdatedAt := updatedAt }
          else s }
  | .patchInvoiceAmount invoiceID amount updatedAt =>
      { w with stripe_invoices := w.stripe_invoices.map fun i =>
          if i.InvoiceID = invoiceID then { i with Amount := amount, UpdatedAt := updatedAt }
          else i }
  | .patchInvoiceStatus invoiceID status updatedAt =>
      { w with stripe_invoices := w.stripe_invoices.map fun i =>
          if i.InvoiceID = invoiceID then { i with Status := status, UpdatedAt := updatedAt }
          else i }
  | .patchCustomerEmail customerID email updatedAt =>
      { w with stripe_customers := w.stripe_customers.map fun c =>
          if c.CustomerID = customerID then { c with Email := email, UpdatedAt := updatedAt }
          else c }
  | .getReportByID _ => w
  | .getList _ _ => w

/-- One call of httpclient.Client.Do: the request is recorded as issued, its
outcome is the one the environment gives to the request with this sequence
number, and the tables change only when the gateway answers with a 2xx status. -/
def httpclientDo (env : Env) (w : World) (req : Request) : HttpOutcome × World :=
  match env.httpDo w.requests.length with
  | .transportError => (.transportError, { w with requests := w.requests ++ [req] })
  | .response statusCode =>
      (.response statusCode,
        if accepted statusCode then applyRequest { w with requests := w.requests ++ [req] } req
        else { w with requests := w.requests ++ [req] })

/-- One call of uuid.New().String(). -/
def uuidNewString (env : Env) (w : World) : String × World :=
  (env.uuidNew w.uuids, { w with uuids := w.uuids + 1 })

/-- One call of time.Now(). -/
def timeNow (env : Env) (w : World) : Nat × World :=
  (env.timeNow w.ticks, { w with ticks := w.ticks + 1 })

/-- The error a write helper returns: the transport error of Do if there is
one, nil otherwise; the status code of the response is not looked at. -/
def doError : HttpOutcome → Option GoError
  | .transportError => some .transport
  | .response _ => none


/- strconv, as far as the code uses it -/

/-- The two errors of strconv: a string that is no number, a number out of range. -/
inductive NumError where
  | invalid
  | outOfRange
  deriving DecidableEq, Repr

/-- The largest uint64. -/
def maxUint64 : Nat := 2 ^ 64 - 1

/-- The digit loop of strconv.ParseUint in base 10 with 64 bits: the value
read so far is n; a character that is no decimal digit ends with value 0 and a
syntax error, an overflow ends with the largest uint64 and a range error. -/
def parseUintLoop : List Char → Nat → Nat × Option NumError
  | [], n => (n, none)
  | c :: cs, n =>
      if c.isDigit then
        if maxUint64 / 10 + 1 ≤ n then (maxUint64, some .outOfRange)
        else if maxUint64 < n * 10 + (c.toNat - 48) then (maxUint64, some .outOfRange)
        else parseUintLoop cs (n * 10 + (c.toNat - 48))
      else (0, some .invalid)

/-- The function strconv.ParseUint(s, 10, 64) on the characters of s. -/
def ParseUint (s : List Char) : Nat × Option NumError :=
  match s with
  | [] => (0, some .invalid)
  | _ => parseUintLoop s 0

/-- The function strconv.ParseInt(s, 10, 0) with a 64 bit int: one optional sign, then
ParseUint; a syntax error gives 0, a value out of range gives the nearest
bound together with a range error. -/
def ParseInt (s : String) : Int × Option NumError :=
  match s.toList with
  | [] => (0, some .invalid)
  | c :: cs =>
      let un := ParseUint (if c = '+' ∨ c = '-' then cs else c :: cs)
      if un.2 = some .invalid then (0, some .invalid)
      else if c ≠ '-' ∧ (2 : Nat) ^ 63 ≤ un.1 then ((2 : Int) ^ 63 - 1, some .outOfRange)
      else if c = '-' ∧ (2 : Nat) ^ 63 < un.1 then (-(2 : Int) ^ 63, some .outOfRange)
      else (if c = '-' then -(un.1 : Int) else (un.1 : Int), none)

/-- The function strconv.Atoi: its fast path for short strings computes what ParseInt
computes, and int(i64) is the identity on a 64 bit platform. -/
def Atoi (s : String) : Int × Option NumError := ParseInt s

/-- The functions strconv.Itoa and strconv.FormatInt(_, 10): the decimal numeral, with a
leading minus sign for a negative number. -/
def Itoa (n : Int) : String := toString n

/-- The value a Go int of 64 bits holds after an operation whose exact result
is n: the result wraps around modulo 2^64 into the range from -2^63 to 2^63 - 1. -/
def wrapInt64 (n : Int) : Int := (n + 2 ^ 63) % 2 ^ 64 - 2 ^ 63

/- net/url and net/http, as far as the code uses them -/

/-- stringContainsCTLByte of net/url: some byte is below 0x20 or is 0x7f. The bytes
that encode a character above 0x7f are all 0x80 or more, so the test is made
on the characters. -/
def stringContainsCTLByte (s : List Char) : Bool :=
  s.any fun c => decide (c.toNat < 0x20) || decide (c.toNat = 0x7f)

/-- ishex of net/url: a hexadecimal digit. -/
def ishex (c : Char) : Bool :=
  (decide (48 ≤ c.toNat) && decide (c.toNat ≤ 57)) ||
    (decide (97 ≤ c.toNat) && decide (c.toNat ≤ 102)) ||
    (decide (65 ≤ c.toNat) && decide (c.toNat ≤ 70))

/-- Whether unescape of net/url, in the mode of a fragment, returns no error:
every percent sign is followed by two hexadecimal digits. -/
def validEscapes : List Char → Bool
  | [] => true
  | c :: rest =>
      if c = '%' then
        match rest with
        | a :: b :: tail => ishex a && ishex b && validEscapes tail
        | _ => false
      else validEscapes rest

/-- Whether http.NewRequest returns a request, and not nil with an error, for the
URL the code builds: the configured base URL, a fixed path, a question mark
and the given query text, into which identifiers and filter values are pasted
as they are. The base URL is taken to be well formed, so url.Parse is the only
step that can fail, and only on the query text: on a control character before
the first number sign, or on a bad percent escape in the fragment after it. -/
def newRequestAccepts (query : String) : Bool :=
  !stringContainsCTLByte (query.toList.takeWhile fun c => decide (c ≠ '#')) &&
    validEscapes ((query.toList.dropWhile fun c => decide (c ≠ '#')).drop 1)

/-- The part of a query text that is sent: url.Parse cuts the URL at the first
number sign, what follows is the fragment, and the request line holds the
path and the query only. -/
def beforeFragment (query : String) : String :=
  String.mk (query.toList.takeWhile fun c => decide (c ≠ '#'))

/- pkg/reconciliation/reconciliation.go -/

/-- shouldAutoFix (reconciliation.go 305-324). -/
def shouldAutoFix (config : ReconciliationConfig) (diff : ReconciliationDiff) : Bool :=
  if !config.AutoFixEnabled then false
  else if config.AutoFixSeverity = "low" then
    decide (diff.Severity = "low")
  else if config.AutoFixSeverity = "medium" then
    decide (diff.Severity = "low") || decide (diff.Severity = "medium")
  else if config.AutoFixSeverity = "high" then
    decide (diff.Severity = "low") || decide (diff.Severity = "medium")
      || decide (diff.Severity = "high")
  else if config.AutoFixSeverity = "critical" then true
  else false

/-- updateLocalSubscriptionStatus (reconciliation.go 654-675) for an identifier that reaches
the gateway as it is pasted, as one made of unreserved characters does: the
clock is read for updated_at, one PATCH is sent to the rows with that
subscription_id, and the error of Do is returned. The call for any
identifier, the one http.NewRequest refuses included, is
ReconciliationService.updateLocalSubscriptionStatus below. -/
def updateLocalSubscriptionStatus (env : Env) (w : World) (subscriptionID status : String) :
    Option GoError × World :=
  let t := timeNow env w
  let r := httpclientDo env t.2 (.patchSubscriptionStatus subscriptionID status t.1)
  (doError r.1, r.2)

/-- updateLocalInvoiceAmount (reconciliation.go 677-698) for an identifier that reaches the
gateway as it is pasted; the call for any identifier is
ReconciliationService.updateLocalInvoiceAmount below. -/
def updateLocalInvoiceAmount (env : Env) (w : World) (invoiceID : String) (amount : Int) :
    Option GoError × World :=
  let t := timeNow env w
  let r := httpclientDo env t.2 (.patchInvoiceAmount invoiceID amount t.1)
  (doError r.1, r.2)

/-- updateLocalInvoiceStatus (reconciliation.go 700-721) for an identifier that reaches the
gateway as it is pasted; the call for any identifier is
ReconciliationService.updateLocalInvoiceStatus below. -/
def updateLocalInvoiceStatus (env : Env) (w : World) (invoiceID status : String) :
    Option GoError × World :=
  let t := timeNow env w
  let r := httpclientDo env t.2 (.patchInvoiceStatus invoiceID status t.1)
  (doError r.1, r.2)

/-- updateLocalCustomerEmail (reconciliation.go 723-744) for an identifier that reaches the
gateway as it is pasted; the call for any identifier is
ReconciliationService.updateLocalCustomerEmail below. -/
def updateLocalCustomerEmail (env : Env) (w : World) (customerID email : String) :
    Option GoError × World :=
  let t := timeNow env w
  let r := httpclientDo env t.2 (.patchCustomerEmail customerID email t.1)
  (doError r.1, r.2)

/-- fixSubscriptionDiff (reconciliation.go 340-349), with the write as above. -/
def fixSubscriptionDiff (env : Env) (w : World) (diff : ReconciliationDiff) :
    Option GoError × World :=
  if diff.FieldName = "status" then
    updateLocalSubscriptionStatus env w diff.RecordID diff.StripeValue
  else (some (.message ("不支持的订阅字段: " ++ diff.FieldName)), w)

/-- fixInvoiceDiff (reconciliation.go 351-364), with the writes as above; the error of
Atoi is dropped. -/
def fixInvoiceDiff (env : Env) (w : World) (diff : ReconciliationDiff) :
    Option GoError × World :=
  if diff.FieldName = "amount" then
    updateLocalInvoiceAmount env w diff.RecordID (Atoi diff.StripeValue).1
  else if diff.FieldName = "status" then
    updateLocalInvoiceStatus env w diff.RecordID diff.StripeValue
  else (some (.message ("不支持的发票字段: " ++ diff.FieldName)), w)

/-- fixCustomerDiff (reconciliation.go 366-375), with the write as above. -/
def fixCustomerDiff (env : Env) (w : World) (diff : ReconciliationDiff) :
    Option GoError × World :=
  if diff.FieldName = "email" then
    updateLocalCustomerEmail env w diff.RecordID diff.StripeValue
  else (some (.message ("不支持的客户字段: " ++ diff.FieldName)), w)

/-- fixDiff (reconciliation.go 326-338) for a record identifier that reaches the gateway
as it is pasted, as the identifiers the provider issues do; the call for any
record identifier is ReconciliationService.fixDiff below. -/
def fixDiff (env : Env) (w : World) (diff : ReconciliationDiff) : Option GoError × World :=
  if diff.RecordType = "subscription" then fixSubscriptionDiff env w diff
  else if diff.RecordType = "invoice" then fixInvoiceDiff env w diff
  else if diff.RecordType = "customer" then fixCustomerDiff env w diff
  else (some (.message ("不支持的记录类型: " ++ diff.RecordType)), w)

/-- How a call made by the reconciliation service ends: it returns a value and
leaves a state, or the goroutine panics in the state given and nothing after
the call runs. -/
inductive Ended (α : Type) where
  | returned (value : α) (w : World)
  | panicked (w : World)
  deriving DecidableEq, Repr

namespace ReconciliationService

/-- updateLocalSubscriptionStatus (reconciliation.go 654-675), the call as a whole. The
clock is read; the identifier is pasted unescaped after subscription_id=eq. and
the error of http.NewRequest is discarded (line 662), so when NewRequest refuses
the URL the request is nil and req.Header.Set (line 663) panics before anything
is sent. Otherwise the PATCH is sent with the identifier up to the first
number sign as its filter. -/
def updateLocalSubscriptionStatus (env : Env) (w : World) (subscriptionID status : String) :
    Ended (Option GoError) :=
  if newRequestAccepts ("subscription_id=eq." ++ subscriptionID) then
    .returned
      (reconciliation.updateLocalSubscriptionStatus env w (beforeFragment subscriptionID)
        status).1
      (reconciliation.updateLocalSubscriptionStatus env w (beforeFragment subscriptionID)
        status).2
  else .panicked (timeNow env w).2

/-- updateLocalInvoiceAmount (reconciliation.go 677-698), the call as a whole. -/
def updateLocalInvoiceAmount (env : Env) (w : World) (invoiceID : String) (amount : Int) :
    Ended (Option GoError) :=
  if newRequestAccepts ("invoice_id=eq." ++ invoiceID) then
    .returned (reconciliation.updateLocalInvoiceAmount env w (beforeFragment invoiceID) amount).1
      (reconciliation.updateLocalInvoiceAmount env w (beforeFragment invoiceID) amount).2
  else .panicked (timeNow env w).2

/-- updateLocalInvoiceStatus (reconciliation.go 700-721), the call as a whole. -/
def updateLocalInvoiceStatus (env : Env) (w : World) (invoiceID status : String) :
    Ended (Option GoError) :=
  if newRequestAccepts ("invoice_id=eq." ++ invoiceID) then
    .returned (reconciliation.updateLocalInvoiceStatus env w (beforeFragment invoiceID) status).1
      (reconciliation.updateLocalInvoiceStatus env w (beforeFragment invoiceID) status).2
  else .panicked (timeNow env w).2

/-- updateLocalCustomerEmail (reconciliation.go 723-744), the call as a whole. -/
def updateLocalCustomerEmail (env : Env) (w : World) (customerID email : String) :
    Ended (Option GoError) :=
  if newRequestAccepts ("customer_id=eq." ++ customerID) then
    .returned (reconciliation.updateLocalCustomerEmail env w (beforeFragment customerID) email).1
      (reconciliation.updateLocalCustomerEmail env w (beforeFragment customerID) email).2
  else .panicked (timeNow env w).2

/-- fixSubscriptionDiff (reconciliation.go 340-349), the call as a whole. -/
def fixSubscriptionDiff (env : Env) (w : World) (diff : ReconciliationDiff) :
    Ended (Option GoError) :=
  if diff.FieldName = "status" then
    updateLocalSubscriptionStatus env w diff.RecordID diff.StripeValue
  else .returned (some (.message ("不支持的订阅字段: " ++ diff.FieldName))) w

/-- fixInvoiceDiff (reconciliation.go 351-364), the call as a whole; the error of Atoi
is dropped. -/
def fixInvoiceDiff (env : Env) (w : World) (diff : ReconciliationDiff) :
    Ended (Option GoError) :=
  if diff.FieldName = "amount" then
    updateLocalInvoiceAmount env w diff.RecordID (Atoi diff.StripeValue).1
  else if diff.FieldName = "status" then
    updateLocalInvoiceStatus env w diff.RecordID diff.StripeValue
  else .returned (some (.message ("不支持的发票字段: " ++ diff.FieldName))) w

/-- fixCustomerDiff (reconciliation.go 366-375), the call as a whole. -/
def fixCustomerDiff (env : Env) (w : World) (diff : ReconciliationDiff) :
    Ended (Option GoError) :=
  if diff.FieldName = "email" then
    updateLocalCustomerEmail env w diff.RecordID diff.StripeValue
  else .returned (some (.message ("不支持的客户字段: " ++ diff.FieldName))) w

/-- fixDiff (reconciliation.go 326-338), the call as a whole. -/
def fixDiff (env : Env) (w : World) (diff : ReconciliationDiff) : Ended (Option GoError) :=
  if diff.RecordType = "subscription" then fixSubscriptionDiff env w diff
  else if diff.RecordType = "invoice" then fixInvoiceDiff env w diff
  else if diff.RecordType = "customer" then fixCustomerDiff env w diff
  else .returned (some (.message ("不支持的记录类型: " ++ diff.RecordType))) w

end ReconciliationService

/-- saveReconciliationDiff (reconciliation.go 470-502): thirteen columns are sent. -/
def saveReconciliationDiff (env : Env) (w : World) (diff : ReconciliationDiff) :
    Option GoError × World :=
  let r := httpclientDo env w
    (.postDiff diff.ID diff.ReportID diff.RecordType diff.RecordID diff.UserID diff.DiffType
      diff.FieldName diff.LocalValue diff.StripeValue diff.Severity diff.Status
      diff.CreatedAt diff.UpdatedAt)
  (doError r.1, r.2)

/-- updateReconciliationDiff (reconciliation.go 504-528): five columns are sent. -/
def updateReconciliationDiff (env : Env) (w : World) (diff : ReconciliationDiff) :
    Option GoError × World :=
  let r := httpclientDo env w
    (.patchDiff diff.ID diff.Status diff.AutoFixed diff.FixedAt diff.FixedBy diff.UpdatedAt)
  (doError r.1, r.2)

/-- logAuditEvent (reconciliation.go 530-552): the outcome of the request is ignored. -/
def logAuditEvent (env : Env) (w : World)
    (reportID action recordType recordID userID details : String) : World :=
  let u := uuidNewString env w
  let t := timeNow env u.2
  (httpclientDo env t.2
    (.postAuditLog { ID := u.1, ReportID := reportID, Action := action,
                     RecordType := recordType, RecordID := recordID, UserID := userID,
                     Details := details, PerformedBy := "system", CreatedAt := t.1 })).2

/-- What json.Decode leaves in the slice: the rows of an accepted GET; the body
of any other response is no array, the decoding error is dropped by the
callers below and the slice stays nil. -/
def decodedRows {α : Type} (statusCode : Nat) (rows : List α) : List α :=
  if accepted statusCode then rows else []

/-- getLocalSubscriptions (reconciliation.go 555-577): the rows created within the window. -/
def getLocalSubscriptions (env : Env) (w : World) (startDate endDate : Nat) :
    Except GoError (List StripeSubscription) × World :=
  let r := httpclientDo env w (.getStripeSubscriptions startDate endDate)
  match r.1 with
  | .transportError => (.error .transport, r.2)
  | .response statusCode =>
      (.ok (decodedRows statusCode (w.stripe_subscriptions.filter fun s =>
        decide (startDate ≤ s.CreatedAt) && decide (s.CreatedAt ≤ endDate))), r.2)

/-- getLocalInvoices (reconciliation.go 579-601). -/
def getLocalInvoices (env : Env) (w : World) (startDate endDate : Nat) :
    Except GoError (List StripeInvoice) × World :=
  let r := httpclientDo env w (.getStripeInvoices startDate endDate)
  match r.1 with
  | .transportError => (.error .transport, r.2)
  | .response statusCode =>
      (.ok (decodedRows statusCode (w.stripe_invoices.filter fun i =>
        decide (startDate ≤ i.CreatedAt) && decide (i.CreatedAt ≤ endDate))), r.2)

/-- getLocalCustomers (reconciliation.go 603-625). -/
def getLocalCustomers (env : Env) (w : World) (startDate endDate : Nat) :
    Except GoError (List StripeCustomer) × World :=
  let r := httpclientDo env w (.getStripeCustomers startDate endDate)
  match r.1 with
  | .transportError => (.error .transport, r.2)
  | .response statusCode =>
      (.ok (decodedRows statusCode (w.stripe_customers.filter fun c =>
        decide (startDate ≤ c.CreatedAt) && decide (c.CreatedAt ≤ endDate))), r.2)


/-- The struct literal the six branches of the comparator build: a fresh uuid,
the report passed in, status pending and two readings of the clock; the fixing
columns keep their zero value. -/
def newReconciliationDiff (env : Env) (w : World)
    (reportID recordType recordID userID diffType fieldName localValue stripeValue
      severity : String) : ReconciliationDiff × World :=
  let u := uuidNewString env w
  let c := timeNow env u.2
  let t := timeNow env c.2
  ({ ID := u.1, ReportID := reportID, RecordType := recordType, RecordID := recordID,
     UserID := userID, DiffType := diffType, FieldName := fieldName,
     LocalValue := localValue, StripeValue := stripeValue, Severity := severity,
     Status := "pending", CreatedAt := c.1, UpdatedAt := t.1 }, t.2)

/-- The for-range loops of the comparator: body is one iteration, which may
append one diff to the slice diffs built so far; the records are visited in order. -/
def forEachRecord {α : Type} (body : World → α → Option ReconciliationDiff × World) :
    List α → World → List ReconciliationDiff → List ReconciliationDiff × World
  | [], w, diffs => (diffs, w)
  | record :: rest, w, diffs =>
      forEachRecord body rest (body w record).2 (diffs ++ (body w record).1.toList)

/-- One iteration of the loop of reconcileSubscriptions (reconciliation.go 106-151): the
diff appended for this record, if any, and the state after saving it. -/
def reconcileSubscription (env : Env) (reportID : String) (w : World)
    (localSub : StripeSubscription) : Option ReconciliationDiff × World :=
  match env.GetSubscription localSub.SubscriptionID with
  | none =>
      let d := newReconciliationDiff env w reportID "subscription" localSub.SubscriptionID
        localSub.UserID "missing" "subscription" "exists" "not_found" "high"
      (some d.1, (saveReconciliationDiff env d.2 d.1).2)
  | some stripeSub =>
      if stripeSub.Status ≠ localSub.Status then
        let d := newReconciliationDiff env w reportID "subscription" localSub.SubscriptionID
          localSub.UserID "mismatch" "status" localSub.Status stripeSub.Status "medium"
        (some d.1, (saveReconciliationDiff env d.2 d.1).2)
      else (none, w)

/-- The loop of reconcileSubscriptions over the local records, diffs being the slice
built so far. -/
def reconcileSubscriptionsLoop (env : Env) (reportID : String) :
    List StripeSubscription → World → List ReconciliationDiff → List ReconciliationDiff × World :=
  forEachRecord (reconcileSubscription env reportID)

/-- reconcileSubscriptions (reconciliation.go 95-154). -/
def reconcileSubscriptions (env : Env) (w : World) (startDate endDate : Nat)
    (reportID : String) : Except GoError (List ReconciliationDiff) × World :=
  match getLocalSubscriptions env w startDate endDate with
  | (.error err, w1) => (.error (.wrapped "获取本地订阅数据失败" err), w1)
  | (.ok localSubscriptions, w1) =>
      (.ok (reconcileSubscriptionsLoop env reportID localSubscriptions w1 []).1,
        (reconcileSubscriptionsLoop env reportID localSubscriptions w1 []).2)

/-- One iteration of the loop of reconcileInvoices (reconciliation.go 167-212). -/
def reconcileInvoice (env : Env) (reportID : String) (w : World)
    (localInvoice : StripeInvoice) : Option ReconciliationDiff × World :=
  match env.GetInvoice localInvoice.InvoiceID with
  | none =>
      let d := newReconciliationDiff env w reportID "invoice" localInvoice.InvoiceID
        localInvoice.UserID "missing" "invoice" "exists" "not_found" "medium"
      (some d.1, (saveReconciliationDiff env d.2 d.1).2)
  | some stripeInvoice =>
      if stripeInvoice.AmountPaid ≠ localInvoice.Amount then
        let d := newReconciliationDiff env w reportID "invoice" localInvoice.InvoiceID
          localInvoice.UserID "mismatch" "amount" (Itoa localInvoice.Amount)
          (Itoa stripeInvoice.AmountPaid) "high"
        (some d.1, (saveReconciliationDiff env d.2 d.1).2)
      else (none, w)

/-- The loop of reconcileInvoices over the local records. -/
def reconcileInvoicesLoop (env : Env) (reportID : String) :
    List StripeInvoice → World → List ReconciliationDiff → List ReconciliationDiff × World :=
  forEachRecord (reconcileInvoice env reportID)

/-- reconcileInvoices (reconciliation.go 156-215). -/
def reconcileInvoices (env : Env) (w : World) (startDate endDate : Nat)
    (reportID : String) : Except GoError (List ReconciliationDiff) × World :=
  match getLocalInvoices env w startDate endDate with
  | (.error err, w1) => (.error (.wrapped "获取本地发票数据失败" err), w1)
  | (.ok localInvoices, w1) =>
      (.ok (reconcileInvoicesLoop env reportID localInvoices w1 []).1,
        (reconcileInvoicesLoop env reportID localInvoices w1 []).2)

/-- One iteration of the loop of reconcileCustomers (reconciliation.go 228-273). -/
def reconcileCustomer (env : Env) (reportID : String) (w : World)
    (localCustomer : StripeCustomer) : Option ReconciliationDiff × World :=
  match env.GetCustomer localCustomer.CustomerID with
  | none =>
      let d := newReconciliationDiff env w reportID "customer" localCustomer.CustomerID
        localCustomer.UserID "missing" "customer" "exists" "not_found" "high"
      (some d.1, (saveReconciliationDiff env d.2 d.1).2)
  | some stripeCustomer =>
      if stripeCustomer.Email ≠ localCustomer.Email then
        let d := newReconciliationDiff env w reportID "customer" localCustomer.CustomerID
          localCustomer.UserID "mismatch" "email" localCustomer.Email stripeCustomer.Email "low"
        (some d.1, (saveReconciliationDiff env d.2 d.1).2)
      else (none, w)

/-- The loop of reconcileCustomers over the local records. -/
def reconcileCustomersLoop (env : Env) (reportID : String) :
    List StripeCustomer → World → List ReconciliationDiff → List ReconciliationDiff × World :=
  forEachRecord (reconcileCustomer env reportID)

/-- reconcileCustomers (reconciliation.go 217-276). -/
def reconcileCustomers (env : Env) (w : World) (startDate endDate : Nat)
    (reportID : String) : Except GoError (List ReconciliationDiff) × World :=
  match getLocalCustomers env w startDate endDate with
  | (.error err, w1) => (.error (.wrapped "获取本地客户数据失败" err), w1)
  | (.ok localCustomers, w1) =>
      (.ok (reconcileCustomersLoop env reportID localCustomers w1 []).1,
        (reconcileCustomersLoop env reportID localCustomers w1 []).2)

/-- The body of the loop of autoFixDiffs (reconciliation.go 280-302) for one diff: the
diff object afterwards and the state afterwards. -/
def autoFixDiff (env : Env) (config : ReconciliationConfig) (w : World)
    (diff : ReconciliationDiff) : ReconciliationDiff × World :=
  if shouldAutoFix config diff then
    match fixDiff env w diff with
    | (some _, w1) => (diff, w1)
    | (none, w1) =>
        let f := timeNow env w1
        let t := timeNow env f.2
        let fixed : ReconciliationDiff :=
          { diff with Status := "auto_fixed", AutoFixed := true, FixedAt := some f.1,
                      FixedBy := "system", UpdatedAt := t.1 }
        (fixed,
          logAuditEvent env (updateReconciliationDiff env t.2 fixed).2 fixed.ReportID
            "auto_fix" fixed.RecordType fixed.RecordID fixed.UserID
            ("自动修复字段 " ++ fixed.FieldName ++ ": " ++ fixed.LocalValue ++ " -> "
              ++ fixed.StripeValue))
  else (diff, w)

/-- autoFixDiffs (reconciliation.go 278-303). The slice holds pointers to distinct diff
objects; the result lists the objects as the call leaves them, in order. -/
def autoFixDiffs (env : Env) (config : ReconciliationConfig) :
    World → List ReconciliationDiff → List ReconciliationDiff × World
  | w, [] => ([], w)
  | w, diff :: rest =>
      ((autoFixDiff env config w diff).1 ::
          (autoFixDiffs env config (autoFixDiff env config w diff).2 rest).1,
        (autoFixDiffs env config (autoFixDiff env config w diff).2 rest).2)

end reconciliation

namespace admin

open tables reconciliation

/- service/api/admin/reconciliation/reconciliation.go -/

/-- Handler.FixDiff (admin reconciliation.go 408-487): the status code of the answer and
the state afterwards. The argument notes is the decoded request body, none
when it cannot be decoded. The body of a GET that the gateway does not accept
is no array, so decoding it fails. -/
def FixDiff (env : Env) (w : World) (diffID : String) (notes : Option String) :
    Nat × World :=
  if diffID = "" then (400, w)
  else
    match notes with
    | none => (400, w)
    | some requestNotes =>
        match httpclientDo env w (.getDiffsByID diffID) with
        | (.transportError, w1) => (500, w1)
        | (.response statusCode, w1) =>
            if accepted statusCode then
              match w.reconciliation_diffs.filter fun d => decide (d.ID = diffID) with
              | [] => (404, w1)
              | diff :: _ =>
                  match fixDiff env w1 diff with
                  | (some _, w2) => (500, w2)
                  | (none, w2) =>
                      let f := timeNow env w2
                      let t := timeNow env f.2
                      let fixed : ReconciliationDiff :=
                        { diff with Status := "manual_fixed", FixedAt := some f.1,
                                    FixedBy := "admin", Notes := requestNotes,
                                    UpdatedAt := t.1 }
                      match updateReconciliationDiff env t.2 fixed with
                      | (some _, w3) => (500, w3)
                      | (none, w3) =>
                          (200, logAuditEvent env w3 fixed.ReportID "manual_fix"
                            fixed.RecordType fixed.RecordID fixed.UserID
                            ("手动修复字段 " ++ fixed.FieldName ++ ": " ++ fixed.LocalValue
                              ++ " -> " ++ fixed.StripeValue))
            else (500, w1)

/-- Handler.IgnoreDiff (admin reconciliation.go 489-536). -/
def IgnoreDiff (env : Env) (w : World) (diffID : String) (notes : Option String) :
    Nat × World :=
  if diffID = "" then (400, w)
  else
    match notes with
    | none => (400, w)
    | some requestNotes =>
        let t := timeNow env w
        match httpclientDo env t.2 (.patchDiffIgnore diffID requestNotes t.1) with
        | (.transportError, w1) => (500, w1)
        | (.response _, w1) => (200, w1)

/-- The page the list handlers use (admin reconciliation.go 69-72, 176-179, 240-243,
539-542): strconv.Atoi of the query parameter with its error dropped, and 1 when the
number is not positive. The parameter is the empty string when the query has none. -/
def pageOf (pageParam : String) : Int :=
  if (Atoi pageParam).1 ≤ 0 then 1 else (Atoi pageParam).1

/-- The limit the list handlers use (admin reconciliation.go 74-77, 181-184, 245-248,
544-547): strconv.Atoi of the query parameter with its error dropped, and 20 when the
number is not positive or is above 100. -/
def limitOf (limitParam : String) : Int :=
  if (Atoi limitParam).1 ≤ 0 ∨ (Atoi limitParam).1 > 100 then 20 else (Atoi limitParam).1

/-- The offset the list handlers put in the query: the int product (page-1)*limit. -/
def offsetOf (page limit : Int) : Int := wrapInt64 (wrapInt64 (page - 1) * limit)

/-- The filter a list handler appends to its query when the value is not empty:
the text is pasted as it is, without escaping. -/
def filterText (column value : String) : String :=
  if value ≠ "" then "&" ++ column ++ "=eq." ++ value else ""

/-- The range filter on report_date a list handler appends when the value is not empty. -/
def rangeText (operator value : String) : String :=
  if value ≠ "" then "&report_date=" ++ operator ++ "." ++ value else ""

/-- The part of the query every list handler writes: the limit and the offset,
formatted by the verb d of fmt.Sprintf. -/
def pageText (pageParam limitParam : String) : String :=
  "limit=" ++ Itoa (limitOf limitParam) ++ "&offset=" ++
    Itoa (offsetOf (pageOf pageParam) (limitOf limitParam))

/-- What a list handler does with the query text it built (admin reconciliation.go 97-126
and the like): the error of http.NewRequest is discarded, so when NewRequest refuses
the URL the request is nil, req.Header.Set panics, nothing is sent and the
client gets no answer (none); otherwise the GET is sent, with the query text
up to the first number sign, and the answer is 500 on a transport error or a
body that cannot be decoded, and 200 with the rows otherwise. The rows of the answer are the ones the gateway returned and are
left out; the body of a GET that the gateway does not accept is no array, so
decoding it fails. -/
def listAnswer (env : Env) (w : World) (table query : String) : Option Nat × World :=
  if newRequestAccepts query then
    match httpclientDo env w (.getList table (beforeFragment query)) with
    | (.transportError, w1) => (some 500, w1)
    | (.response statusCode, w1) =>
        if accepted statusCode then (some 200, w1) else (some 500, w1)
  else (none, w)

/-- Handler.GetReconciliationReports (admin reconciliation.go 66-126): the status code of
the answer, none when the handler panics, and the state afterwards. -/
def GetReconciliationReports (env : Env) (w : World)
    (pageParam limitParam status startDate endDate : String) : Option Nat × World :=
  listAnswer env w "reconciliation_reports"
    ("select=*&order=created_at.desc&" ++ pageText pageParam limitParam ++
      filterText "status" status ++ rangeText "gte" startDate ++ rangeText "lte" endDate)

/-- Handler.GetReconciliationReport (admin reconciliation.go 128-164): the status code of
the answer, the report encoded in it, and the state afterwards. -/
def GetReconciliationReport (env : Env) (w : World) (reportID : String) :
    (Nat × Option ReconciliationReport) × World :=
  if reportID = "" then ((400, none), w)
  else
    match httpclientDo env w (.getReportByID reportID) with
    | (.transportError, w1) => ((500, none), w1)
    | (.response statusCode, w1) =>
        if accepted statusCode then
          match w.reconciliation_reports.filter fun r => decide (r.ID = reportID) with
          | [] => ((404, none), w1)
          | report :: _ => ((200, some report), w1)
        else ((500, none), w1)

/-- Handler.GetReconciliationDiffs (admin reconciliation.go 166-228); the report
identifier is pasted unescaped as well. -/
def GetReconciliationDiffs (env : Env) (w : World)
    (reportID pageParam limitParam status severity recordType : String) : Option Nat × World :=
  if reportID = "" then (some 400, w)
  else
    listAnswer env w "reconciliation_diffs"
      ("select=*&report_id=eq." ++ reportID ++ "&order=created_at.desc&" ++
        pageText pageParam limitParam ++ filterText "status" status ++
        filterText "severity" severity ++ filterText "record_type" recordType)

/-- Handler.GetReconciliationAuditLogs (admin reconciliation.go 230-288). -/
def GetReconciliationAuditLogs (env : Env) (w : World)
    (reportID pageParam limitParam : String) : Option Nat × World :=
  if reportID = "" then (some 400, w)
  else
    listAnswer env w "reconciliation_audit_logs"
      ("select=*&report_id=eq." ++ reportID ++ "&order=created_at.desc&" ++
        pageText pageParam limitParam)

/-- Handler.GetAllDiffs (admin reconciliation.go 536-594). -/
def GetAllDiffs (env : Env) (w : World)
    (pageParam limitParam status severity recordType : String) : Option Nat × World :=
  listAnswer env w "reconciliation_diffs"
    ("select=*&order=created_at.desc&" ++ pageText pageParam limitParam ++
      filterText "status" status ++ filterText "severity" severity ++
      filterText "record_type" recordType)

end admin

namespace reconciliation

open tables

/- Specification-side vocabulary -/

/-- The position of a severity in the order low, medium, high, critical of the
specification; none for any other string. -/
def severityRank (s : String) : Option Nat :=
  if s = "low" then some 0
  else if s = "medium" then some 1
  else if s = "high" then some 2
  else if s = "critical" then some 3
  else none

/-- Severity at or below the threshold in the order of the specification. -/
def severityAtMost (severity threshold : String) : Prop :=
  ∃ s t, severityRank severity = some s ∧ severityRank threshold = some t ∧ s ≤ t

/-- The missing diff of the specification for a local record of the given
entity type: the entity name as field name, the values exists and not_found,
status pending, the record's and the report's identifiers. -/
def IsMissingDiff (diff : ReconciliationDiff)
    (reportID entity recordID userID severity : String) : Prop :=
  diff.ReportID = reportID ∧ diff.RecordType = entity ∧ diff.RecordID = recordID ∧
  diff.UserID = userID ∧ diff.DiffType = "missing" ∧ diff.FieldName = entity ∧
  diff.LocalValue = "exists" ∧ diff.StripeValue = "not_found" ∧
  diff.Severity = severity ∧ diff.Status = "pending"

/-- The mismatch diff of the specification: the compared field as field name,
the two stringified values, status pending. -/
def IsMismatchDiff (diff : ReconciliationDiff)
    (reportID entity recordID userID fieldName localValue remoteValue severity : String) :
    Prop :=
  diff.ReportID = reportID ∧ diff.RecordType = entity ∧ diff.RecordID = recordID ∧
  diff.UserID = userID ∧ diff.DiffType = "mismatch" ∧ diff.FieldName = fieldName ∧
  diff.LocalValue = localValue ∧ diff.StripeValue = remoteValue ∧
  diff.Severity = severity ∧ diff.Status = "pending"

/-- The comparison of one entity type over the fetched local records emits
exactly the diff given for the distinguished record: the returned list is the
diffs of the records before it, this one diff, and the diffs of the records
after it, each part computed from the state the previous part left. -/
def EmitsExactlyOneFor {α : Type} (body : World → α → Option ReconciliationDiff × World)
    (result : Except GoError (List ReconciliationDiff) × World) (w1 : World)
    (before : List α) (record : α) (after : List α) (diff : ReconciliationDiff) : Prop :=
  (body (forEachRecord body before w1 []).2 record).1 = some diff ∧
  result =
    (.ok ((forEachRecord body before w1 []).1 ++ diff ::
        (forEachRecord body after (body (forEachRecord body before w1 []).2 record).2 []).1),
      (forEachRecord body after (body (forEachRecord body before w1 []).2 record).2 []).2)

/- Scenarios of the specification, as concrete environments and states -/

/-- A gateway that accepts every request and a provider that knows no record:
every request is answered 200, the k-th uuid is the numeral of k prefixed by
uuid-, the clock reads 1000 + k, every remote lookup fails. -/
def acceptingEnv : Env where
  httpDo := fun _ => .response 200
  uuidNew := fun k => "uuid-" ++ toString k
  timeNow := fun k => 1000 + k
  GetSubscription := fun _ => none
  GetInvoice := fun _ => none
  GetCustomer := fun _ => none
  formatDate := fun t => "day-" ++ toString (t / 86400000000000)
  cronFields := fun _ => true
  cronSpecial := fun _ => false

/-- Scenario B: the local invoice inv_1. -/
def invoiceB : StripeInvoice :=
  { ID := "row_1", UserID := "user_1", InvoiceID := "inv_1", Amount := 500, CreatedAt := 5 }

/-- Scenario B: a store whose only row is the local invoice inv_1. -/
def worldB : World := { stripe_invoices := [invoiceB] }

/-- Scenario A: the local subscription sub_1, status active. -/
def subscriptionA : StripeSubscription :=
  { ID := "row_1", UserID := "user_1", SubscriptionID := "sub_1", Status := "active",
    CreatedAt := 5 }

/-- Scenario A: a store whose only row is the local subscription sub_1. -/
def worldA : World := { stripe_subscriptions := [subscriptionA] }

/-- Scenario A: the provider holds every subscription with status canceled;
the gateway answers every request with the given status code. -/
def envA (statusCode : Nat) : Env where
  httpDo := fun _ => .response statusCode
  uuidNew := fun k => "uuid-" ++ toString k
  timeNow := fun k => 1000 + k
  GetSubscription := fun _ => some { Status := "canceled" }
  GetInvoice := fun _ => none
  GetCustomer := fun _ => none
  formatDate := fun t => "day-" ++ toString (t / 86400000000000)
  cronFields := fun _ => true
  cronSpecial := fun _ => false

/-- The pairs of record type and field name for which the specification lists a repair. -/
def SupportedRepair (recordType fieldName : String) : Prop :=
  (recordType = "subscription" ∧ fieldName = "status") ∨
  (recordType = "invoice" ∧ fieldName = "amount") ∨
  (recordType = "invoice" ∧ fieldName = "status") ∨
  (recordType = "customer" ∧ fieldName = "email")

/-- The columns of a diff that a repair leaves as they were: everything but
the status, the three fixing columns and the update timestamp. -/
def SameRecordedDiff (diff fixed : ReconciliationDiff) : Prop :=
  fixed.ID = diff.ID ∧ fixed.ReportID = diff.ReportID ∧ fixed.RecordType = diff.RecordType ∧
  fixed.RecordID = diff.RecordID ∧ fixed.UserID = diff.UserID ∧
  fixed.DiffType = diff.DiffType ∧ fixed.FieldName = diff.FieldName ∧
  fixed.LocalValue = diff.LocalValue ∧ fixed.StripeValue = diff.StripeValue ∧
  fixed.Severity = diff.Severity ∧ fixed.Notes = diff.Notes ∧
  fixed.CreatedAt = diff.CreatedAt

/-- Scenario A: the diff the comparator records for sub_1. -/
def diffA : ReconciliationDiff :=
  { ID := "diff_1", ReportID := "report_1", RecordType := "subscription", RecordID := "sub_1",
    UserID := "user_1", DiffType := "mismatch", FieldName := "status", LocalValue := "active",
    StripeValue := "canceled", Severity := "medium", Status := "pending",
    CreatedAt := 20, UpdatedAt := 21 }

/-- Scenario C: the store of Scenario A together with the recorded diff. -/
def worldC : World :=
  { stripe_subscriptions := [subscriptionA], reconciliation_diffs := [diffA] }

/-- Scenario C: auto-fix enabled with threshold medium. -/
def configC : ReconciliationConfig :=
  { ID := "default", Enabled := true, AutoFixEnabled := true, AutoFixSeverity := "medium" }

/-- Nothing was written between two states: the six tables of the Record Store
hold the same rows. -/
def SameStore (w w' : World) : Prop :=
  w'.stripe_subscriptions = w.stripe_subscriptions ∧
  w'.stripe_invoices = w.stripe_invoices ∧
  w'.stripe_customers = w.stripe_customers ∧
  w'.reconciliation_reports = w.reconciliation_reports ∧
  w'.reconciliation_diffs = w.reconciliation_diffs ∧
  w'.reconciliation_audit_logs = w.reconciliation_audit_logs

/-- Scenario D: auto-fix enabled with threshold low. -/
def configD : ReconciliationConfig :=
  { ID := "default", Enabled := true, AutoFixEnabled := true, AutoFixSeverity := "low" }

/-- Scenario D: a pending diff of severity high. -/
def diffD : ReconciliationDiff :=
  { ID := "diff_2", ReportID := "report_1", RecordType := "subscription", RecordID := "sub_1",
    UserID := "user_1", DiffType := "mismatch", FieldName := "status", LocalValue := "active",
    StripeValue := "canceled", Severity := "high", Status := "pending",
    CreatedAt := 20, UpdatedAt := 21 }

/-- Scenario C with a faulty gateway: the first request, which is the repair
write, is answered 500 Internal Server Error; every later request is answered
200. There is no transport error. -/
def envRejectedWrite : Env where
  httpDo := fun k => if k = 0 then .response 500 else .response 200
  uuidNew := fun k => "uuid-" ++ toString k
  timeNow := fun k => 1000 + k
  GetSubscription := fun _ => some { Status := "canceled" }
  GetInvoice := fun _ => none
  GetCustomer := fun _ => none
  formatDate := fun t => "day-" ++ toString (t / 86400000000000)
  cronFields := fun _ => true
  cronSpecial := fun _ => false

/-- The invariant of the specification on one diff: auto_fixed true implies
status auto_fixed, a fixing time and fixed_by system. -/
def DiffInvariant (d : ReconciliationDiff) : Prop :=
  d.AutoFixed = true → d.Status = "auto_fixed" ∧ d.FixedAt ≠ none ∧ d.FixedBy = "system"

/-- The invariant on every row of the diff table. -/
def StoreInvariant (w : World) : Prop :=
  ∀ row ∈ w.reconciliation_diffs, DiffInvariant row

/-- No row of the diff table went back to pending between two tables: each
row of the first is still there at its position, with its id, and if its
status was not pending it is not pending now. -/
def NoRevert (ds ds' : List ReconciliationDiff) : Prop :=
  ∀ (i : Nat) (row : ReconciliationDiff), ds[i]? = some row →
    ∃ row', ds'[i]? = some row' ∧ row'.ID = row.ID ∧
      (row.Status ≠ "pending" → row'.Status ≠ "pending")

/-- A table that is the earlier one, or the earlier one with one pending row
that is not auto-fixed appended. -/
def AppendedPending (ds ds' : List ReconciliationDiff) : Prop :=
  ds' = ds ∨ ∃ row, row.Status = "pending" ∧ row.AutoFixed = false ∧ ds' = ds ++ [row]

/-- Scenario C after a successful auto-fix: the diff diff_1 as auto-fixed. -/
def diffAutoFixed : ReconciliationDiff :=
  { diffA with Status := "auto_fixed", AutoFixed := true, FixedAt := some 1001,
               FixedBy := "system", UpdatedAt := 1002 }

/-- Scenario C after a successful auto-fix: the row of diff_1 is auto-fixed and
the local subscription reads canceled. -/
def worldAutoFixed : World :=
  { stripe_subscriptions := [{ subscriptionA with Status := "canceled" }],
    reconciliation_diffs := [diffAutoFixed] }

/-- The operations of the code that write the status of a diff: the three
comparisons, which create diffs, the auto-fix pass over a slice that holds the
followed diff object between the objects before and after, the two admin
handlers, and updateReconciliationDiff on the followed diff object. -/
inductive DiffOp where
  | reconcileSubscriptions (startDate endDate : Nat) (reportID : String)
  | reconcileInvoices (startDate endDate : Nat) (reportID : String)
  | reconcileCustomers (startDate endDate : Nat) (reportID : String)
  | autoFixDiffs (config : ReconciliationConfig) (before after : List ReconciliationDiff)
  | adminFixDiff (diffID : String) (notes : Option String)
  | adminIgnoreDiff (diffID : String) (notes : Option String)
  | updateReconciliationDiff
  deriving DecidableEq, Repr

/-- A diff followed through a sequence of operations: the diff object the
reconciliation service holds, and the state with the stored rows. -/
structure Tracked where
  diff : ReconciliationDiff
  world : World
  deriving DecidableEq, Repr

/-- One operation on a followed diff. -/
def DiffOp.apply (env : Env) (t : Tracked) : DiffOp → Tracked
  | .reconcileSubscriptions startDate endDate reportID =>
      { t with world := (reconciliation.reconcileSubscriptions env t.world startDate endDate
          reportID).2 }
  | .reconcileInvoices startDate endDate reportID =>
      { t with world := (reconciliation.reconcileInvoices env t.world startDate endDate
          reportID).2 }
  | .reconcileCustomers startDate endDate reportID =>
      { t with world := (reconciliation.reconcileCustomers env t.world startDate endDate
          reportID).2 }
  | .autoFixDiffs config before after =>
      { diff := (reconciliation.autoFixDiffs env config t.world
          (before ++ t.diff :: after)).1.getD before.length t.diff,
        world := (reconciliation.autoFixDiffs env config t.world
          (before ++ t.diff :: after)).2 }
  | .adminFixDiff diffID notes => { t with world := (admin.FixDiff env t.world diffID notes).2 }
  | .adminIgnoreDiff diffID notes =>
      { t with world := (admin.IgnoreDiff env t.world diffID notes).2 }
  | .updateReconciliationDiff =>
      { t with world := (reconciliation.updateReconciliationDiff env t.world t.diff).2 }

/-- A sequence of operations on a followed diff, first to last. -/
def runOps (env : Env) : List DiffOp → Tracked → Tracked
  | [], t => t
  | op :: ops, t => runOps env ops (DiffOp.apply env t op)

/- pkg/reconciliation/reconciliation.go, the orchestrator -/

/-- createReconciliationReport (reconciliation.go 378-418): a fresh uuid, three readings
of the clock, status pending and the counters at their zero value; the report
is returned only when the response has status 201 Created. -/
def createReconciliationReport (env : Env) (w : World) (startDate endDate : Nat) :
    Except GoError ReconciliationReport × World :=
  let u := uuidNewString env w
  let r := timeNow env u.2
  let c := timeNow env r.2
  let t := timeNow env c.2
  let d := httpclientDo env t.2 (.postReport u.1 r.1 startDate endDate "pending" c.1 t.1)
  match d.1 with
  | .transportError => (.error .transport, d.2)
  | .response statusCode =>
      if statusCode ≠ 201 then
        (.error (.message ("创建对账报告失败: " ++ toString statusCode)), d.2)
      else
        (.ok { ID := u.1, ReportDate := r.1, StartDate := startDate, EndDate := endDate,
               Status := "pending", CreatedAt := c.1, UpdatedAt := t.1 }, d.2)

/-- updateReportStatus (reconciliation.go 420-441). -/
def updateReportStatus (env : Env) (w : World) (reportID status : String) :
    Option GoError × World :=
  let t := timeNow env w
  let r := httpclientDo env t.2 (.patchReportStatus reportID status t.1)
  (doError r.1, r.2)

/-- updateReportStats (reconciliation.go 443-468). -/
def updateReportStats (env : Env) (w : World) (reportID : String)
    (totalDiffs matchedRecords subscriptionDiffs invoiceDiffs customerDiffs : Int) :
    Option GoError × World :=
  let t := timeNow env w
  let r := httpclientDo env t.2
    (.patchReportStats reportID (totalDiffs + matchedRecords) matchedRecords totalDiffs
      (subscriptionDiffs + invoiceDiffs + customerDiffs) t.1)
  (doError r.1, r.2)

/-- calculateMatchedRecords (reconciliation.go 627-630). -/
def calculateMatchedRecords (_startDate _endDate : Nat) : Int := 100

/-- sendReconciliationNotification (reconciliation.go 632-635): a log line only. -/
def sendReconciliationNotification (w : World) (_reportID : String) (_diffCount : Int) :
    World := w

/-- getReconciliationConfig (reconciliation.go 637-651): the default configuration, with
two readings of the clock; its error is always nil. -/
def getReconciliationConfig (env : Env) (w : World) : ReconciliationConfig × World :=
  let c := timeNow env w
  let t := timeNow env c.2
  ({ ID := "default", Enabled := true, Schedule := "0 2 * * *", AutoFixEnabled := true,
     AutoFixSeverity := "medium", NotificationEnabled := true,
     NotificationEmail := "admin@example.com", RetentionDays := 30,
     CreatedAt := c.1, UpdatedAt := t.1 }, t.2)

/-- The slice a comparison leaves in RunReconciliation: the diffs returned, nil
when it returned an error. -/
def diffsOrNil : Except GoError (List ReconciliationDiff) → List ReconciliationDiff
  | .ok diffs => diffs
  | .error _ => []

/-- RunReconciliation after the report was created, lines 48-49: the state after
the reconciliation_started audit entry. -/
def runStarted (env : Env) (w : World) (report : ReconciliationReport)
    (startDate endDate : Nat) : World :=
  logAuditEvent env w report.ID "reconciliation_started" "" "" ""
    ("开始对账，时间范围: " ++ env.formatDate startDate ++ " 到 " ++ env.formatDate endDate)

/-- RunReconciliation, lines 51-52: the state after the report is set to running. -/
def runRunning (env : Env) (w : World) (report : ReconciliationReport)
    (startDate endDate : Nat) : World :=
  (updateReportStatus env (runStarted env w report startDate endDate) report.ID "running").2

/-- RunReconciliation, lines 54-58: the subscription comparison. -/
def runSubscriptions (env : Env) (w : World) (report : ReconciliationReport)
    (startDate endDate : Nat) : Except GoError (List ReconciliationDiff) × World :=
  reconcileSubscriptions env (runRunning env w report startDate endDate) startDate endDate
    report.ID

/-- RunReconciliation, lines 60-64: the invoice comparison. -/
def runInvoices (env : Env) (w : World) (report : ReconciliationReport)
    (startDate endDate : Nat) : Except GoError (List ReconciliationDiff) × World :=
  reconcileInvoices env (runSubscriptions env w report startDate endDate).2 startDate endDate
    report.ID

/-- RunReconciliation, lines 66-70: the customer comparison. -/
def runCustomers (env : Env) (w : World) (report : ReconciliationReport)
    (startDate endDate : Nat) : Except GoError (List ReconciliationDiff) × World :=
  reconcileCustomers env (runInvoices env w report startDate endDate).2 startDate endDate
    report.ID

/-- RunReconciliation, line 73: totalDiffs. -/
def runTotalDiffs (env : Env) (w : World) (report : ReconciliationReport)
    (startDate endDate : Nat) : Int :=
  ((diffsOrNil (runSubscriptions env w report startDate endDate).1).length : Int) +
    ((diffsOrNil (runInvoices env w report startDate endDate).1).length : Int) +
    ((diffsOrNil (runCustomers env w report startDate endDate).1).length : Int)

/-- RunReconciliation, line 74: matchedRecords. -/
def runMatchedRecords (env : Env) (w : World) (report : ReconciliationReport)
    (startDate endDate : Nat) : Int :=
  calculateMatchedRecords startDate endDate - runTotalDiffs env w report startDate endDate

/-- RunReconciliation, lines 76-79: the state after the auto-fix pass over the three
slices appended, when auto-fix is enabled. -/
def runFixed (env : Env) (config : ReconciliationConfig) (w : World)
    (report : ReconciliationReport) (startDate endDate : Nat) : World :=
  if config.AutoFixEnabled then
    (autoFixDiffs env config (runCustomers env w report startDate endDate).2
      (diffsOrNil (runSubscriptions env w report startDate endDate).1 ++
        diffsOrNil (runInvoices env w report startDate endDate).1 ++
        diffsOrNil (runCustomers env w report startDate endDate).1)).2
  else (runCustomers env w report startDate endDate).2

/-- RunReconciliation, lines 81-82: the state after the statistics are written. -/
def runCompleted (env : Env) (config : ReconciliationConfig) (w : World)
    (report : ReconciliationReport) (startDate endDate : Nat) : World :=
  (updateReportStats env (runFixed env config w report startDate endDate) report.ID
    (runTotalDiffs env w report startDate endDate)
    (runMatchedRecords env w report startDate endDate)
    ((diffsOrNil (runSubscriptions env w report startDate endDate).1).length : Int)
    ((diffsOrNil (runInvoices env w report startDate endDate).1).length : Int)
    ((diffsOrNil (runCustomers env w report startDate endDate).1).length : Int)).2

/-- RunReconciliation, lines 84-90: the notification, when enabled and there is a
diff, and the reconciliation_completed audit entry. -/
def runFinished (env : Env) (config : ReconciliationConfig) (w : World)
    (report : ReconciliationReport) (startDate endDate : Nat) : World :=
  logAuditEvent env
    (if config.NotificationEnabled ∧ 0 < runTotalDiffs env w report startDate endDate then
      sendReconciliationNotification (runCompleted env config w report startDate endDate)
        report.ID (runTotalDiffs env w report startDate endDate)
     else runCompleted env config w report startDate endDate)
    report.ID "reconciliation_completed" "" "" ""
    ("对账完成，发现 " ++ Itoa (runTotalDiffs env w report startDate endDate) ++ " 个差异")

/-- RunReconciliation (reconciliation.go 40-93): the report and the error returned, and
the state afterwards. The steps after the creation of the report are the
definitions above, each starting from the state the previous one left. -/
def RunReconciliation (env : Env) (config : ReconciliationConfig) (w : World)
    (startDate endDate : Nat) : (Option ReconciliationReport × Option GoError) × World :=
  match (createReconciliationReport env w startDate endDate).1 with
  | .error err =>
      ((none, some (.wrapped "创建对账报告失败" err)),
        (createReconciliationReport env w startDate endDate).2)
  | .ok report =>
      ((some report, none),
        runFinished env config (createReconciliationReport env w startDate endDate).2 report
          startDate endDate)

/- github.com/robfig/cron/v3, as far as the scheduler uses it -/

namespace cron

/-- An entry of the cron instance: its identifier and the expression its
schedule was parsed from; the job of every entry here is runReconciliationTask. -/
structure Entry where
  ID : Nat
  Spec : String
  deriving DecidableEq, Repr

/-- The cron instance: the installed entries, the last identifier handed out
and whether the instance is running. cron.New gives no entry, identifier 0 and
not running. -/
structure Cron where
  entries : List Entry := []
  nextID : Nat := 0
  running : Bool := false
  deriving DecidableEq, Repr

/-- The white space of unicode.IsSpace. -/
def isSpace (c : Char) : Bool :=
  let n := c.toNat
  (9 ≤ n && n ≤ 13) || n = 32 || n = 0x85 || n = 0xA0 || n = 0x1680 ||
    (0x2000 ≤ n && n ≤ 0x200A) || n = 0x2028 || n = 0x2029 || n = 0x202F || n = 0x205F ||
    n = 0x3000

/-- The loop of strings.Fields: cur holds the characters of the field being
read, last first. -/
def fieldsLoop : List Char → List Char → List String
  | [], cur => if cur.isEmpty then [] else [String.mk cur.reverse]
  | c :: cs, cur =>
      if isSpace c then
        if cur.isEmpty then fieldsLoop cs [] else String.mk cur.reverse :: fieldsLoop cs []
      else fieldsLoop cs (c :: cur)

/-- The function strings.Fields: the maximal runs of characters that are not white space. -/
def Fields (s : String) : List String := fieldsLoop s.toList []

/-- The function strings.HasPrefix. -/
def HasPrefix (s pre : String) : Bool := pre.toList.isPrefixOf s.toList

/-- Whether Parser.Parse of the parser of cron.WithSeconds() accepts an
expression. That parser has the six places second, minute, hour, day of month,
month and day of week, none optional: an empty expression is refused, an
expression with other than exactly six fields is refused, and six fields are
accepted when their contents parse. An expression that starts with a time
zone or is a descriptor is left to the library. -/
def Parse (env : Env) (spec : String) : Bool :=
  if spec = "" then false
  else if HasPrefix spec "TZ=" || HasPrefix spec "CRON_TZ=" || HasPrefix spec "@" then
    env.cronSpecial spec
  else decide ((Fields spec).length = 6) && env.cronFields (Fields spec)

/-- Cron.AddFunc: a refused expression gives an error (none) and changes
nothing; otherwise the next identifier is handed out and the entry installed. -/
def Cron.AddFunc (env : Env) (c : Cron) (spec : String) : Option Nat × Cron :=
  if Parse env spec then
    (some (c.nextID + 1),
      { c with nextID := c.nextID + 1,
               entries := c.entries ++ [{ ID := c.nextID + 1, Spec := spec }] })
  else (none, c)

/-- Cron.Remove: the entry with this identifier is taken out, if there is one. -/
def Cron.Remove (c : Cron) (id : Nat) : Cron :=
  { c with entries := c.entries.filter fun e => decide (e.ID ≠ id) }

/-- Cron.Start. -/
def Cron.Start (c : Cron) : Cron := { c with running := true }

/-- Cron.Stop: the entries stay installed. -/
def Cron.Stop (c : Cron) : Cron := { c with running := false }

end cron

/- pkg/reconciliation/scheduler.go -/

/-- Scheduler (scheduler.go 13-17): the cron instance, the configuration of the
service it points to, and the identifier of the entry it installed last, 0
when it installed none. -/
structure Scheduler where
  cron : cron.Cron
  config : ReconciliationConfig
  entryID : Nat
  deriving DecidableEq, Repr

/-- NewScheduler (scheduler.go 19-25). -/
def NewScheduler (config : ReconciliationConfig) : Scheduler :=
  { cron := {}, config := config, entryID := 0 }

/-- Scheduler.Start (scheduler.go 27-41). -/
def Scheduler.Start (env : Env) (s : Scheduler) : Option GoError × Scheduler :=
  match cron.Cron.AddFunc env s.cron s.config.Schedule with
  | (none, _) => (some (.message "添加定时任务失败"), s)
  | (some entryID, c) => (none, { s with cron := c.Start, entryID := entryID })

/-- Scheduler.Stop (scheduler.go 43-49). -/
def Scheduler.Stop (s : Scheduler) : Scheduler := { s with cron := s.cron.Stop }

/-- The duration time.Hour, in nanoseconds; instants count nanoseconds from the
zero time. -/
def Hour : Nat := 3600 * 1000000000

/-- Time.Truncate: the instant rounded down to a multiple of d since the zero
time; d ≤ 0 returns the instant. -/
def Truncate (t d : Nat) : Nat := if d = 0 then t else t - t % d

/-- Scheduler.runReconciliationTask (scheduler.go 51-70): the window is computed from one
reading of the clock; the result of the run is only logged. -/
def Scheduler.runReconciliationTask (env : Env) (s : Scheduler) (w : World) : World :=
  (RunReconciliation env s.config (timeNow env w).2
    (Truncate (timeNow env w).1 (24 * Hour) - 24 * Hour)
    (Truncate (timeNow env w).1 (24 * Hour))).2

/-- Scheduler.RunManualReconciliation (scheduler.go 72-87). -/
def Scheduler.RunManualReconciliation (env : Env) (s : Scheduler) (w : World)
    (startDate endDate : Nat) : (Option ReconciliationReport × Option GoError) × World :=
  match RunReconciliation env s.config w startDate endDate with
  | ((_, some err), w1) => ((none, some err), w1)
  | ((report, none), w1) => ((report, none), w1)

/-- Scheduler.GetSchedule (scheduler.go 102-105). -/
def Scheduler.GetSchedule (s : Scheduler) : String := s.config.Schedule

/-- Scheduler.UpdateSchedule (scheduler.go 107-127): the current entry is removed before
the new expression is parsed. -/
def Scheduler.UpdateSchedule (env : Env) (s : Scheduler) (w : World) (newSchedule : String) :
    Option GoError × Scheduler × World :=
  match cron.Cron.AddFunc env (if s.entryID ≠ 0 then s.cron.Remove s.entryID else s.cron)
      newSchedule with
  | (none, c) => (some (.message "更新调度配置失败"), { s with cron := c }, w)
  | (some entryID, c) =>
      (none,
        { cron := c, entryID := entryID,
          config := { s.config with Schedule := newSchedule, UpdatedAt := (timeNow env w).1 } },
        (timeNow env w).2)

/-- The identifiers of a scheduler are those its cron instance handed out: no
entry and no recorded entry identifier is beyond the last identifier handed
out. Every scheduler built by NewScheduler and changed by Start, Stop and
UpdateSchedule is so. -/
def SchedulerWF (s : Scheduler) : Prop :=
  (∀ entry ∈ s.cron.entries, entry.ID ≤ s.cron.nextID) ∧ s.entryID ≤ s.cron.nextID

/-- Scenario E: a configuration whose schedule has the six fields of the
scheduler's parser. -/
def configE : ReconciliationConfig :=
  { ID := "default", Enabled := true, Schedule := "0 0 2 * * *", AutoFixEnabled := true,
    AutoFixSeverity := "medium", UpdatedAt := 7 }

/-- Scenario E: the scheduler after Start. -/
def schedulerE : Scheduler := (Scheduler.Start acceptingEnv (NewScheduler configE)).2

/-- A gateway that answers every request 201 Created and a provider that holds
every subscription with status canceled and knows no invoice or customer. -/
def envCreated : Env where
  httpDo := fun _ => .response 201
  uuidNew := fun k => "uuid-" ++ toString k
  timeNow := fun k => 1000 + k
  GetSubscription := fun _ => some { Status := "canceled" }
  GetInvoice := fun _ => none
  GetCustomer := fun _ => none
  formatDate := fun t => "day-" ++ toString (t / 86400000000000)
  cronFields := fun _ => true
  cronSpecial := fun _ => false

/-- The report a run over the window from 0 to 10 creates with envCreated. -/
def reportCreated : ReconciliationReport :=
  { ID := "uuid-0", ReportDate := 1000, StartDate := 0, EndDate := 10, Status := "pending",
    CreatedAt := 1001, UpdatedAt := 1002 }

/-- A gateway that answers 201 Created except to the fourth request of a run,
the fetch of the local subscriptions, which ends in a transport error; the
provider knows no record. -/
def envFetchFailure : Env where
  httpDo := fun k => if k = 3 then .transportError else .response 201
  uuidNew := fun k => "uuid-" ++ toString k
  timeNow := fun k => 1000 + k
  GetSubscription := fun _ => none
  GetInvoice := fun _ => none
  GetCustomer := fun _ => none
  formatDate := fun t => "day-" ++ toString (t / 86400000000000)
  cronFields := fun _ => true
  cronSpecial := fun _ => false

/-- A store with the local subscription sub_1 and the local invoice inv_1. -/
def worldAB : World :=
  { stripe_subscriptions := [subscriptionA], stripe_invoices := [invoiceB] }

/-- The requests a comparison of the given entity type sends: the fetch of its
local records and the saving of diffs of its record type. -/
def IsComparisonRequest (entity : String) : Request → Prop
  | .getStripeSubscriptions _ _ => entity = "subscription"
  | .getStripeInvoices _ _ => entity = "invoice"
  | .getStripeCustomers _ _ => entity = "customer"
  | .postDiff _ _ recordType _ _ _ _ _ _ _ _ _ _ => recordType = entity
  | _ => False

/-- The requests the auto-fix pass sends: a write to a local table, the update
of a diff to auto_fixed by system, an audit entry with action auto_fix. -/
def IsAutoFixRequest : Request → Prop
  | .patchSubscriptionStatus _ _ _ => True
  | .patchInvoiceAmount _ _ _ => True
  | .patchInvoiceStatus _ _ _ => True
  | .patchCustomerEmail _ _ _ => True
  | .patchDiff _ status autoFixed _ fixedBy _ =>
      status = "auto_fixed" ∧ autoFixed = true ∧ fixedBy = "system"
  | .postAuditLog log => log.Action = "auto_fix"
  | _ => False

/-- The status a request writes to a report, if it writes one. -/
def reportStatusWritten : Request → Option String
  | .postReport _ _ _ _ status _ _ => some status
  | .patchReportStatus _ status _ => some status
  | .patchReportStats _ _ _ _ _ _ => some "completed"
  | _ => none

/-- Between two states only requests with the property P were sent. -/
def Issued (P : Request → Prop) (w w' : World) : Prop :=
  ∃ reqs, w'.requests = w.requests ++ reqs ∧ ∀ r ∈ reqs, P r

/- The comparator as a function of the snapshots -/

/-- A diff without what a run generates for it: the identifier and the two
timestamps are blanked. -/
def stripGenerated (d : ReconciliationDiff) : ReconciliationDiff :=
  { d with ID := "", CreatedAt := 0, UpdatedAt := 0 }

/-- The field-level content of a diff, for comparing two runs: the generated
identifier, the identifier of the run's report and the timestamps are blanked. -/
def diffContent (d : ReconciliationDiff) : ReconciliationDiff :=
  { d with ID := "", ReportID := "", CreatedAt := 0, UpdatedAt := 0 }

/-- The missing diff of the specification, without identifier and timestamps. -/
def specMissingDiff (reportID entity recordID userID severity : String) : ReconciliationDiff :=
  { ReportID := reportID, RecordType := entity, RecordID := recordID, UserID := userID,
    DiffType := "missing", FieldName := entity, LocalValue := "exists",
    StripeValue := "not_found", Severity := severity, Status := "pending" }

/-- The mismatch diff of the specification, without identifier and timestamps. -/
def specMismatchDiff (reportID entity recordID userID fieldName localValue remoteValue
    severity : String) : ReconciliationDiff :=
  { ReportID := reportID, RecordType := entity, RecordID := recordID, UserID := userID,
    DiffType := "mismatch", FieldName := fieldName, LocalValue := localValue,
    StripeValue := remoteValue, Severity := severity, Status := "pending" }

/-- The specification's mapping of one local subscription under a remote
snapshot: a missing diff when the lookup fails, a mismatch diff when the
status differs, no diff otherwise. -/
def specSubscriptionDiff (reportID : String) (remote : String → Option stripe.Subscription)
    (localSub : StripeSubscription) : Option ReconciliationDiff :=
  match remote localSub.SubscriptionID with
  | none =>
      some (specMissingDiff reportID "subscription" localSub.SubscriptionID localSub.UserID
        "high")
  | some stripeSub =>
      if stripeSub.Status = localSub.Status then none
      else
        some (specMismatchDiff reportID "subscription" localSub.SubscriptionID localSub.UserID
          "status" localSub.Status stripeSub.Status "medium")

/-- The specification's mapping of one local invoice: missing when the lookup
fails, mismatch when the paid amount differs from the local amount. -/
def specInvoiceDiff (reportID : String) (remote : String → Option stripe.Invoice)
    (localInvoice : StripeInvoice) : Option ReconciliationDiff :=
  match remote localInvoice.InvoiceID with
  | none =>
      some (specMissingDiff reportID "invoice" localInvoice.InvoiceID localInvoice.UserID
        "medium")
  | some stripeInvoice =>
      if stripeInvoice.AmountPaid = localInvoice.Amount then none
      else
        some (specMismatchDiff reportID "invoice" localInvoice.InvoiceID localInvoice.UserID
          "amount" (toString localInvoice.Amount) (toString stripeInvoice.AmountPaid) "high")

/-- The specification's mapping of one local customer: missing when the lookup
fails, mismatch when the email differs. -/
def specCustomerDiff (reportID : String) (remote : String → Option stripe.Customer)
    (localCustomer : StripeCustomer) : Option ReconciliationDiff :=
  match remote localCustomer.CustomerID with
  | none =>
      some (specMissingDiff reportID "customer" localCustomer.CustomerID localCustomer.UserID
        "high")
  | some stripeCustomer =>
      if stripeCustomer.Email = localCustomer.Email then none
      else
        some (specMismatchDiff reportID "customer" localCustomer.CustomerID
          localCustomer.UserID "email" localCustomer.Email stripeCustomer.Email "low")

/-- A second run for the comparison of two runs: another gateway, clock and
uuid source, the same provider as envA. -/
def envA2 : Env where
  httpDo := fun _ => .response 201
  uuidNew := fun k => "other-" ++ toString k
  timeNow := fun k => 5000 + 2 * k
  GetSubscription := fun _ => some { Status := "canceled" }
  GetInvoice := fun _ => none
  GetCustomer := fun _ => none
  formatDate := fun _ => ""
  cronFields := fun _ => true
  cronSpecial := fun _ => false

/- Status changes of the fixing operations -/

/-- Between two diff tables every row is still at its position with its id,
and its status is the one it had or the given target. -/
def StatusMovesOnlyTo (target : String) (ds ds' : List ReconciliationDiff) : Prop :=
  ∀ (i : Nat) (row : ReconciliationDiff), ds[i]? = some row →
    ∃ row', ds'[i]? = some row' ∧ row'.ID = row.ID ∧
      (row'.Status = row.Status ∨ row'.Status = target)

/-- Scenario C with the diff diff_1 already ignored by an administrator. -/
def diffIgnored : ReconciliationDiff :=
  { diffA with Status := "ignored", Notes := "known", UpdatedAt := 30 }

/-- Scenario C with the row of diff_1 already ignored. -/
def worldIgnored : World :=
  { stripe_subscriptions := [subscriptionA], reconciliation_diffs := [diffIgnored] }

/- Missing diffs and the auto-fix pass -/

/-- A diff the comparator produced with diff_type missing: the diff that one
iteration of one of the three comparison loops appends, for some environment,
report, state and local record, and whose diff type is missing. -/
def ComparatorMissingDiff (diff : ReconciliationDiff) : Prop :=
  diff.DiffType = "missing" ∧
  ∃ (env : Env) (reportID : String) (w : World),
    (∃ localSub, (reconcileSubscription env reportID w localSub).1 = some diff) ∨
    (∃ localInvoice, (reconcileInvoice env reportID w localInvoice).1 = some diff) ∨
    (∃ localCustomer, (reconcileCustomer env reportID w localCustomer).1 = some diff)

/-- The missing diff the comparator appends for the local invoice inv_1 of
Scenario B when the provider does not know it. -/
def diffB : ReconciliationDiff :=
  (reconcileInvoice acceptingEnv "report_1" worldB invoiceB).1.getD {}

/-- Scenario B with auto-fix enabled for every severity. -/
def configB : ReconciliationConfig :=
  { ID := "default", Enabled := true, AutoFixEnabled := true, AutoFixSeverity := "critical" }

/- The trigger of the scheduler over sequences of calls -/

/-- The calls on a scheduler that install or remove triggers. -/
inductive SchedulerCall where
  | Start
  | Stop
  | UpdateSchedule (newSchedule : String)
  deriving DecidableEq, Repr

/-- One call on a scheduler, in the state the call is made in; the error a
call returns is dropped. -/
def SchedulerCall.apply (env : Env) (sw : Scheduler × World) : SchedulerCall → Scheduler × World
  | .Start => ((Scheduler.Start env sw.1).2, sw.2)
  | .Stop => (Scheduler.Stop sw.1, sw.2)
  | .UpdateSchedule newSchedule =>
      ((Scheduler.UpdateSchedule env sw.1 sw.2 newSchedule).2.1,
        (Scheduler.UpdateSchedule env sw.1 sw.2 newSchedule).2.2)

/-- A sequence of calls on a scheduler, first to last. -/
def runCalls (env : Env) : List SchedulerCall → Scheduler × World → Scheduler × World
  | [], sw => sw
  | call :: rest, sw => runCalls env rest (SchedulerCall.apply env sw call)

/-- The trigger invariant of the specification: at most one trigger is
installed in the cron instance, and an installed trigger has the identifier
entryID and the expression GetSchedule() returns. -/
def TriggerInvariant (s : Scheduler) : Prop :=
  s.cron.entries.length ≤ 1 ∧
  ∀ entry ∈ s.cron.entries, entry.ID = s.entryID ∧ entry.Spec = s.GetSchedule

/-- In a sequence of calls, every Start is made while no trigger is installed. -/
def StartOnlyWithoutTrigger (env : Env) : List SchedulerCall → Scheduler × World → Prop
  | [], _ => True
  | call :: rest, sw =>
      (call = .Start → sw.1.cron.entries = []) ∧
      StartOnlyWithoutTrigger env rest (SchedulerCall.apply env sw call)

/- service/api/user/stripe/webhook.go, the usage functions -/

namespace webhook

/-- A row of usage_records, with the columns CheckAndRecordUsage posts. -/
structure UsageRecord where
  UserID : String := ""
  CharacterCount : Int := 0
  RequestType : String := ""
  CreatedAt : Nat := 0
  deriving DecidableEq, Repr

/-- The requests the usage functions send to the gateway: the active
subscriptions of a user, at most one row; the usage records of a user created
at or after an instant; and a new usage record. -/
inductive UsageRequest where
  | getActiveSubscriptions (userID : String)
  | getUsageRecords (userID : String) (since : Nat)
  | postUsageRecord (userID : String) (characterCount : Int) (requestType : String)
      (createdAt : Nat)
  deriving DecidableEq, Repr

/-- The state the usage functions run against: the package variable usageMutex
(webhook.go 22-26), true while it is locked; the two tables read and written;
the requests sent so far and the number of clock readings drawn so far. -/
structure UsageState where
  usageMutex : Bool := false
  stripe_subscriptions : List StripeSubscription := []
  usage_records : List UsageRecord := []
  requests : List UsageRequest := []
  ticks : Nat := 0
  deriving DecidableEq, Repr

/-- The collaborators of the usage functions: the outcome of the k-th request,
the k-th reading of the clock, the first instant of the month of an instant,
the constant config.Cfg.Quota.FreeCharacterLimit, and the field CharacterLimit that
webhook.go reads from a subscription row (models/tables declares no such
field, so it is taken as given). -/
structure UsageEnv where
  httpDo : Nat → HttpOutcome
  timeNow : Nat → Nat
  startOfMonth : Nat → Nat
  FreeCharacterLimit : Int
  CharacterLimit : StripeSubscription → Int

/-- How a call made by one goroutine ends: it returns a value and leaves a
state; or it blocks in Lock on a mutex that no running goroutine will unlock,
and never returns; or the runtime stops the program with a fatal error. -/
inductive Outcome (α : Type) where
  | returned (value : α) (state : UsageState)
  | blocked
  | fatal
  deriving DecidableEq, Repr

/-- The call usageMutex.Lock(): a free mutex is taken. sync.Mutex is not
reentrant: Lock on a locked mutex waits for an Unlock, whoever holds the
mutex, the caller included; none stands for that wait. -/
def usageMutexLock (s : UsageState) : Option UsageState :=
  if s.usageMutex then none else some { s with usageMutex := true }

/-- The deferred usageMutex.Unlock() followed by the return of a value: Unlock of
a mutex that is not locked is a fatal error of the runtime. -/
def unlockAndReturn {α : Type} (value : α) (s : UsageState) : Outcome α :=
  if s.usageMutex then .returned value { s with usageMutex := false } else .fatal

/-- Gateway, effect of an accepted request on the tables. -/
def applyUsageRequest (s : UsageState) : UsageRequest → UsageState
  | .getActiveSubscriptions _ => s
  | .getUsageRecords _ _ => s
  | .postUsageRecord userID characterCount requestType createdAt =>
      { s with usage_records := s.usage_records ++
          [{ UserID := userID, CharacterCount := characterCount, RequestType := requestType,
             CreatedAt := createdAt }] }

/-- One call of httpclient.Client.Do by the usage functions. -/
def usageDo (env : UsageEnv) (s : UsageState) (req : UsageRequest) : HttpOutcome × UsageState :=
  match env.httpDo s.requests.length with
  | .transportError => (.transportError, { s with requests := s.requests ++ [req] })
  | .response statusCode =>
      (.response statusCode,
        if accepted statusCode then
          applyUsageRequest { s with requests := s.requests ++ [req] } req
        else { s with requests := s.requests ++ [req] })

/-- supabaseGet (webhook.go 530-555): the error returned; the rows decoded are
those of the table, taken by the caller. A status of 400 or more is an error;
the body of any other answer that is not accepted is no array, so decoding it
is an error. -/
def supabaseGet (env : UsageEnv) (s : UsageState) (req : UsageRequest) :
    Option GoError × UsageState :=
  match usageDo env s req with
  | (.transportError, s1) => (some .transport, s1)
  | (.response statusCode, s1) =>
      if 400 ≤ statusCode then
        (some (.message ("Supabase GET请求失败: " ++ toString statusCode)), s1)
      else if accepted statusCode then (none, s1)
      else (some (.message "json: cannot decode the body"), s1)

/-- supabasePost (webhook.go 558-588). -/
def supabasePost (env : UsageEnv) (s : UsageState) (req : UsageRequest) :
    Option GoError × UsageState :=
  match usageDo env s req with
  | (.transportError, s1) => (some .transport, s1)
  | (.response statusCode, s1) =>
      if 400 ≤ statusCode then
        (some (.message ("Supabase POST请求失败: " ++ toString statusCode)), s1)
      else (none, s1)

/-- getMonthlyUsage (webhook.go 450-474): the int sum of the character counts of the
user's records created since the start of the month. -/
def getMonthlyUsage (env : UsageEnv) (s : UsageState) (userID : String) :
    Except GoError Int × UsageState :=
  let now := env.timeNow s.ticks
  let r := supabaseGet env { s with ticks := s.ticks + 1 }
    (.getUsageRecords userID (env.startOfMonth now))
  match r.1 with
  | some err => (.error err, r.2)
  | none =>
      (.ok ((s.usage_records.filter fun record =>
          decide (record.UserID = userID) && decide (env.startOfMonth now ≤ record.CreatedAt)).foldl
        (fun totalUsage record => wrapInt64 (totalUsage + record.CharacterCount)) 0), r.2)

/-- checkUserQuota (webhook.go 410-447): usageMutex is locked on entry and unlocked on
return. -/
def checkUserQuota (env : UsageEnv) (s : UsageState) (userID : String)
    (characterCount : Int) : Outcome (Bool × Option GoError) :=
  match usageMutexLock s with
  | none => .blocked
  | some s1 =>
      match supabaseGet env s1 (.getActiveSubscriptions userID) with
      | (some err, s2) => unlockAndReturn (false, some err) s2
      | (none, s2) =>
          match (s1.stripe_subscriptions.filter fun sub =>
              decide (sub.UserID = userID) && decide (sub.Status = "active")).take 1 with
          | [] =>
              match getMonthlyUsage env s2 userID with
              | (.error err, s3) => unlockAndReturn (false, some err) s3
              | (.ok usedChars, s3) =>
                  unlockAndReturn
                    (decide (wrapInt64 (usedChars + characterCount) ≤ env.FreeCharacterLimit),
                      none) s3
          | subscription :: _ =>
              match getMonthlyUsage env s2 userID with
              | (.error err, s3) => unlockAndReturn (false, some err) s3
              | (.ok usedChars, s3) =>
                  unlockAndReturn
                    (decide (wrapInt64 (usedChars + characterCount) ≤
                      env.CharacterLimit subscription), none) s3

/-- CheckAndRecordUsage (webhook.go 477-504): usageMutex is locked on entry, and
checkUserQuota is called while it is held. -/
def CheckAndRecordUsage (env : UsageEnv) (s : UsageState) (userID : String)
    (characterCount : Int) (requestType : String) : Outcome (Bool × Option GoError) :=
  match usageMutexLock s with
  | none => .blocked
  | some s1 =>
      match checkUserQuota env s1 userID characterCount with
      | .blocked => .blocked
      | .fatal => .fatal
      | .returned (_, some err) s2 => unlockAndReturn (false, some err) s2
      | .returned (false, none) s2 => unlockAndReturn (false, none) s2
      | .returned (true, none) s2 =>
          match supabasePost env { s2 with ticks := s2.ticks + 1 }
              (.postUsageRecord userID characterCount requestType (env.timeNow s2.ticks)) with
          | (some err, s3) => unlockAndReturn (true, some err) s3
          | (none, s3) => unlockAndReturn (true, none) s3

/-- A gateway that accepts every request, a clock that reads 1000 + k, months
that start at 0, a free quota of 1000 characters. -/
def usageEnv : UsageEnv where
  httpDo := fun _ => .response 200
  timeNow := fun k => 1000 + k
  startOfMonth := fun _ => 0
  FreeCharacterLimit := 1000
  CharacterLimit := fun _ => 5000

end webhook

/- Identifiers and filter values pasted into a URL -/

/-- The unreserved characters of a URL: letters, digits, hyphen, full stop,
underscore and tilde. -/
def unreserved (c : Char) : Bool :=
  (decide (48 ≤ c.toNat) && decide (c.toNat ≤ 57)) ||
    (decide (65 ≤ c.toNat) && decide (c.toNat ≤ 90)) ||
    (decide (97 ≤ c.toNat) && decide (c.toNat ≤ 122)) ||
    decide (c.toNat = 45) || decide (c.toNat = 46) || decide (c.toNat = 95) ||
    decide (c.toNat = 126)

/-- An identifier made of unreserved characters only: pasted after eq. at the end
of a query it is the one value of that filter, and http.NewRequest accepts the URL. -/
def PlainQueryValue (s : String) : Prop := ∀ c ∈ s.toList, unreserved c = true

/-- What a list handler does with the query text it wrote, seen from outside:
when http.NewRequest accepts the URL it answers and sends exactly one GET, to the
given table with that query text up to the first number sign, the whole text
when it has none; when NewRequest refuses the URL it panics, so there is no
answer and nothing is sent. -/
def SendsOnly (result : Option Nat × World) (w : World) (table query : String) : Prop :=
  (newRequestAccepts query = true →
    result.1 ≠ none ∧
    result.2.requests = w.requests ++ [.getList table (beforeFragment query)]) ∧
  (newRequestAccepts query = false → result = (none, w))

/-- Scenario C with a gateway that loses the update of the diff: the second
request of the auto-fix pass, the PATCH of updateReconciliationDiff, ends in a
transport error; every other request is answered 200. -/
def envUpdateLost : Env where
  httpDo := fun k => if k = 1 then .transportError else .response 200
  uuidNew := fun k => "uuid-" ++ toString k
  timeNow := fun k => 1000 + k
  GetSubscription := fun _ => some { Status := "canceled" }
  GetInvoice := fun _ => none
  GetCustomer := fun _ => none
  formatDate := fun t => "day-" ++ toString (t / 86400000000000)
  cronFields := fun _ => true
  cronSpecial := fun _ => false

/-- Scenario C with a gateway that loses the update of the diff in the admin
handler: the third request of FixDiff, after the lookup of the diff and the
repair, ends in a transport error; every other request is answered 200. -/
def envThirdLost : Env where
  httpDo := fun k => if k = 2 then .transportError else .response 200
  uuidNew := fun k => "uuid-" ++ toString k
  timeNow := fun k => 1000 + k
  GetSubscription := fun _ => some { Status := "canceled" }
  GetInvoice := fun _ => none
  GetCustomer := fun _ => none
  formatDate := fun t => "day-" ++ toString (t / 86400000000000)
  cronFields := fun _ => true
  cronSpecial := fun _ => false

/-- A gateway that answers 201 Created except to the fourth request of a run,
the fetch of the local subscriptions, which it answers 500 Internal Server
Error; there is no transport error; the provider knows no record. -/
def envFetchRejected : Env where
  httpDo := fun k => if k = 3 then .response 500 else .response 201
  uuidNew := fun k => "uuid-" ++ toString k
  timeNow := fun k => 1000 + k
  GetSubscription := fun _ => none
  GetInvoice := fun _ => none
  GetCustomer := fun _ => none
  formatDate := fun t => "day-" ++ toString (t / 86400000000000)
  cronFields := fun _ => true
  cronSpecial := fun _ => false

/-- A gateway that answers every request 201 Created and a provider that knows
no record. -/
def envCreatedEmpty : Env where
  httpDo := fun _ => .response 201
  uuidNew := fun k => "uuid-" ++ toString k
  timeNow := fun k => 1000 + k
  GetSubscription := fun _ => none
  GetInvoice := fun _ => none
  GetCustomer := fun _ => none
  formatDate := fun t => "day-" ++ toString (t / 86400000000000)
  cronFields := fun _ => true
  cronSpecial := fun _ => false

end reconciliation

namespace reconciliation

open tables

/- Auto-fix eligibility -/

theorem severityRank_eq_some_iff (s : String) (n : Nat) :
    severityRank s = some n ↔
      (s = "low" ∧ n = 0) ∨ (s = "medium" ∧ n = 1) ∨ (s = "high" ∧ n = 2)
        ∨ (s = "critical" ∧ n = 3) := by
  unfold severityRank
  by_cases h1 : s = "low"
  · subst h1; simp [eq_comm]
  by_cases h2 : s = "medium"
  · subst h2; simp [eq_comm]
  by_cases h3 : s = "high"
  · subst h3; simp [eq_comm]
  by_cases h4 : s = "critical"
  · subst h4; simp [eq_comm]
  simp [h1, h2, h3, h4]

theorem severityAtMost_low (s : String) : severityAtMost s "low" ↔ s = "low" := by
  unfold severityAtMost
  constructor
  · rintro ⟨a, b, ha, hb, hle⟩
    rw [severityRank_eq_some_iff] at ha hb
    simp at hb
    rcases ha with ⟨h, rfl⟩ | ⟨h, rfl⟩ | ⟨h, rfl⟩ | ⟨h, rfl⟩ <;> first | exact h | omega
  · rintro rfl
    exact ⟨0, 0, by decide, by decide, le_refl _⟩

theorem severityAtMost_medium (s : String) :
    severityAtMost s "medium" ↔ s = "low" ∨ s = "medium" := by
  unfold severityAtMost
  constructor
  · rintro ⟨a, b, ha, hb, hle⟩
    rw [severityRank_eq_some_iff] at ha hb
    simp at hb
    rcases ha with ⟨h, rfl⟩ | ⟨h, rfl⟩ | ⟨h, rfl⟩ | ⟨h, rfl⟩ <;>
      first | exact Or.inl h | exact Or.inr h | omega
  · rintro (rfl | rfl)
    · exact ⟨0, 1, by decide, by decide, by omega⟩
    · exact ⟨1, 1, by decide, by decide, by omega⟩

theorem severityAtMost_high (s : String) :
    severityAtMost s "high" ↔ s = "low" ∨ s = "medium" ∨ s = "high" := by
  unfold severityAtMost
  constructor
  · rintro ⟨a, b, ha, hb, hle⟩
    rw [severityRank_eq_some_iff] at ha hb
    simp at hb
    rcases ha with ⟨h, rfl⟩ | ⟨h, rfl⟩ | ⟨h, rfl⟩ | ⟨h, rfl⟩ <;>
      first
        | exact Or.inl h
        | exact Or.inr (Or.inl h)
        | exact Or.inr (Or.inr h)
        | omega
  · rintro (rfl | rfl | rfl)
    · exact ⟨0, 2, by decide, by decide, by omega⟩
    · exact ⟨1, 2, by decide, by decide, by omega⟩
    · exact ⟨2, 2, by decide, by decide, by omega⟩

/-- C1: for a threshold among low, medium, high and critical, shouldAutoFix
returns true exactly when auto-fix is enabled and either the threshold is
critical or the severity is one of the four severities and is at or below the
threshold; with auto-fix disabled it returns false for every diff and every
threshold. -/
theorem shouldAutoFix_eligibility (config : ReconciliationConfig) (diff : ReconciliationDiff) :
    (config.AutoFixSeverity ∈ ["low", "medium", "high", "critical"] →
      (shouldAutoFix config diff = true ↔
        config.AutoFixEnabled = true ∧
          (config.AutoFixSeverity = "critical" ∨
            severityAtMost diff.Severity config.AutoFixSeverity))) ∧
    (config.AutoFixEnabled = false → shouldAutoFix config diff = false) := by
  refine ⟨fun hthr => ?_, fun h => by simp [shouldAutoFix, h]⟩
  simp only [List.mem_cons, List.mem_singleton, List.not_mem_nil, or_false] at hthr
  cases hen : config.AutoFixEnabled
  · simp [shouldAutoFix, hen]
  · rcases hthr with h | h | h | h
    · simp [shouldAutoFix, hen, h, severityAtMost_low]
    · simp [shouldAutoFix, hen, h, severityAtMost_medium]
    · simp [shouldAutoFix, hen, h, severityAtMost_high, or_assoc]
    · simp [shouldAutoFix, hen, h]

/-- C2: eligibility is monotone in the severity order: if shouldAutoFix accepts
a diff whose severity has rank s2, it accepts the same diff with its severity
replaced by one of rank s1 ≤ s2, under the same configuration. -/
theorem shouldAutoFix_monotone (config : ReconciliationConfig) (diff : ReconciliationDiff)
    (severity1 : String) (s1 s2 : Nat)
    (h1 : severityRank severity1 = some s1) (h2 : severityRank diff.Severity = some s2)
    (hle : s1 ≤ s2) (hacc : shouldAutoFix config diff = true) :
    shouldAutoFix config { diff with Severity := severity1 } = true := by
  rw [severityRank_eq_some_iff] at h1 h2
  unfold shouldAutoFix at hacc ⊢
  rcases h1 with ⟨h1, rfl⟩ | ⟨h1, rfl⟩ | ⟨h1, rfl⟩ | ⟨h1, rfl⟩ <;>
    rcases h2 with ⟨h2, rfl⟩ | ⟨h2, rfl⟩ | ⟨h2, rfl⟩ | ⟨h2, rfl⟩ <;>
    first
      | omega
      | (subst h1
         rw [h2] at hacc
         simp only [] at hacc ⊢
         split_ifs at hacc ⊢ <;> simp_all)

/-- Witness of C2 at the example of the specification: threshold medium, a
diff of severity medium is accepted, so the same diff with severity low is. -/
theorem shouldAutoFix_monotone_witness :
    shouldAutoFix { AutoFixEnabled := true, AutoFixSeverity := "medium" }
      { ({ Severity := "medium" } : ReconciliationDiff) with Severity := "low" } = true :=
  shouldAutoFix_monotone { AutoFixEnabled := true, AutoFixSeverity := "medium" }
    { Severity := "medium" } "low" 0 1 (by decide) (by decide) (by decide) (by decide)

/- The comparator -/

theorem forEachRecord_acc {α : Type} (body : World → α → Option ReconciliationDiff × World)
    (l : List α) (w : World) (acc : List ReconciliationDiff) :
    forEachRecord body l w acc =
      (acc ++ (forEachRecord body l w []).1, (forEachRecord body l w []).2) := by
  induction l generalizing w acc with
  | nil => simp [forEachRecord]
  | cons r rest ih =>
      simp only [forEachRecord]
      rw [ih (body w r).2 (acc ++ (body w r).1.toList), ih (body w r).2 ([] ++ (body w r).1.toList)]
      simp

theorem forEachRecord_cons {α : Type} (body : World → α → Option ReconciliationDiff × World)
    (r : α) (rest : List α) (w : World) :
    forEachRecord body (r :: rest) w [] =
      ((body w r).1.toList ++ (forEachRecord body rest (body w r).2 []).1,
        (forEachRecord body rest (body w r).2 []).2) := by
  simp only [forEachRecord]
  rw [forEachRecord_acc]
  simp

theorem forEachRecord_append {α : Type} (body : World → α → Option ReconciliationDiff × World)
    (l1 l2 : List α) (w : World) :
    forEachRecord body (l1 ++ l2) w [] =
      ((forEachRecord body l1 w []).1 ++
          (forEachRecord body l2 (forEachRecord body l1 w []).2 []).1,
        (forEachRecord body l2 (forEachRecord body l1 w []).2 []).2) := by
  induction l1 generalizing w with
  | nil => simp [forEachRecord]
  | cons r rest ih =>
      rw [List.cons_append, forEachRecord_cons, forEachRecord_cons, ih]
      simp

/-- The loop over a list with a distinguished record: the diffs of the records
before it, then what the iteration for this record appends, then the diffs of
the records after it. -/
theorem forEachRecord_split {α : Type} (body : World → α → Option ReconciliationDiff × World)
    (before : List α) (r : α) (after : List α) (w : World) :
    forEachRecord body (before ++ r :: after) w [] =
      ((forEachRecord body before w []).1 ++
          ((body (forEachRecord body before w []).2 r).1.toList ++
            (forEachRecord body after (body (forEachRecord body before w []).2 r).2 []).1),
        (forEachRecord body after (body (forEachRecord body before w []).2 r).2 []).2) := by
  rw [forEachRecord_append, forEachRecord_cons]

theorem reconcileSubscriptions_of_fetch (env : Env) (w w1 : World) (startDate endDate : Nat)
    (reportID : String) (records : List StripeSubscription)
    (h : getLocalSubscriptions env w startDate endDate = (.ok records, w1)) :
    reconcileSubscriptions env w startDate endDate reportID =
      (.ok (forEachRecord (reconcileSubscription env reportID) records w1 []).1,
        (forEachRecord (reconcileSubscription env reportID) records w1 []).2) := by
  simp [reconcileSubscriptions, h, reconcileSubscriptionsLoop]

theorem reconcileInvoices_of_fetch (env : Env) (w w1 : World) (startDate endDate : Nat)
    (reportID : String) (records : List StripeInvoice)
    (h : getLocalInvoices env w startDate endDate = (.ok records, w1)) :
    reconcileInvoices env w startDate endDate reportID =
      (.ok (forEachRecord (reconcileInvoice env reportID) records w1 []).1,
        (forEachRecord (reconcileInvoice env reportID) records w1 []).2) := by
  simp [reconcileInvoices, h, reconcileInvoicesLoop]

theorem reconcileCustomers_of_fetch (env : Env) (w w1 : World) (startDate endDate : Nat)
    (reportID : String) (records : List StripeCustomer)
    (h : getLocalCustomers env w startDate endDate = (.ok records, w1)) :
    reconcileCustomers env w startDate endDate reportID =
      (.ok (forEachRecord (reconcileCustomer env reportID) records w1 []).1,
        (forEachRecord (reconcileCustomer env reportID) records w1 []).2) := by
  simp [reconcileCustomers, h, reconcileCustomersLoop]

theorem emitsExactlyOneFor_of_some {α : Type}
    (body : World → α → Option ReconciliationDiff × World) (w1 : World)
    (before : List α) (record : α) (after : List α) (diff : ReconciliationDiff)
    (h : (body (forEachRecord body before w1 []).2 record).1 = some diff) :
    EmitsExactlyOneFor body
      (.ok (forEachRecord body (before ++ record :: after) w1 []).1,
        (forEachRecord body (before ++ record :: after) w1 []).2)
      w1 before record after diff := by
  refine ⟨h, ?_⟩
  rw [forEachRecord_split, h]
  simp

/-- C3: for every local record whose remote lookup fails, the comparison of
its entity type emits exactly one diff for it: of type missing, with the entity
name as field name, local value exists, remote value not_found, status pending,
the record's identifier and user, the report passed in, and severity high for
a subscription, medium for an invoice, high for a customer. -/
theorem missing_diff_shape (env : Env) (reportID : String) (w w1 : World)
    (startDate endDate : Nat) :
    (∀ (before after : List StripeSubscription) (localSub : StripeSubscription),
      getLocalSubscriptions env w startDate endDate = (.ok (before ++ localSub :: after), w1) →
      env.GetSubscription localSub.SubscriptionID = none →
      ∃ diff, EmitsExactlyOneFor (reconcileSubscription env reportID)
          (reconcileSubscriptions env w startDate endDate reportID) w1 before localSub after diff ∧
        IsMissingDiff diff reportID "subscription" localSub.SubscriptionID localSub.UserID
          "high") ∧
    (∀ (before after : List StripeInvoice) (localInvoice : StripeInvoice),
      getLocalInvoices env w startDate endDate = (.ok (before ++ localInvoice :: after), w1) →
      env.GetInvoice localInvoice.InvoiceID = none →
      ∃ diff, EmitsExactlyOneFor (reconcileInvoice env reportID)
          (reconcileInvoices env w startDate endDate reportID) w1 before localInvoice after diff ∧
        IsMissingDiff diff reportID "invoice" localInvoice.InvoiceID localInvoice.UserID
          "medium") ∧
    (∀ (before after : List StripeCustomer) (localCustomer : StripeCustomer),
      getLocalCustomers env w startDate endDate = (.ok (before ++ localCustomer :: after), w1) →
      env.GetCustomer localCustomer.CustomerID = none →
      ∃ diff, EmitsExactlyOneFor (reconcileCustomer env reportID)
          (reconcileCustomers env w startDate endDate reportID) w1 before localCustomer after diff ∧
        IsMissingDiff diff reportID "customer" localCustomer.CustomerID localCustomer.UserID
          "high") := by
  refine ⟨?_, ?_, ?_⟩
  · intro before after localSub hfetch hlookup
    have hbody : ∀ w2, (reconcileSubscription env reportID w2 localSub).1 =
        some (newReconciliationDiff env w2 reportID "subscription" localSub.SubscriptionID
          localSub.UserID "missing" "subscription" "exists" "not_found" "high").1 := by
      intro w2; simp [reconcileSubscription, hlookup]
    refine ⟨(newReconciliationDiff env (forEachRecord (reconcileSubscription env reportID) before w1 []).2
      reportID "subscription" localSub.SubscriptionID localSub.UserID "missing" "subscription" "exists" "not_found" "high").1, ?_, ?_⟩
    · rw [reconcileSubscriptions_of_fetch env w w1 startDate endDate reportID _ hfetch]
      exact emitsExactlyOneFor_of_some _ w1 before localSub after _ (hbody _)
    · simp [IsMissingDiff, newReconciliationDiff]
  · intro before after localInvoice hfetch hlookup
    have hbody : ∀ w2, (reconcileInvoice env reportID w2 localInvoice).1 =
        some (newReconciliationDiff env w2 reportID "invoice" localInvoice.InvoiceID
          localInvoice.UserID "missing" "invoice" "exists" "not_found" "medium").1 := by
      intro w2; simp [reconcileInvoice, hlookup]
    refine ⟨(newReconciliationDiff env (forEachRecord (reconcileInvoice env reportID) before w1 []).2
      reportID "invoice" localInvoice.InvoiceID localInvoice.UserID "missing" "invoice" "exists" "not_found" "medium").1, ?_, ?_⟩
    · rw [reconcileInvoices_of_fetch env w w1 startDate endDate reportID _ hfetch]
      exact emitsExactlyOneFor_of_some _ w1 before localInvoice after _ (hbody _)
    · simp [IsMissingDiff, newReconciliationDiff]
  · intro before after localCustomer hfetch hlookup
    have hbody : ∀ w2, (reconcileCustomer env reportID w2 localCustomer).1 =
        some (newReconciliationDiff env w2 reportID "customer" localCustomer.CustomerID
          localCustomer.UserID "missing" "customer" "exists" "not_found" "high").1 := by
      intro w2; simp [reconcileCustomer, hlookup]
    refine ⟨(newReconciliationDiff env (forEachRecord (reconcileCustomer env reportID) before w1 []).2
      reportID "customer" localCustomer.CustomerID localCustomer.UserID "missing" "customer" "exists" "not_found" "high").1, ?_, ?_⟩
    · rw [reconcileCustomers_of_fetch env w w1 startDate endDate reportID _ hfetch]
      exact emitsExactlyOneFor_of_some _ w1 before localCustomer after _ (hbody _)
    · simp [IsMissingDiff, newReconciliationDiff]

/-- Witness of C3, Scenario B: the local invoice inv_1 exists and its remote
lookup fails; the comparison returns exactly one diff, of type missing, field
invoice, severity medium, status pending. -/
theorem missing_diff_shape_witness :
    ∃ diff w, reconcileInvoices acceptingEnv worldB 0 10 "report_1" = (.ok [diff], w) ∧
      diff.RecordID = "inv_1" ∧ diff.DiffType = "missing" ∧ diff.FieldName = "invoice" ∧
      diff.Severity = "medium" ∧ diff.Status = "pending" := by
  obtain ⟨diff, ⟨_, hresult⟩, hshape⟩ :=
    (missing_diff_shape acceptingEnv "report_1" worldB
      (getLocalInvoices acceptingEnv worldB 0 10).2 0 10).2.1 [] [] invoiceB rfl rfl
  refine ⟨diff, _, hresult, ?_⟩
  obtain ⟨_, _, h3, _, h5, h6, _, _, h9, h10⟩ := hshape
  exact ⟨h3, h5, h6, h9, h10⟩

/-- C4: for every local record whose remote lookup succeeds and whose compared
field differs from the remote one (subscription status, invoice paid amount,
customer email), the comparison of its entity type emits exactly one diff for
it: of type mismatch, status pending, with the two values as strings (decimal
numerals for the amounts), field name status, amount, email and severity
medium, high, low respectively. -/
theorem mismatch_diff_shape (env : Env) (reportID : String) (w w1 : World)
    (startDate endDate : Nat) :
    (∀ (before after : List StripeSubscription) (localSub : StripeSubscription)
        (stripeSub : stripe.Subscription),
      getLocalSubscriptions env w startDate endDate = (.ok (before ++ localSub :: after), w1) →
      env.GetSubscription localSub.SubscriptionID = some stripeSub →
      stripeSub.Status ≠ localSub.Status →
      ∃ diff, EmitsExactlyOneFor (reconcileSubscription env reportID)
          (reconcileSubscriptions env w startDate endDate reportID) w1 before localSub after diff ∧
        IsMismatchDiff diff reportID "subscription" localSub.SubscriptionID localSub.UserID
          "status" localSub.Status stripeSub.Status "medium") ∧
    (∀ (before after : List StripeInvoice) (localInvoice : StripeInvoice)
        (stripeInvoice : stripe.Invoice),
      getLocalInvoices env w startDate endDate = (.ok (before ++ localInvoice :: after), w1) →
      env.GetInvoice localInvoice.InvoiceID = some stripeInvoice →
      stripeInvoice.AmountPaid ≠ localInvoice.Amount →
      ∃ diff, EmitsExactlyOneFor (reconcileInvoice env reportID)
          (reconcileInvoices env w startDate endDate reportID) w1 before localInvoice after diff ∧
        IsMismatchDiff diff reportID "invoice" localInvoice.InvoiceID localInvoice.UserID
          "amount" (Itoa localInvoice.Amount) (Itoa stripeInvoice.AmountPaid) "high") ∧
    (∀ (before after : List StripeCustomer) (localCustomer : StripeCustomer)
        (stripeCustomer : stripe.Customer),
      getLocalCustomers env w startDate endDate = (.ok (before ++ localCustomer :: after), w1) →
      env.GetCustomer localCustomer.CustomerID = some stripeCustomer →
      stripeCustomer.Email ≠ localCustomer.Email →
      ∃ diff, EmitsExactlyOneFor (reconcileCustomer env reportID)
          (reconcileCustomers env w startDate endDate reportID) w1 before localCustomer after diff ∧
        IsMismatchDiff diff reportID "customer" localCustomer.CustomerID localCustomer.UserID
          "email" localCustomer.Email stripeCustomer.Email "low") := by
  refine ⟨?_, ?_, ?_⟩
  · intro before after localSub stripeSub hfetch hlookup hne
    have hbody : ∀ w2, (reconcileSubscription env reportID w2 localSub).1 =
        some (newReconciliationDiff env w2 reportID "subscription" localSub.SubscriptionID
          localSub.UserID "mismatch" "status" localSub.Status stripeSub.Status "medium").1 := by
      intro w2; simp [reconcileSubscription, hlookup, hne]
    refine ⟨(newReconciliationDiff env
      (forEachRecord (reconcileSubscription env reportID) before w1 []).2 reportID
      "subscription" localSub.SubscriptionID localSub.UserID "mismatch" "status"
      localSub.Status stripeSub.Status "medium").1, ?_, ?_⟩
    · rw [reconcileSubscriptions_of_fetch env w w1 startDate endDate reportID _ hfetch]
      exact emitsExactlyOneFor_of_some _ w1 before localSub after _ (hbody _)
    · simp [IsMismatchDiff, newReconciliationDiff]
  · intro before after localInvoice stripeInvoice hfetch hlookup hne
    have hbody : ∀ w2, (reconcileInvoice env reportID w2 localInvoice).1 =
        some (newReconciliationDiff env w2 reportID "invoice" localInvoice.InvoiceID
          localInvoice.UserID "mismatch" "amount" (Itoa localInvoice.Amount)
          (Itoa stripeInvoice.AmountPaid) "high").1 := by
      intro w2; simp [reconcileInvoice, hlookup, hne]
    refine ⟨(newReconciliationDiff env
      (forEachRecord (reconcileInvoice env reportID) before w1 []).2 reportID
      "invoice" localInvoice.InvoiceID localInvoice.UserID "mismatch" "amount"
      (Itoa localInvoice.Amount) (Itoa stripeInvoice.AmountPaid) "high").1, ?_, ?_⟩
    · rw [reconcileInvoices_of_fetch env w w1 startDate endDate reportID _ hfetch]
      exact emitsExactlyOneFor_of_some _ w1 before localInvoice after _ (hbody _)
    · simp [IsMismatchDiff, newReconciliationDiff]
  · intro before after localCustomer stripeCustomer hfetch hlookup hne
    have hbody : ∀ w2, (reconcileCustomer env reportID w2 localCustomer).1 =
        some (newReconciliationDiff env w2 reportID "customer" localCustomer.CustomerID
          localCustomer.UserID "mismatch" "email" localCustomer.Email
          stripeCustomer.Email "low").1 := by
      intro w2; simp [reconcileCustomer, hlookup, hne]
    refine ⟨(newReconciliationDiff env
      (forEachRecord (reconcileCustomer env reportID) before w1 []).2 reportID
      "customer" localCustomer.CustomerID localCustomer.UserID "mismatch" "email"
      localCustomer.Email stripeCustomer.Email "low").1, ?_, ?_⟩
    · rw [reconcileCustomers_of_fetch env w w1 startDate endDate reportID _ hfetch]
      exact emitsExactlyOneFor_of_some _ w1 before localCustomer after _ (hbody _)
    · simp [IsMismatchDiff, newReconciliationDiff]

/-- Witness of C4, Scenario A: the local subscription sub_1 is active, the
provider has it canceled; the comparison returns exactly one diff, of type
mismatch, field status, values active and canceled, severity medium. -/
theorem mismatch_diff_shape_witness :
    ∃ diff w, reconcileSubscriptions (envA 200) worldA 0 10 "report_1" = (.ok [diff], w) ∧
      diff.RecordID = "sub_1" ∧ diff.DiffType = "mismatch" ∧ diff.FieldName = "status" ∧
      diff.LocalValue = "active" ∧ diff.StripeValue = "canceled" ∧
      diff.Severity = "medium" ∧ diff.Status = "pending" := by
  obtain ⟨diff, ⟨_, hresult⟩, hshape⟩ :=
    (mismatch_diff_shape (envA 200) "report_1" worldA
      (getLocalSubscriptions (envA 200) worldA 0 10).2 0 10).1 [] [] subscriptionA
      { Status := "canceled" } rfl rfl (by decide)
  refine ⟨diff, _, hresult, ?_⟩
  obtain ⟨_, _, h3, _, h5, h6, h7, h8, h9, h10⟩ := hshape
  exact ⟨h3, h5, h6, h7, h8, h9, h10⟩

/- The repair dispatch -/

@[simp] theorem applyRequest_requests (w : World) (req : Request) :
    (applyRequest w req).requests = w.requests := by
  cases req <;> rfl

@[simp] theorem applyRequest_uuids (w : World) (req : Request) :
    (applyRequest w req).uuids = w.uuids := by
  cases req <;> rfl

@[simp] theorem applyRequest_ticks (w : World) (req : Request) :
    (applyRequest w req).ticks = w.ticks := by
  cases req <;> rfl

@[simp] theorem httpclientDo_requests (env : Env) (w : World) (req : Request) :
    (httpclientDo env w req).2.requests = w.requests ++ [req] := by
  unfold httpclientDo
  cases env.httpDo w.requests.length with
  | transportError => rfl
  | response statusCode =>
      by_cases h : accepted statusCode = true <;> simp [h]

@[simp] theorem httpclientDo_uuids (env : Env) (w : World) (req : Request) :
    (httpclientDo env w req).2.uuids = w.uuids := by
  unfold httpclientDo
  cases env.httpDo w.requests.length with
  | transportError => rfl
  | response statusCode =>
      by_cases h : accepted statusCode = true <;> simp [h]

@[simp] theorem httpclientDo_ticks (env : Env) (w : World) (req : Request) :
    (httpclientDo env w req).2.ticks = w.ticks := by
  unfold httpclientDo
  cases env.httpDo w.requests.length with
  | transportError => rfl
  | response statusCode =>
      by_cases h : accepted statusCode = true <;> simp [h]

@[simp] theorem httpclientDo_outcome (env : Env) (w : World) (req : Request) :
    (httpclientDo env w req).1 = env.httpDo w.requests.length := by
  unfold httpclientDo
  cases env.httpDo w.requests.length <;> rfl

/- The auto-fix pass -/

theorem autoFixDiffs_append (env : Env) (config : ReconciliationConfig) (w : World)
    (l1 l2 : List ReconciliationDiff) :
    autoFixDiffs env config w (l1 ++ l2) =
      ((autoFixDiffs env config w l1).1 ++
          (autoFixDiffs env config (autoFixDiffs env config w l1).2 l2).1,
        (autoFixDiffs env config (autoFixDiffs env config w l1).2 l2).2) := by
  induction l1 generalizing w with
  | nil => simp [autoFixDiffs]
  | cons d rest ih =>
      rw [List.cons_append]
      simp only [autoFixDiffs]
      rw [ih]
      simp

/-- The pass over a list with a distinguished diff: the diffs before it, then
the body of the loop on this diff, then the diffs after it. -/
theorem autoFixDiffs_split (env : Env) (config : ReconciliationConfig) (w : World)
    (before : List ReconciliationDiff) (diff : ReconciliationDiff)
    (after : List ReconciliationDiff) :
    autoFixDiffs env config w (before ++ diff :: after) =
      ((autoFixDiffs env config w before).1 ++
          (autoFixDiff env config (autoFixDiffs env config w before).2 diff).1 ::
          (autoFixDiffs env config
            (autoFixDiff env config (autoFixDiffs env config w before).2 diff).2 after).1,
        (autoFixDiffs env config
          (autoFixDiff env config (autoFixDiffs env config w before).2 diff).2 after).2) := by
  rw [autoFixDiffs_append]
  simp [autoFixDiffs]

/-- The body of the loop on an eligible diff whose repair returns no error. -/
theorem autoFixDiff_of_fixed (env : Env) (config : ReconciliationConfig) (w : World)
    (diff : ReconciliationDiff) (helig : shouldAutoFix config diff = true)
    (hfix : (fixDiff env w diff).1 = none) :
    autoFixDiff env config w diff =
      ({ diff with Status := "auto_fixed", AutoFixed := true,
                   FixedAt := some (env.timeNow (fixDiff env w diff).2.ticks),
                   FixedBy := "system",
                   UpdatedAt := env.timeNow ((fixDiff env w diff).2.ticks + 1) },
        logAuditEvent env
          (updateReconciliationDiff env
            { (fixDiff env w diff).2 with ticks := (fixDiff env w diff).2.ticks + 1 + 1 }
            { diff with Status := "auto_fixed", AutoFixed := true,
                        FixedAt := some (env.timeNow (fixDiff env w diff).2.ticks),
                        FixedBy := "system",
                        UpdatedAt := env.timeNow ((fixDiff env w diff).2.ticks + 1) }).2
          diff.ReportID "auto_fix" diff.RecordType diff.RecordID diff.UserID
          ("自动修复字段 " ++ diff.FieldName ++ ": " ++ diff.LocalValue ++ " -> "
            ++ diff.StripeValue)) := by
  have h : fixDiff env w diff = (none, (fixDiff env w diff).2) := Prod.ext hfix rfl
  unfold autoFixDiff
  rw [if_pos helig]
  rw [h]
  simp [timeNow]

theorem httpclientDo_of_accepted (env : Env) (w : World) (req : Request) (statusCode : Nat)
    (h : env.httpDo w.requests.length = .response statusCode)
    (hacc : accepted statusCode = true) :
    (httpclientDo env w req).2 = applyRequest { w with requests := w.requests ++ [req] } req := by
  simp [httpclientDo, h, hacc]

theorem httpclientDo_cases (env : Env) (w : World) (req : Request) :
    (httpclientDo env w req).2 = { w with requests := w.requests ++ [req] } ∨
    (httpclientDo env w req).2 =
      applyRequest { w with requests := w.requests ++ [req] } req := by
  unfold httpclientDo
  cases env.httpDo w.requests.length with
  | transportError => exact Or.inl rfl
  | response statusCode =>
      by_cases h : accepted statusCode = true
      · right; simp [h]
      · left; simp [h]

theorem logAuditEvent_diffs (env : Env) (w : World)
    (reportID action recordType recordID userID details : String) :
    (logAuditEvent env w reportID action recordType recordID userID details).reconciliation_diffs
      = w.reconciliation_diffs := by
  unfold logAuditEvent
  rcases httpclientDo_cases env (timeNow env (uuidNewString env w).2).2
    (.postAuditLog { ID := (uuidNewString env w).1, ReportID := reportID, Action := action,
                     RecordType := recordType, RecordID := recordID, UserID := userID,
                     Details := details, PerformedBy := "system",
                     CreatedAt := (timeNow env (uuidNewString env w).2).1 }) with h | h <;>
    rw [h] <;> rfl

/-- The successful step of the auto-fix pass: when the loop of autoFixDiffs
reaches a diff that shouldAutoFix accepts and whose fixDiff returns no error, it leaves the diff object with status
auto_fixed, auto_fixed true, a fixing time, fixed_by system and every recorded
column as it was (only the update timestamp is refreshed besides); it sends
that update for the rows with the diff's id and then one audit entry with
action auto_fix and the diff's report id, record type, record id and user id;
a gateway that accepts these two requests holds the update in the rows with
the diff's id and the entry at the end of the audit log. -/
theorem autoFixDiffs_success (env : Env) (config : ReconciliationConfig) (w : World)
    (before : List ReconciliationDiff) (diff : ReconciliationDiff)
    (after : List ReconciliationDiff)
    (helig : shouldAutoFix config diff = true)
    (hfix : (fixDiff env (autoFixDiffs env config w before).2 diff).1 = none) :
    ∃ (fixed : ReconciliationDiff) (fixedAt : Nat) (log : ReconciliationAuditLog)
        (wFixed : World),
      autoFixDiffs env config w (before ++ diff :: after) =
        ((autoFixDiffs env config w before).1 ++ fixed ::
            (autoFixDiffs env config wFixed after).1,
          (autoFixDiffs env config wFixed after).2) ∧
      fixed.Status = "auto_fixed" ∧ fixed.AutoFixed = true ∧ fixed.FixedAt = some fixedAt ∧
      fixed.FixedBy = "system" ∧ SameRecordedDiff diff fixed ∧
      wFixed.requests =
        (fixDiff env (autoFixDiffs env config w before).2 diff).2.requests ++
          [.patchDiff diff.ID "auto_fixed" true (some fixedAt) "system" fixed.UpdatedAt,
           .postAuditLog log] ∧
      log.Action = "auto_fix" ∧ log.ReportID = diff.ReportID ∧
      log.RecordType = diff.RecordType ∧ log.RecordID = diff.RecordID ∧
      log.UserID = diff.UserID ∧
      (∀ statusCode,
        env.httpDo (fixDiff env (autoFixDiffs env config w before).2 diff).2.requests.length
          = .response statusCode →
        accepted statusCode = true →
        ∀ row ∈ wFixed.reconciliation_diffs, row.ID = diff.ID →
          row.Status = "auto_fixed" ∧ row.AutoFixed = true ∧ row.FixedAt = some fixedAt ∧
          row.FixedBy = "system") ∧
      (∀ statusCode,
        env.httpDo
          ((fixDiff env (autoFixDiffs env config w before).2 diff).2.requests.length + 1)
          = .response statusCode →
        accepted statusCode = true →
        ∃ logs, wFixed.reconciliation_audit_logs = logs ++ [log]) := by
  rw [autoFixDiffs_split]
  rw [autoFixDiff_of_fixed env config _ diff helig hfix]
  generalize (fixDiff env (autoFixDiffs env config w before).2 diff).2 = w1
  refine ⟨_, env.timeNow w1.ticks,
    { ID := env.uuidNew w1.uuids, ReportID := diff.ReportID, Action := "auto_fix",
      RecordType := diff.RecordType, RecordID := diff.RecordID, UserID := diff.UserID,
      Details := "自动修复字段 " ++ diff.FieldName ++ ": " ++ diff.LocalValue ++ " -> "
        ++ diff.StripeValue,
      PerformedBy := "system", CreatedAt := env.timeNow (w1.ticks + 1 + 1) },
    _, rfl, rfl, rfl, rfl, rfl, ?_, ?_, rfl, rfl, rfl, rfl, rfl, ?_, ?_⟩
  · simp [SameRecordedDiff]
  · simp [logAuditEvent, updateReconciliationDiff, uuidNewString, timeNow]
  · intro statusCode hcode hacc row hrow hid
    rw [logAuditEvent_diffs] at hrow
    unfold updateReconciliationDiff at hrow
    rw [httpclientDo_of_accepted env _ _ statusCode (by simpa using hcode) hacc] at hrow
    simp only [applyRequest, List.mem_map] at hrow
    obtain ⟨d, _, rfl⟩ := hrow
    by_cases hd : d.ID = diff.ID
    · simp [patchDiffRow, hd]
    · simp [patchDiffRow, hd] at hid
  · intro statusCode hcode hacc
    unfold logAuditEvent
    rw [httpclientDo_of_accepted env _ _ statusCode
      (by simpa [updateReconciliationDiff, uuidNewString, timeNow] using hcode) hacc]
    refine ⟨(updateReconciliationDiff env { w1 with ticks := w1.ticks + 1 + 1 }
      { diff with Status := "auto_fixed", AutoFixed := true,
                  FixedAt := some (env.timeNow w1.ticks), FixedBy := "system",
                  UpdatedAt := env.timeNow (w1.ticks + 1) }).2.reconciliation_audit_logs, ?_⟩
    simp [applyRequest, updateReconciliationDiff, uuidNewString, timeNow]

/-- Scenario C: with threshold medium and a gateway that accepts
every request, the Scenario A diff comes out of autoFixDiffs with status
auto_fixed, auto_fixed true, a fixing time and fixed_by system. -/
theorem autoFixDiffs_success_witness :
    ∃ fixed fixedAt w, autoFixDiffs (envA 200) configC worldC [diffA] = ([fixed], w) ∧
      fixed.Status = "auto_fixed" ∧ fixed.AutoFixed = true ∧ fixed.FixedAt = some fixedAt ∧
      fixed.FixedBy = "system" ∧ fixed.ID = "diff_1" := by
  obtain ⟨fixed, fixedAt, _, wFixed, hrun, h1, h2, h3, h4, h5, _⟩ :=
    autoFixDiffs_success (envA 200) configC worldC [] diffA [] (by decide) (by rfl)
  refine ⟨fixed, fixedAt, wFixed, ?_, h1, h2, h3, h4, h5.1⟩
  simpa [autoFixDiffs] using hrun

theorem sameStore_refl (w : World) : SameStore w w :=
  ⟨rfl, rfl, rfl, rfl, rfl, rfl⟩

/-- A write whose helper returns an error did not reach the tables: the only
error a helper returns is the transport error of Do. -/
theorem httpclientDo_error_sameStore (env : Env) (w : World) (req : Request)
    (h : doError (httpclientDo env w req).1 ≠ none) :
    SameStore w (httpclientDo env w req).2 := by
  unfold httpclientDo at h ⊢
  cases hout : env.httpDo w.requests.length with
  | transportError => exact ⟨rfl, rfl, rfl, rfl, rfl, rfl⟩
  | response statusCode => simp [hout, doError] at h

theorem fixDiff_error_sameStore (env : Env) (w : World) (diff : ReconciliationDiff)
    (h : (fixDiff env w diff).1 ≠ none) : SameStore w (fixDiff env w diff).2 := by
  unfold fixDiff fixSubscriptionDiff fixInvoiceDiff fixCustomerDiff
    updateLocalSubscriptionStatus updateLocalInvoiceAmount updateLocalInvoiceStatus
    updateLocalCustomerEmail at h ⊢
  split_ifs at h ⊢
  all_goals first
    | exact sameStore_refl w
    | exact httpclientDo_error_sameStore env (timeNow env w).2 _ h

/-- C7: when the loop of autoFixDiffs reaches a diff that shouldAutoFix rejects
or whose fixDiff returns an error, the diff object stays as it was, field by
field, no table of the Record Store changes (for a rejected diff nothing at
all happens: no request, no clock reading), and the loop goes on with the
diffs after it. -/
theorem autoFixDiffs_unrepaired (env : Env) (config : ReconciliationConfig) (w : World)
    (before : List ReconciliationDiff) (diff : ReconciliationDiff)
    (after : List ReconciliationDiff)
    (h : shouldAutoFix config diff = false ∨
      (fixDiff env (autoFixDiffs env config w before).2 diff).1 ≠ none) :
    ∃ wNext,
      autoFixDiffs env config w (before ++ diff :: after) =
        ((autoFixDiffs env config w before).1 ++ diff ::
            (autoFixDiffs env config wNext after).1,
          (autoFixDiffs env config wNext after).2) ∧
      SameStore (autoFixDiffs env config w before).2 wNext ∧
      (shouldAutoFix config diff = false → wNext = (autoFixDiffs env config w before).2) := by
  rw [autoFixDiffs_split]
  generalize (autoFixDiffs env config w before).2 = w0 at h ⊢
  have hbody : (autoFixDiff env config w0 diff).1 = diff ∧
      SameStore w0 (autoFixDiff env config w0 diff).2 ∧
      (shouldAutoFix config diff = false → (autoFixDiff env config w0 diff).2 = w0) := by
    unfold autoFixDiff
    by_cases helig : shouldAutoFix config diff = true
    · have herr : (fixDiff env w0 diff).1 ≠ none := by
        rcases h with h | h
        · simp [helig] at h
        · exact h
      obtain ⟨e, he⟩ := Option.ne_none_iff_exists'.mp herr
      have hpair : fixDiff env w0 diff = (some e, (fixDiff env w0 diff).2) := Prod.ext he rfl
      rw [if_pos helig, hpair]
      refine ⟨rfl, ?_, fun hno => by simp [helig] at hno⟩
      exact fixDiff_error_sameStore env w0 diff herr
    · rw [if_neg helig]
      exact ⟨rfl, sameStore_refl w0, fun _ => rfl⟩
  refine ⟨(autoFixDiff env config w0 diff).2, ?_, hbody.2.1, hbody.2.2⟩
  rw [hbody.1]

/-- Witness of C7, Scenario D: auto-fix enabled, threshold low, one diff of
severity high; after autoFixDiffs the diff is still pending and nothing
happened to the state. -/
theorem autoFixDiffs_unrepaired_witness :
    autoFixDiffs (envA 200) configD worldC [diffD] = ([diffD], worldC) ∧
      diffD.Status = "pending" := by
  obtain ⟨wNext, hrun, _, hsame⟩ :=
    autoFixDiffs_unrepaired (envA 200) configD worldC [] diffD [] (Or.inl (by decide))
  have hw : wNext = worldC := by simpa [autoFixDiffs] using hsame (by decide)
  subst hw
  exact ⟨by simpa [autoFixDiffs] using hrun, by decide⟩

/-- C8, the code at the failing input: the gateway answers the repair write of
the Scenario A diff with status 500, which is not accepted, and the write
helper returns no error; autoFixDiffs marks the diff auto_fixed, in the object
and in its stored row, while the local subscription sub_1 still reads active,
not the remote value canceled. -/
theorem autoFixDiffs_marks_rejected_write_fixed :
    envRejectedWrite.httpDo 0 = .response 500 ∧ accepted 500 = false ∧
    (fixDiff envRejectedWrite worldC diffA).1 = none ∧
    (fixDiff envRejectedWrite worldC diffA).2.requests =
      [.patchSubscriptionStatus "sub_1" "canceled" 1000] ∧
    (autoFixDiffs envRejectedWrite configC worldC [diffA]).1.map (fun d => d.Status)
      = ["auto_fixed"] ∧
    (autoFixDiffs envRejectedWrite configC worldC [diffA]).2.reconciliation_diffs.map
      (fun d => (d.ID, d.Status, d.AutoFixed)) = [("diff_1", "auto_fixed", true)] ∧
    (autoFixDiffs envRejectedWrite configC worldC [diffA]).2.stripe_subscriptions.map
      (fun s => (s.SubscriptionID, s.Status)) = [("sub_1", "active")] := by
  refine ⟨rfl, by decide, ?_, ?_, ?_, ?_, ?_⟩ <;> rfl

/- How each operation changes the diff table -/

theorem httpclientDo_diffs_cases (env : Env) (w : World) (req : Request) :
    (httpclientDo env w req).2.reconciliation_diffs = w.reconciliation_diffs ∨
    (httpclientDo env w req).2.reconciliation_diffs =
      (applyRequest w req).reconciliation_diffs := by
  rcases httpclientDo_cases env w req with h | h
  · left; rw [h]
  · right; rw [h]; cases req <;> rfl

theorem httpclientDo_diffs_same (env : Env) (w : World) (req : Request)
    (hreq : (applyRequest w req).reconciliation_diffs = w.reconciliation_diffs) :
    (httpclientDo env w req).2.reconciliation_diffs = w.reconciliation_diffs := by
  rcases httpclientDo_diffs_cases env w req with h | h
  · exact h
  · rw [h, hreq]

theorem fixDiff_diffs (env : Env) (w : World) (diff : ReconciliationDiff) :
    (fixDiff env w diff).2.reconciliation_diffs = w.reconciliation_diffs := by
  unfold fixDiff fixSubscriptionDiff fixInvoiceDiff fixCustomerDiff
    updateLocalSubscriptionStatus updateLocalInvoiceAmount updateLocalInvoiceStatus
    updateLocalCustomerEmail
  split_ifs
  all_goals first
    | rfl
    | exact httpclientDo_diffs_same env (timeNow env w).2 _ rfl

theorem getLocalSubscriptions_diffs (env : Env) (w : World) (startDate endDate : Nat) :
    (getLocalSubscriptions env w startDate endDate).2.reconciliation_diffs
      = w.reconciliation_diffs := by
  have h := httpclientDo_diffs_same env w (.getStripeSubscriptions startDate endDate) rfl
  have hw : (getLocalSubscriptions env w startDate endDate).2 =
      (httpclientDo env w (.getStripeSubscriptions startDate endDate)).2 := by
    unfold getLocalSubscriptions
    dsimp only
    split <;> rfl
  rw [hw, h]

theorem getLocalInvoices_diffs (env : Env) (w : World) (startDate endDate : Nat) :
    (getLocalInvoices env w startDate endDate).2.reconciliation_diffs
      = w.reconciliation_diffs := by
  have h := httpclientDo_diffs_same env w (.getStripeInvoices startDate endDate) rfl
  have hw : (getLocalInvoices env w startDate endDate).2 =
      (httpclientDo env w (.getStripeInvoices startDate endDate)).2 := by
    unfold getLocalInvoices
    dsimp only
    split <;> rfl
  rw [hw, h]

theorem getLocalCustomers_diffs (env : Env) (w : World) (startDate endDate : Nat) :
    (getLocalCustomers env w startDate endDate).2.reconciliation_diffs
      = w.reconciliation_diffs := by
  have h := httpclientDo_diffs_same env w (.getStripeCustomers startDate endDate) rfl
  have hw : (getLocalCustomers env w startDate endDate).2 =
      (httpclientDo env w (.getStripeCustomers startDate endDate)).2 := by
    unfold getLocalCustomers
    dsimp only
    split <;> rfl
  rw [hw, h]

/-- Saving a diff the comparator built either leaves the table as it was or
appends one pending row that is not auto-fixed. -/
theorem save_new_diff_cases (env : Env) (w : World)
    (reportID recordType recordID userID diffType fieldName localValue stripeValue
      severity : String) :
    (saveReconciliationDiff env
        (newReconciliationDiff env w reportID recordType recordID userID diffType fieldName
          localValue stripeValue severity).2
        (newReconciliationDiff env w reportID recordType recordID userID diffType fieldName
          localValue stripeValue severity).1).2.reconciliation_diffs = w.reconciliation_diffs ∨
    ∃ row, row.Status = "pending" ∧ row.AutoFixed = false ∧
      (saveReconciliationDiff env
        (newReconciliationDiff env w reportID recordType recordID userID diffType fieldName
          localValue stripeValue severity).2
        (newReconciliationDiff env w reportID recordType recordID userID diffType fieldName
          localValue stripeValue severity).1).2.reconciliation_diffs
        = w.reconciliation_diffs ++ [row] := by
  unfold saveReconciliationDiff
  rcases httpclientDo_diffs_cases env
    (newReconciliationDiff env w reportID recordType recordID userID diffType fieldName
      localValue stripeValue severity).2
    (.postDiff
      (newReconciliationDiff env w reportID recordType recordID userID diffType fieldName
        localValue stripeValue severity).1.ID
      (newReconciliationDiff env w reportID recordType recordID userID diffType fieldName
        localValue stripeValue severity).1.ReportID
      (newReconciliationDiff env w reportID recordType recordID userID diffType fieldName
        localValue stripeValue severity).1.RecordType
      (newReconciliationDiff env w reportID recordType recordID userID diffType fieldName
        localValue stripeValue severity).1.RecordID
      (newReconciliationDiff env w reportID recordType recordID userID diffType fieldName
        localValue stripeValue severity).1.UserID
      (newReconciliationDiff env w reportID recordType recordID userID diffType fieldName
        localValue stripeValue severity).1.DiffType
      (newReconciliationDiff env w reportID recordType recordID userID diffType fieldName
        localValue stripeValue severity).1.FieldName
      (newReconciliationDiff env w reportID recordType recordID userID diffType fieldName
        localValue stripeValue severity).1.LocalValue
      (newReconciliationDiff env w reportID recordType recordID userID diffType fieldName
        localValue stripeValue severity).1.StripeValue
      (newReconciliationDiff env w reportID recordType recordID userID diffType fieldName
        localValue stripeValue severity).1.Severity
      (newReconciliationDiff env w reportID recordType recordID userID diffType fieldName
        localValue stripeValue severity).1.Status
      (newReconciliationDiff env w reportID recordType recordID userID diffType fieldName
        localValue stripeValue severity).1.CreatedAt
      (newReconciliationDiff env w reportID recordType recordID userID diffType fieldName
        localValue stripeValue severity).1.UpdatedAt) with h | h
  · left; rw [h]; rfl
  · right
    refine ⟨_, ?_, ?_, h⟩ <;> rfl

theorem reconcileSubscription_diffs (env : Env) (reportID : String) (w : World)
    (localSub : StripeSubscription) :
    AppendedPending w.reconciliation_diffs
      (reconcileSubscription env reportID w localSub).2.reconciliation_diffs := by
  unfold reconcileSubscription
  split
  · exact save_new_diff_cases env w _ _ _ _ _ _ _ _ _
  · split_ifs
    · exact save_new_diff_cases env w _ _ _ _ _ _ _ _ _
    · exact Or.inl rfl

theorem reconcileInvoice_diffs (env : Env) (reportID : String) (w : World)
    (localInvoice : StripeInvoice) :
    AppendedPending w.reconciliation_diffs
      (reconcileInvoice env reportID w localInvoice).2.reconciliation_diffs := by
  unfold reconcileInvoice
  split
  · exact save_new_diff_cases env w _ _ _ _ _ _ _ _ _
  · split_ifs
    · exact save_new_diff_cases env w _ _ _ _ _ _ _ _ _
    · exact Or.inl rfl

theorem reconcileCustomer_diffs (env : Env) (reportID : String) (w : World)
    (localCustomer : StripeCustomer) :
    AppendedPending w.reconciliation_diffs
      (reconcileCustomer env reportID w localCustomer).2.reconciliation_diffs := by
  unfold reconcileCustomer
  split
  · exact save_new_diff_cases env w _ _ _ _ _ _ _ _ _
  · split_ifs
    · exact save_new_diff_cases env w _ _ _ _ _ _ _ _ _
    · exact Or.inl rfl

/-- A reflexive and transitive relation between diff tables that every
iteration of a loop establishes holds across the whole loop. -/
theorem forEachRecord_diffs_rel {α : Type}
    (body : World → α → Option ReconciliationDiff × World)
    (Q : List ReconciliationDiff → List ReconciliationDiff → Prop)
    (hrefl : ∀ ds, Q ds ds) (htrans : ∀ a b c, Q a b → Q b c → Q a c)
    (hbody : ∀ w r, Q w.reconciliation_diffs (body w r).2.reconciliation_diffs)
    (l : List α) (w : World) (acc : List ReconciliationDiff) :
    Q w.reconciliation_diffs (forEachRecord body l w acc).2.reconciliation_diffs := by
  induction l generalizing w acc with
  | nil => exact hrefl _
  | cons r rest ih =>
      simp only [forEachRecord]
      exact htrans _ _ _ (hbody w r) (ih _ _)

theorem updateReconciliationDiff_diffs (env : Env) (w : World) (diff : ReconciliationDiff) :
    (updateReconciliationDiff env w diff).2.reconciliation_diffs = w.reconciliation_diffs ∨
    (updateReconciliationDiff env w diff).2.reconciliation_diffs =
      w.reconciliation_diffs.map
        (patchDiffRow diff.ID diff.Status diff.AutoFixed diff.FixedAt diff.FixedBy
          diff.UpdatedAt) := by
  unfold updateReconciliationDiff
  exact httpclientDo_diffs_cases env w _

/-- The body of the loop of autoFixDiffs either leaves the diff table as it was
or marks the rows with the diff's id auto-fixed by system. -/
theorem autoFixDiff_diffs (env : Env) (config : ReconciliationConfig) (w : World)
    (diff : ReconciliationDiff) :
    (autoFixDiff env config w diff).2.reconciliation_diffs = w.reconciliation_diffs ∨
    ∃ fixedAt updatedAt,
      (autoFixDiff env config w diff).2.reconciliation_diffs =
        w.reconciliation_diffs.map
          (patchDiffRow diff.ID "auto_fixed" true (some fixedAt) "system" updatedAt) := by
  by_cases helig : shouldAutoFix config diff = true
  · cases hfix : (fixDiff env w diff).1 with
    | some e =>
        left
        have hpair : fixDiff env w diff = (some e, (fixDiff env w diff).2) := Prod.ext hfix rfl
        unfold autoFixDiff
        rw [if_pos helig, hpair]
        exact fixDiff_diffs env w diff
    | none =>
        rw [autoFixDiff_of_fixed env config w diff helig hfix, logAuditEvent_diffs]
        rcases updateReconciliationDiff_diffs env
          { (fixDiff env w diff).2 with ticks := (fixDiff env w diff).2.ticks + 1 + 1 }
          { diff with Status := "auto_fixed", AutoFixed := true,
                      FixedAt := some (env.timeNow (fixDiff env w diff).2.ticks),
                      FixedBy := "system",
                      UpdatedAt := env.timeNow ((fixDiff env w diff).2.ticks + 1) } with h | h
        · left; rw [h]; exact fixDiff_diffs env w diff
        · right
          refine ⟨env.timeNow (fixDiff env w diff).2.ticks,
            env.timeNow ((fixDiff env w diff).2.ticks + 1), ?_⟩
          rw [h]
          show List.map _ (fixDiff env w diff).2.reconciliation_diffs = _
          rw [fixDiff_diffs]
  · left
    unfold autoFixDiff
    rw [if_neg helig]

/-- The body of the loop of autoFixDiffs either leaves the diff object as it was
or marks it auto-fixed by system. -/
theorem autoFixDiff_object (env : Env) (config : ReconciliationConfig) (w : World)
    (diff : ReconciliationDiff) :
    (autoFixDiff env config w diff).1 = diff ∨
    ∃ fixedAt updatedAt,
      (autoFixDiff env config w diff).1 =
        { diff with Status := "auto_fixed", AutoFixed := true, FixedAt := some fixedAt,
                    FixedBy := "system", UpdatedAt := updatedAt } := by
  by_cases helig : shouldAutoFix config diff = true
  · cases hfix : (fixDiff env w diff).1 with
    | some e =>
        left
        have hpair : fixDiff env w diff = (some e, (fixDiff env w diff).2) := Prod.ext hfix rfl
        unfold autoFixDiff
        rw [if_pos helig, hpair]
    | none =>
        right
        rw [autoFixDiff_of_fixed env config w diff helig hfix]
        exact ⟨_, _, rfl⟩
  · left
    unfold autoFixDiff
    rw [if_neg helig]

theorem autoFixDiffs_diffs_rel (env : Env) (config : ReconciliationConfig)
    (Q : List ReconciliationDiff → List ReconciliationDiff → Prop)
    (hrefl : ∀ ds, Q ds ds) (htrans : ∀ a b c, Q a b → Q b c → Q a c)
    (hbody : ∀ w d, Q w.reconciliation_diffs
      (autoFixDiff env config w d).2.reconciliation_diffs)
    (w : World) (diffs : List ReconciliationDiff) :
    Q w.reconciliation_diffs (autoFixDiffs env config w diffs).2.reconciliation_diffs := by
  induction diffs generalizing w with
  | nil => exact hrefl _
  | cons d rest ih =>
      simp only [autoFixDiffs]
      exact htrans _ _ _ (hbody w d) (ih _)

end reconciliation

namespace admin

open tables reconciliation

/-- Handler.FixDiff either leaves the diff table as it was or marks the rows with
the requested id manually fixed by admin, with the auto_fixed flag of the row
it fetched; the notes of the request are not among the columns it sends. -/
theorem FixDiff_diffs (env : Env) (w : World) (diffID : String) (notes : Option String) :
    (FixDiff env w diffID notes).2.reconciliation_diffs = w.reconciliation_diffs ∨
    ∃ row fixedAt updatedAt, row ∈ w.reconciliation_diffs ∧ row.ID = diffID ∧
      (FixDiff env w diffID notes).2.reconciliation_diffs =
        w.reconciliation_diffs.map
          (patchDiffRow diffID "manual_fixed" row.AutoFixed (some fixedAt) "admin"
            updatedAt) := by
  have hget := httpclientDo_diffs_same env w (.getDiffsByID diffID) rfl
  unfold FixDiff
  split_ifs with hid
  · exact Or.inl rfl
  · split
    · exact Or.inl rfl
    · next requestNotes =>
      split
      · next w1 h1 =>
        left
        rw [h1] at hget
        exact hget
      · next statusCode w1 h1 =>
        rw [h1] at hget
        have hw1 : w1.reconciliation_diffs = w.reconciliation_diffs := hget
        split_ifs with hacc
        · split
          · exact Or.inl hw1
          · next diff rest hfilter =>
            have hmem : diff ∈ w.reconciliation_diffs.filter fun d => decide (d.ID = diffID) := by
              rw [hfilter]; exact List.mem_cons_self _ _
            rw [List.mem_filter] at hmem
            have hdiffID : diff.ID = diffID := by simpa using hmem.2
            have hfix := fixDiff_diffs env w1 diff
            split
            · next e w2 h2 =>
              left
              rw [h2] at hfix
              exact hfix.trans hw1
            · next w2 h2 =>
              rw [h2] at hfix
              have hw2 : w2.reconciliation_diffs = w.reconciliation_diffs := hfix.trans hw1
              have hupd := updateReconciliationDiff_diffs env (timeNow env (timeNow env w2).2).2
                { diff with Status := "manual_fixed", FixedAt := some (timeNow env w2).1,
                            FixedBy := "admin", Notes := requestNotes,
                            UpdatedAt := (timeNow env (timeNow env w2).2).1 }
              have hfinal :
                  (updateReconciliationDiff env (timeNow env (timeNow env w2).2).2
                    { diff with Status := "manual_fixed", FixedAt := some (timeNow env w2).1,
                                FixedBy := "admin", Notes := requestNotes,
                                UpdatedAt := (timeNow env (timeNow env w2).2).1
                                }).2.reconciliation_diffs = w.reconciliation_diffs ∨
                  (updateReconciliationDiff env (timeNow env (timeNow env w2).2).2
                    { diff with Status := "manual_fixed", FixedAt := some (timeNow env w2).1,
                                FixedBy := "admin", Notes := requestNotes,
                                UpdatedAt := (timeNow env (timeNow env w2).2).1
                                }).2.reconciliation_diffs =
                    w.reconciliation_diffs.map
                      (patchDiffRow diffID "manual_fixed" diff.AutoFixed
                        (some (timeNow env w2).1) "admin"
                        (timeNow env (timeNow env w2).2).1) := by
                rcases hupd with h | h
                · left; rw [h]; exact hw2
                · right; rw [h, ← hdiffID]
                  show List.map _ w2.reconciliation_diffs = _
                  rw [hw2]
              dsimp only
              split
              · next e w3 h3 =>
                rw [h3] at hfinal
                rcases hfinal with h | h
                · exact Or.inl h
                · exact Or.inr ⟨diff, _, _, hmem.1, hdiffID, h⟩
              · next w3 h3 =>
                rw [h3] at hfinal
                rw [logAuditEvent_diffs]
                rcases hfinal with h | h
                · exact Or.inl h
                · exact Or.inr ⟨diff, _, _, hmem.1, hdiffID, h⟩
        · exact Or.inl hw1

/-- Handler.IgnoreDiff either leaves the diff table as it was or marks the rows with
the requested id ignored. -/
theorem IgnoreDiff_diffs (env : Env) (w : World) (diffID : String) (notes : Option String) :
    (IgnoreDiff env w diffID notes).2.reconciliation_diffs = w.reconciliation_diffs ∨
    ∃ requestNotes updatedAt,
      (IgnoreDiff env w diffID notes).2.reconciliation_diffs =
        w.reconciliation_diffs.map (ignoreDiffRow diffID requestNotes updatedAt) := by
  unfold IgnoreDiff
  split_ifs with hid
  · exact Or.inl rfl
  · split
    · exact Or.inl rfl
    · next requestNotes =>
      have h := httpclientDo_diffs_cases env (timeNow env w).2
        (.patchDiffIgnore diffID requestNotes (timeNow env w).1)
      dsimp only
      split
      · next w1 h1 =>
        rw [h1] at h
        rcases h with h | h
        · exact Or.inl h
        · exact Or.inr ⟨requestNotes, _, h⟩
      · next statusCode w1 h1 =>
        rw [h1] at h
        rcases h with h | h
        · exact Or.inl h
        · exact Or.inr ⟨requestNotes, _, h⟩

end admin

namespace reconciliation

open tables

/- The invariant auto_fixed implies status auto_fixed, fixed_at and fixed_by system -/

theorem storeInvariant_append (ds : List ReconciliationDiff) (row : ReconciliationDiff)
    (h : ∀ d ∈ ds, DiffInvariant d) (hrow : row.AutoFixed = false) :
    ∀ d ∈ ds ++ [row], DiffInvariant d := by
  intro d hd
  rcases List.mem_append.mp hd with hd | hd
  · exact h d hd
  · rw [List.mem_singleton] at hd
    subst hd
    intro haf
    rw [hrow] at haf
    exact absurd haf (by decide)

theorem storeInvariant_appendedPending (ds ds' : List ReconciliationDiff)
    (hstep : AppendedPending ds ds') (h : ∀ d ∈ ds, DiffInvariant d) :
    ∀ d ∈ ds', DiffInvariant d := by
  rcases hstep with rfl | ⟨row, _, haf, rfl⟩
  · exact h
  · exact storeInvariant_append ds row h haf

theorem storeInvariant_patch (ds : List ReconciliationDiff) (id status : String)
    (autoFixed : Bool) (fixedAt : Option Nat) (fixedBy : String) (updatedAt : Nat)
    (h : ∀ d ∈ ds, DiffInvariant d)
    (hpatch : autoFixed = true → status = "auto_fixed" ∧ fixedAt ≠ none ∧ fixedBy = "system") :
    ∀ d ∈ ds.map (patchDiffRow id status autoFixed fixedAt fixedBy updatedAt),
      DiffInvariant d := by
  intro d hd
  obtain ⟨d0, hd0, rfl⟩ := List.mem_map.mp hd
  unfold patchDiffRow
  split_ifs
  · exact hpatch
  · exact h d0 hd0

theorem storeInvariant_ignore (ds : List ReconciliationDiff) (id notes : String)
    (updatedAt : Nat) (h : ∀ d ∈ ds, DiffInvariant d)
    (hflag : ∀ d ∈ ds, d.ID = id → d.AutoFixed = false) :
    ∀ d ∈ ds.map (ignoreDiffRow id notes updatedAt), DiffInvariant d := by
  intro d hd
  obtain ⟨d0, hd0, rfl⟩ := List.mem_map.mp hd
  unfold ignoreDiffRow
  split_ifs with hid
  · intro haf
    have := hflag d0 hd0 hid
    simp only [] at haf
    rw [this] at haf
    exact absurd haf (by decide)
  · exact h d0 hd0

/-- Every diff a comparator loop returns was built by an iteration. -/
theorem forEachRecord_forall {α : Type}
    (body : World → α → Option ReconciliationDiff × World)
    (P : ReconciliationDiff → Prop)
    (hbody : ∀ w r d, (body w r).1 = some d → P d)
    (l : List α) (w : World) :
    ∀ d ∈ (forEachRecord body l w []).1, P d := by
  induction l generalizing w with
  | nil => intro d hd; simp [forEachRecord] at hd
  | cons r rest ih =>
      intro d hd
      rw [forEachRecord_cons] at hd
      rcases List.mem_append.mp hd with hd | hd
      · cases hb : (body w r).1 with
        | none => rw [hb] at hd; simp at hd
        | some d0 =>
            rw [hb] at hd
            simp at hd
            rw [hd]
            exact hbody w r d0 hb
      · exact ih _ d hd

theorem newReconciliationDiff_autoFixed (env : Env) (w : World)
    (reportID recordType recordID userID diffType fieldName localValue stripeValue
      severity : String) :
    (newReconciliationDiff env w reportID recordType recordID userID diffType fieldName
      localValue stripeValue severity).1.AutoFixed = false := rfl

theorem reconcileSubscription_autoFixed (env : Env) (reportID : String) (w : World)
    (localSub : StripeSubscription) (d : ReconciliationDiff)
    (h : (reconcileSubscription env reportID w localSub).1 = some d) :
    d.AutoFixed = false := by
  unfold reconcileSubscription at h
  split at h
  · simp at h; subst h; rfl
  · split_ifs at h
    simp at h; subst h; rfl

theorem reconcileInvoice_autoFixed (env : Env) (reportID : String) (w : World)
    (localInvoice : StripeInvoice) (d : ReconciliationDiff)
    (h : (reconcileInvoice env reportID w localInvoice).1 = some d) :
    d.AutoFixed = false := by
  unfold reconcileInvoice at h
  split at h
  · simp at h; subst h; rfl
  · split_ifs at h
    simp at h; subst h; rfl

theorem reconcileCustomer_autoFixed (env : Env) (reportID : String) (w : World)
    (localCustomer : StripeCustomer) (d : ReconciliationDiff)
    (h : (reconcileCustomer env reportID w localCustomer).1 = some d) :
    d.AutoFixed = false := by
  unfold reconcileCustomer at h
  split at h
  · simp at h; subst h; rfl
  · split_ifs at h
    simp at h; subst h; rfl

theorem reconcileSubscriptions_world (env : Env) (w : World) (startDate endDate : Nat)
    (reportID : String) :
    (reconcileSubscriptions env w startDate endDate reportID).2 =
      (getLocalSubscriptions env w startDate endDate).2 ∨
    ∃ records,
      reconcileSubscriptions env w startDate endDate reportID =
        (.ok (forEachRecord (reconcileSubscription env reportID) records
            (getLocalSubscriptions env w startDate endDate).2 []).1,
          (forEachRecord (reconcileSubscription env reportID) records
            (getLocalSubscriptions env w startDate endDate).2 []).2) := by
  cases hres : (getLocalSubscriptions env w startDate endDate).1 with
  | error e =>
      left
      have hpair : getLocalSubscriptions env w startDate endDate =
          (.error e, (getLocalSubscriptions env w startDate endDate).2) := Prod.ext hres rfl
      unfold reconcileSubscriptions
      rw [hpair]
  | ok records =>
      right
      exact ⟨records, reconcileSubscriptions_of_fetch env w _ startDate endDate reportID
        records (Prod.ext hres rfl)⟩

theorem reconcileInvoices_world (env : Env) (w : World) (startDate endDate : Nat)
    (reportID : String) :
    (reconcileInvoices env w startDate endDate reportID).2 =
      (getLocalInvoices env w startDate endDate).2 ∨
    ∃ records,
      reconcileInvoices env w startDate endDate reportID =
        (.ok (forEachRecord (reconcileInvoice env reportID) records
            (getLocalInvoices env w startDate endDate).2 []).1,
          (forEachRecord (reconcileInvoice env reportID) records
            (getLocalInvoices env w startDate endDate).2 []).2) := by
  cases hres : (getLocalInvoices env w startDate endDate).1 with
  | error e =>
      left
      have hpair : getLocalInvoices env w startDate endDate =
          (.error e, (getLocalInvoices env w startDate endDate).2) := Prod.ext hres rfl
      unfold reconcileInvoices
      rw [hpair]
  | ok records =>
      right
      exact ⟨records, reconcileInvoices_of_fetch env w _ startDate endDate reportID
        records (Prod.ext hres rfl)⟩

theorem reconcileCustomers_world (env : Env) (w : World) (startDate endDate : Nat)
    (reportID : String) :
    (reconcileCustomers env w startDate endDate reportID).2 =
      (getLocalCustomers env w startDate endDate).2 ∨
    ∃ records,
      reconcileCustomers env w startDate endDate reportID =
        (.ok (forEachRecord (reconcileCustomer env reportID) records
            (getLocalCustomers env w startDate endDate).2 []).1,
          (forEachRecord (reconcileCustomer env reportID) records
            (getLocalCustomers env w startDate endDate).2 []).2) := by
  cases hres : (getLocalCustomers env w startDate endDate).1 with
  | error e =>
      left
      have hpair : getLocalCustomers env w startDate endDate =
          (.error e, (getLocalCustomers env w startDate endDate).2) := Prod.ext hres rfl
      unfold reconcileCustomers
      rw [hpair]
  | ok records =>
      right
      exact ⟨records, reconcileCustomers_of_fetch env w _ startDate endDate reportID
        records (Prod.ext hres rfl)⟩

/-- A reflexive and transitive relation between diff tables that every
iteration of a comparator loop establishes holds across the comparison of the
entity type, and every diff returned has the property the iterations give. -/
theorem reconcileSubscriptions_rel (env : Env) (w : World) (startDate endDate : Nat)
    (reportID : String)
    (Q : List ReconciliationDiff → List ReconciliationDiff → Prop)
    (hrefl : ∀ ds, Q ds ds) (htrans : ∀ a b c, Q a b → Q b c → Q a c)
    (happ : ∀ ds ds', AppendedPending ds ds' → Q ds ds') :
    Q w.reconciliation_diffs
        (reconcileSubscriptions env w startDate endDate reportID).2.reconciliation_diffs ∧
    ∀ ds, (reconcileSubscriptions env w startDate endDate reportID).1 = .ok ds →
      ∀ d ∈ ds, d.AutoFixed = false := by
  rcases reconcileSubscriptions_world env w startDate endDate reportID with h | ⟨records, h⟩
  · constructor
    · rw [h, getLocalSubscriptions_diffs]; exact hrefl _
    · intro ds hds
      unfold reconcileSubscriptions at hds
      split at hds
      · simp at hds
      · next recs w1 hfetch =>
        simp only [Except.ok.injEq] at hds
        subst hds
        exact forEachRecord_forall _ _ (reconcileSubscription_autoFixed env reportID) _ _
  · rw [h]
    constructor
    · have := forEachRecord_diffs_rel (reconcileSubscription env reportID) Q hrefl htrans
        (fun w r => happ _ _ (reconcileSubscription_diffs env reportID w r)) records
        (getLocalSubscriptions env w startDate endDate).2 []
      rw [getLocalSubscriptions_diffs] at this
      exact this
    · intro ds hds
      simp only [Except.ok.injEq] at hds
      subst hds
      exact forEachRecord_forall _ _ (reconcileSubscription_autoFixed env reportID) _ _

theorem reconcileInvoices_rel (env : Env) (w : World) (startDate endDate : Nat)
    (reportID : String)
    (Q : List ReconciliationDiff → List ReconciliationDiff → Prop)
    (hrefl : ∀ ds, Q ds ds) (htrans : ∀ a b c, Q a b → Q b c → Q a c)
    (happ : ∀ ds ds', AppendedPending ds ds' → Q ds ds') :
    Q w.reconciliation_diffs
        (reconcileInvoices env w startDate endDate reportID).2.reconciliation_diffs ∧
    ∀ ds, (reconcileInvoices env w startDate endDate reportID).1 = .ok ds →
      ∀ d ∈ ds, d.AutoFixed = false := by
  rcases reconcileInvoices_world env w startDate endDate reportID with h | ⟨records, h⟩
  · constructor
    · rw [h, getLocalInvoices_diffs]; exact hrefl _
    · intro ds hds
      unfold reconcileInvoices at hds
      split at hds
      · simp at hds
      · next recs w1 hfetch =>
        simp only [Except.ok.injEq] at hds
        subst hds
        exact forEachRecord_forall _ _ (reconcileInvoice_autoFixed env reportID) _ _
  · rw [h]
    constructor
    · have := forEachRecord_diffs_rel (reconcileInvoice env reportID) Q hrefl htrans
        (fun w r => happ _ _ (reconcileInvoice_diffs env reportID w r)) records
        (getLocalInvoices env w startDate endDate).2 []
      rw [getLocalInvoices_diffs] at this
      exact this
    · intro ds hds
      simp only [Except.ok.injEq] at hds
      subst hds
      exact forEachRecord_forall _ _ (reconcileInvoice_autoFixed env reportID) _ _

theorem reconcileCustomers_rel (env : Env) (w : World) (startDate endDate : Nat)
    (reportID : String)
    (Q : List ReconciliationDiff → List ReconciliationDiff → Prop)
    (hrefl : ∀ ds, Q ds ds) (htrans : ∀ a b c, Q a b → Q b c → Q a c)
    (happ : ∀ ds ds', AppendedPending ds ds' → Q ds ds') :
    Q w.reconciliation_diffs
        (reconcileCustomers env w startDate endDate reportID).2.reconciliation_diffs ∧
    ∀ ds, (reconcileCustomers env w startDate endDate reportID).1 = .ok ds →
      ∀ d ∈ ds, d.AutoFixed = false := by
  rcases reconcileCustomers_world env w startDate endDate reportID with h | ⟨records, h⟩
  · constructor
    · rw [h, getLocalCustomers_diffs]; exact hrefl _
    · intro ds hds
      unfold reconcileCustomers at hds
      split at hds
      · simp at hds
      · next recs w1 hfetch =>
        simp only [Except.ok.injEq] at hds
        subst hds
        exact forEachRecord_forall _ _ (reconcileCustomer_autoFixed env reportID) _ _
  · rw [h]
    constructor
    · have := forEachRecord_diffs_rel (reconcileCustomer env reportID) Q hrefl htrans
        (fun w r => happ _ _ (reconcileCustomer_diffs env reportID w r)) records
        (getLocalCustomers env w startDate endDate).2 []
      rw [getLocalCustomers_diffs] at this
      exact this
    · intro ds hds
      simp only [Except.ok.injEq] at hds
      subst hds
      exact forEachRecord_forall _ _ (reconcileCustomer_autoFixed env reportID) _ _

/-- C9 as stated fails at the admin FixDiff: the stored diff diff_1 is
auto-fixed and satisfies the invariant; the handler answers 200 and leaves its
row with auto_fixed true, status manual_fixed and fixed_by admin. -/
theorem diff_invariant_broken_by_admin_FixDiff :
    StoreInvariant worldAutoFixed ∧
    (admin.FixDiff (envA 200) worldAutoFixed "diff_1" (some "checked")).1 = 200 ∧
    (admin.FixDiff (envA 200) worldAutoFixed "diff_1" (some "checked")).2.reconciliation_diffs.map
      (fun d => (d.ID, d.AutoFixed, d.Status, d.FixedBy))
      = [("diff_1", true, "manual_fixed", "admin")] ∧
    ¬ StoreInvariant (admin.FixDiff (envA 200) worldAutoFixed "diff_1" (some "checked")).2 := by
  have htable :
      (admin.FixDiff (envA 200) worldAutoFixed "diff_1"
        (some "checked")).2.reconciliation_diffs =
        [patchDiffRow "diff_1" "manual_fixed" true (some 1001) "admin" 1002 diffAutoFixed] :=
    rfl
  refine ⟨?_, rfl, rfl, ?_⟩
  · intro row hrow
    have hrow' : row = diffAutoFixed := by simpa [worldAutoFixed] using hrow
    subst hrow'
    intro _
    exact ⟨rfl, by simp [diffAutoFixed], rfl⟩
  · intro hinv
    have h := hinv _ (by rw [htable]; exact List.mem_cons_self _ _) rfl
    exact absurd h.1 (by decide)

/-- C9 as amended: every diff the comparator returns and every row it saves
satisfies the invariant; autoFixDiffs preserves it on the diff objects and on
the rows; the admin FixDiff and IgnoreDiff preserve it on the rows when the
rows with the addressed id are not auto-fixed. -/
theorem diff_invariant_preserved (env : Env) (w : World) (hw : StoreInvariant w) :
    (∀ startDate endDate reportID,
      StoreInvariant (reconcileSubscriptions env w startDate endDate reportID).2 ∧
      ∀ ds, (reconcileSubscriptions env w startDate endDate reportID).1 = .ok ds →
        ∀ d ∈ ds, DiffInvariant d) ∧
    (∀ startDate endDate reportID,
      StoreInvariant (reconcileInvoices env w startDate endDate reportID).2 ∧
      ∀ ds, (reconcileInvoices env w startDate endDate reportID).1 = .ok ds →
        ∀ d ∈ ds, DiffInvariant d) ∧
    (∀ startDate endDate reportID,
      StoreInvariant (reconcileCustomers env w startDate endDate reportID).2 ∧
      ∀ ds, (reconcileCustomers env w startDate endDate reportID).1 = .ok ds →
        ∀ d ∈ ds, DiffInvariant d) ∧
    (∀ config diffs, (∀ d ∈ diffs, DiffInvariant d) →
      StoreInvariant (autoFixDiffs env config w diffs).2 ∧
      ∀ d ∈ (autoFixDiffs env config w diffs).1, DiffInvariant d) ∧
    (∀ diffID notes,
      (∀ row ∈ w.reconciliation_diffs, row.ID = diffID → row.AutoFixed = false) →
      StoreInvariant (admin.FixDiff env w diffID notes).2) ∧
    (∀ diffID notes,
      (∀ row ∈ w.reconciliation_diffs, row.ID = diffID → row.AutoFixed = false) →
      StoreInvariant (admin.IgnoreDiff env w diffID notes).2) := by
  have hnew : ∀ d : ReconciliationDiff, d.AutoFixed = false → DiffInvariant d := by
    intro d hd haf
    rw [hd] at haf
    exact absurd haf (by decide)
  refine ⟨?_, ?_, ?_, ?_, ?_, ?_⟩
  · intro startDate endDate reportID
    obtain ⟨h1, h2⟩ := reconcileSubscriptions_rel env w startDate endDate reportID
      (fun ds ds' => (∀ d ∈ ds, DiffInvariant d) → ∀ d ∈ ds', DiffInvariant d)
      (fun _ h => h) (fun _ _ _ hab hbc h => hbc (hab h))
      (fun ds ds' hstep h => storeInvariant_appendedPending ds ds' hstep h)
    exact ⟨h1 hw, fun ds hds d hd => hnew d (h2 ds hds d hd)⟩
  · intro startDate endDate reportID
    obtain ⟨h1, h2⟩ := reconcileInvoices_rel env w startDate endDate reportID
      (fun ds ds' => (∀ d ∈ ds, DiffInvariant d) → ∀ d ∈ ds', DiffInvariant d)
      (fun _ h => h) (fun _ _ _ hab hbc h => hbc (hab h))
      (fun ds ds' hstep h => storeInvariant_appendedPending ds ds' hstep h)
    exact ⟨h1 hw, fun ds hds d hd => hnew d (h2 ds hds d hd)⟩
  · intro startDate endDate reportID
    obtain ⟨h1, h2⟩ := reconcileCustomers_rel env w startDate endDate reportID
      (fun ds ds' => (∀ d ∈ ds, DiffInvariant d) → ∀ d ∈ ds', DiffInvariant d)
      (fun _ h => h) (fun _ _ _ hab hbc h => hbc (hab h))
      (fun ds ds' hstep h => storeInvariant_appendedPending ds ds' hstep h)
    exact ⟨h1 hw, fun ds hds d hd => hnew d (h2 ds hds d hd)⟩
  · intro config diffs hdiffs
    constructor
    · refine autoFixDiffs_diffs_rel env config
        (fun ds ds' => (∀ d ∈ ds, DiffInvariant d) → ∀ d ∈ ds', DiffInvariant d)
        (fun _ h => h) (fun _ _ _ hab hbc h => hbc (hab h)) ?_ w diffs hw
      intro w0 d h
      rcases autoFixDiff_diffs env config w0 d with hcase | ⟨fixedAt, updatedAt, hcase⟩
      · rw [hcase]; exact h
      · rw [hcase]
        exact storeInvariant_patch _ _ _ _ _ _ _ h (fun _ => ⟨rfl, by simp, rfl⟩)
    · clear hw
      induction diffs generalizing w with
      | nil => intro d hd; simp [autoFixDiffs] at hd
      | cons d0 rest ih =>
          intro d hd
          simp only [autoFixDiffs, List.mem_cons] at hd
          rcases hd with hd | hd
          · rcases autoFixDiff_object env config w d0 with hobj | ⟨fixedAt, updatedAt, hobj⟩
            · rw [hd, hobj]; exact hdiffs d0 (List.mem_cons_self _ _)
            · rw [hd, hobj]; exact fun _ => ⟨rfl, by simp, rfl⟩
          · exact ih _ (fun x hx => hdiffs x (List.mem_cons_of_mem _ hx)) d hd
  · intro diffID notes hflag
    rcases admin.FixDiff_diffs env w diffID notes with h | ⟨row, fixedAt, updatedAt, hrow, hid, h⟩
    · intro d hd; rw [h] at hd; exact hw d hd
    · intro d hd
      rw [h] at hd
      refine storeInvariant_patch _ _ _ _ _ _ _ hw ?_ d hd
      intro haf
      rw [hflag row hrow hid] at haf
      exact absurd haf (by decide)
  · intro diffID notes hflag
    rcases admin.IgnoreDiff_diffs env w diffID notes with h | ⟨requestNotes, updatedAt, h⟩
    · intro d hd; rw [h] at hd; exact hw d hd
    · intro d hd
      rw [h] at hd
      exact storeInvariant_ignore _ _ _ _ hw hflag d hd

/-- Witness of C9 as amended: in Scenario C the stored diff diff_1 is pending
and not auto-fixed; after the admin FixDiff its row satisfies the invariant. -/
theorem diff_invariant_preserved_witness :
    StoreInvariant worldC ∧
    StoreInvariant (admin.FixDiff (envA 200) worldC "diff_1" (some "checked")).2 := by
  have hw : StoreInvariant worldC := by
    intro row hrow
    have hrow' : row = diffA := by simpa [worldC] using hrow
    subst hrow'
    intro haf
    exact absurd haf (by decide)
  refine ⟨hw, (diff_invariant_preserved (envA 200) worldC hw).2.2.2.2.1 "diff_1"
    (some "checked") ?_⟩
  intro row hrow _
  have hrow' : row = diffA := by simpa [worldC] using hrow
  subst hrow'
  rfl

/- A diff never goes back to pending -/

theorem noRevert_refl (ds : List ReconciliationDiff) : NoRevert ds ds :=
  fun _ row h => ⟨row, h, rfl, fun hs => hs⟩

theorem noRevert_trans (a b c : List ReconciliationDiff) (hab : NoRevert a b)
    (hbc : NoRevert b c) : NoRevert a c := by
  intro i row h
  obtain ⟨row1, h1, hid1, hs1⟩ := hab i row h
  obtain ⟨row2, h2, hid2, hs2⟩ := hbc i row1 h1
  exact ⟨row2, h2, hid2.trans hid1, fun hs => hs2 (hs1 hs)⟩

theorem noRevert_of_appendedPending (ds ds' : List ReconciliationDiff)
    (h : AppendedPending ds ds') : NoRevert ds ds' := by
  rcases h with rfl | ⟨new, _, _, rfl⟩
  · exact noRevert_refl _
  · intro i row hrow
    refine ⟨row, ?_, rfl, fun hs => hs⟩
    have hi : i < ds.length := by
      by_contra hlt
      rw [List.getElem?_eq_none (by omega)] at hrow
      exact absurd hrow (by simp)
    rw [List.getElem?_append_left hi]
    exact hrow

theorem noRevert_of_map (ds : List ReconciliationDiff)
    (f : ReconciliationDiff → ReconciliationDiff)
    (hf : ∀ d, (f d).ID = d.ID ∧ (d.Status ≠ "pending" → (f d).Status ≠ "pending")) :
    NoRevert ds (ds.map f) := by
  intro i row hrow
  refine ⟨f row, ?_, (hf row).1, (hf row).2⟩
  rw [List.getElem?_map, hrow]
  rfl

theorem noRevert_of_patch (ds : List ReconciliationDiff) (id status : String)
    (autoFixed : Bool) (fixedAt : Option Nat) (fixedBy : String) (updatedAt : Nat)
    (hstatus : status ≠ "pending") :
    NoRevert ds (ds.map (patchDiffRow id status autoFixed fixedAt fixedBy updatedAt)) := by
  apply noRevert_of_map
  intro d
  unfold patchDiffRow
  split_ifs
  · exact ⟨rfl, fun _ => hstatus⟩
  · exact ⟨rfl, fun hs => hs⟩

theorem noRevert_of_ignore (ds : List ReconciliationDiff) (id notes : String)
    (updatedAt : Nat) : NoRevert ds (ds.map (ignoreDiffRow id notes updatedAt)) := by
  apply noRevert_of_map
  intro d
  unfold ignoreDiffRow
  split_ifs
  · exact ⟨rfl, fun _ => by show "ignored" ≠ "pending"; decide⟩
  · exact ⟨rfl, fun hs => hs⟩

theorem autoFixDiffs_length (env : Env) (config : ReconciliationConfig) (w : World)
    (diffs : List ReconciliationDiff) :
    (autoFixDiffs env config w diffs).1.length = diffs.length := by
  induction diffs generalizing w with
  | nil => rfl
  | cons d rest ih => simp [autoFixDiffs, ih]

/-- The followed diff object after the auto-fix pass is what the body of the
loop made of it when the loop reached it. -/
theorem diffOp_apply_autoFixDiffs_diff (env : Env) (t : Tracked)
    (config : ReconciliationConfig) (before after : List ReconciliationDiff) :
    (DiffOp.apply env t (.autoFixDiffs config before after)).diff =
      (autoFixDiff env config (reconciliation.autoFixDiffs env config t.world before).2
        t.diff).1 := by
  simp only [DiffOp.apply]
  rw [autoFixDiffs_split, List.getD_eq_getElem?_getD,
    List.getElem?_append_right (by rw [autoFixDiffs_length])]
  simp [autoFixDiffs_length]

theorem diffOp_apply_spec (env : Env) (t : Tracked) (op : DiffOp)
    (h : t.diff.Status ≠ "pending" ∨ op ≠ .updateReconciliationDiff) :
    (t.diff.Status ≠ "pending" → (DiffOp.apply env t op).diff.Status ≠ "pending") ∧
    NoRevert t.world.reconciliation_diffs
      (DiffOp.apply env t op).world.reconciliation_diffs := by
  cases op with
  | reconcileSubscriptions startDate endDate reportID =>
      exact ⟨fun hs => hs, (reconcileSubscriptions_rel env t.world startDate endDate reportID
        NoRevert noRevert_refl noRevert_trans noRevert_of_appendedPending).1⟩
  | reconcileInvoices startDate endDate reportID =>
      exact ⟨fun hs => hs, (reconcileInvoices_rel env t.world startDate endDate reportID
        NoRevert noRevert_refl noRevert_trans noRevert_of_appendedPending).1⟩
  | reconcileCustomers startDate endDate reportID =>
      exact ⟨fun hs => hs, (reconcileCustomers_rel env t.world startDate endDate reportID
        NoRevert noRevert_refl noRevert_trans noRevert_of_appendedPending).1⟩
  | autoFixDiffs config before after =>
      constructor
      · intro hs
        rw [diffOp_apply_autoFixDiffs_diff]
        rcases autoFixDiff_object env config
          (reconciliation.autoFixDiffs env config t.world before).2 t.diff with
          hobj | ⟨fixedAt, updatedAt, hobj⟩
        · rw [hobj]; exact hs
        · rw [hobj]; show "auto_fixed" ≠ "pending"; decide
      · refine autoFixDiffs_diffs_rel env config NoRevert noRevert_refl noRevert_trans ?_
          t.world (before ++ t.diff :: after)
        intro w d
        rcases autoFixDiff_diffs env config w d with hcase | ⟨fixedAt, updatedAt, hcase⟩
        · rw [hcase]; exact noRevert_refl _
        · rw [hcase]; exact noRevert_of_patch _ _ _ _ _ _ _ (by decide)
  | adminFixDiff diffID notes =>
      refine ⟨fun hs => hs, ?_⟩
      rcases admin.FixDiff_diffs env t.world diffID notes with
        hcase | ⟨row, fixedAt, updatedAt, _, _, hcase⟩
      · simp only [DiffOp.apply]; rw [hcase]; exact noRevert_refl _
      · simp only [DiffOp.apply]; rw [hcase]
        exact noRevert_of_patch _ _ _ _ _ _ _ (by decide)
  | adminIgnoreDiff diffID notes =>
      refine ⟨fun hs => hs, ?_⟩
      rcases admin.IgnoreDiff_diffs env t.world diffID notes with
        hcase | ⟨requestNotes, updatedAt, hcase⟩
      · simp only [DiffOp.apply]; rw [hcase]; exact noRevert_refl _
      · simp only [DiffOp.apply]; rw [hcase]; exact noRevert_of_ignore _ _ _ _
  | updateReconciliationDiff =>
      refine ⟨fun hs => hs, ?_⟩
      have hs : t.diff.Status ≠ "pending" := by
        rcases h with h | h
        · exact h
        · exact absurd rfl h
      rcases updateReconciliationDiff_diffs env t.world t.diff with hcase | hcase
      · simp only [DiffOp.apply]; rw [hcase]; exact noRevert_refl _
      · simp only [DiffOp.apply]; rw [hcase]
        exact noRevert_of_patch _ _ _ _ _ _ _ hs

/-- C10: follow a diff, as the object the service holds and as its stored
rows, through any sequence of comparisons, auto-fix passes, admin FixDiff and
IgnoreDiff calls and calls of updateReconciliationDiff on the object. Once the
object's status is not pending it is never pending again, and no stored row
whose status is not pending is set to pending by a later operation, the rows
keeping their place and id. The helper updateReconciliationDiff writes the status
of the object it is handed, so the sequence either starts from an object that
is not pending or does not call the helper on its own: the code calls it only
after assigning auto_fixed or manual_fixed. -/
theorem status_never_back_to_pending (env : Env) (ops : List DiffOp) (t : Tracked)
    (h : t.diff.Status ≠ "pending" ∨ DiffOp.updateReconciliationDiff ∉ ops) :
    (t.diff.Status ≠ "pending" → (runOps env ops t).diff.Status ≠ "pending") ∧
    NoRevert t.world.reconciliation_diffs (runOps env ops t).world.reconciliation_diffs := by
  induction ops generalizing t with
  | nil => exact ⟨fun hs => hs, noRevert_refl _⟩
  | cons op rest ih =>
      have hop : t.diff.Status ≠ "pending" ∨ op ≠ .updateReconciliationDiff := by
        rcases h with h | h
        · exact Or.inl h
        · exact Or.inr (fun heq => h (by rw [heq]; exact List.mem_cons_self _ _))
      obtain ⟨hobj, hrows⟩ := diffOp_apply_spec env t op hop
      have hrest : (DiffOp.apply env t op).diff.Status ≠ "pending" ∨
          DiffOp.updateReconciliationDiff ∉ rest := by
        rcases h with h | h
        · exact Or.inl (hobj h)
        · exact Or.inr (fun hmem => h (List.mem_cons_of_mem _ hmem))
      obtain ⟨hobj', hrows'⟩ := ih (DiffOp.apply env t op) hrest
      exact ⟨fun hs => hobj' (hobj hs), noRevert_trans _ _ _ hrows hrows'⟩

/-- Witness of C10: the auto-fixed diff diff_1 of Scenario C goes through an
admin IgnoreDiff, an auto-fix pass, a call of updateReconciliationDiff, an admin
FixDiff and a new comparison; its object is not pending afterwards and its row
was never set back to pending. -/
theorem status_never_back_to_pending_witness :
    (runOps (envA 200)
        [.adminIgnoreDiff "diff_1" (some "noise"), .autoFixDiffs configC [] [],
         .updateReconciliationDiff, .adminFixDiff "diff_1" (some "checked"),
         .reconcileSubscriptions 0 10 "report_2"]
        { diff := diffAutoFixed, world := worldAutoFixed }).diff.Status ≠ "pending" ∧
    NoRevert worldAutoFixed.reconciliation_diffs
      (runOps (envA 200)
        [.adminIgnoreDiff "diff_1" (some "noise"), .autoFixDiffs configC [] [],
         .updateReconciliationDiff, .adminFixDiff "diff_1" (some "checked"),
         .reconcileSubscriptions 0 10 "report_2"]
        { diff := diffAutoFixed, world := worldAutoFixed }).world.reconciliation_diffs :=
  ⟨(status_never_back_to_pending (envA 200) _ { diff := diffAutoFixed, world := worldAutoFixed }
      (Or.inl (by decide))).1 (by decide),
    (status_never_back_to_pending (envA 200) _ { diff := diffAutoFixed, world := worldAutoFixed }
      (Or.inl (by decide))).2⟩

/- The scheduler -/

/-- C11, the code at the failing input: after Start the trigger with the
configured schedule is installed as entry 1; UpdateSchedule with the invalid
expression bad cron returns an error and leaves the schedule string and its
timestamp as they were, but the installed trigger is gone: the entry was
removed before the new expression was parsed, and entryID still names it. -/
theorem UpdateSchedule_bad_cron_removes_trigger :
    schedulerE.cron.entries = [{ ID := 1, Spec := "0 0 2 * * *" }] ∧
    schedulerE.entryID = 1 ∧
    cron.Parse acceptingEnv "bad cron" = false ∧
    (Scheduler.UpdateSchedule acceptingEnv schedulerE {} "bad cron").1
      = some (.message "更新调度配置失败") ∧
    (Scheduler.UpdateSchedule acceptingEnv schedulerE {} "bad cron").2.1.cron.entries = [] ∧
    (Scheduler.UpdateSchedule acceptingEnv schedulerE {} "bad cron").2.1.entryID = 1 ∧
    (Scheduler.UpdateSchedule acceptingEnv schedulerE {} "bad cron").2.1.config
      = schedulerE.config ∧
    (Scheduler.UpdateSchedule acceptingEnv schedulerE {} "bad cron").2.1.GetSchedule
      = "0 0 2 * * *" := by
  refine ⟨rfl, rfl, rfl, rfl, rfl, rfl, rfl, rfl⟩

theorem cron_AddFunc_of_valid (env : Env) (c : cron.Cron) (spec : String)
    (h : cron.Parse env spec = true) :
    cron.Cron.AddFunc env c spec =
      (some (c.nextID + 1),
        { c with nextID := c.nextID + 1,
                 entries := c.entries ++ [{ ID := c.nextID + 1, Spec := spec }] }) := by
  simp [cron.Cron.AddFunc, h]

theorem cron_AddFunc_of_invalid (env : Env) (c : cron.Cron) (spec : String)
    (h : cron.Parse env spec = false) :
    cron.Cron.AddFunc env c spec = (none, c) := by
  simp [cron.Cron.AddFunc, h]

theorem schedulerWF_NewScheduler (config : ReconciliationConfig) :
    SchedulerWF (NewScheduler config) := by
  constructor
  · intro entry hentry
    simp [NewScheduler] at hentry
  · exact Nat.le_refl _

theorem schedulerWF_Start (env : Env) (s : Scheduler) (h : SchedulerWF s) :
    SchedulerWF (Scheduler.Start env s).2 := by
  unfold Scheduler.Start
  cases hp : cron.Parse env s.config.Schedule
  · rw [cron_AddFunc_of_invalid env _ _ hp]
    exact h
  · rw [cron_AddFunc_of_valid env _ _ hp]
    constructor
    · intro entry hentry
      simp only [cron.Cron.Start, List.mem_append, List.mem_singleton] at hentry
      rcases hentry with hentry | hentry
      · exact Nat.le_succ_of_le (h.1 entry hentry)
      · rw [hentry]
        exact Nat.le_refl _
    · exact Nat.le_refl _

theorem schedulerWF_Stop (s : Scheduler) (h : SchedulerWF s) :
    SchedulerWF (Scheduler.Stop s) := h

theorem cron_Remove_mem (c : cron.Cron) (id : Nat) (entry : cron.Entry)
    (h : entry ∈ (c.Remove id).entries) : entry ∈ c.entries ∧ entry.ID ≠ id := by
  simp only [cron.Cron.Remove, List.mem_filter, decide_eq_true_eq] at h
  exact h

theorem schedulerWF_UpdateSchedule (env : Env) (s : Scheduler) (w : World)
    (newSchedule : String) (h : SchedulerWF s) :
    SchedulerWF (Scheduler.UpdateSchedule env s w newSchedule).2.1 := by
  have hkept : ∀ entry ∈ (if s.entryID ≠ 0 then s.cron.Remove s.entryID else s.cron).entries,
      entry.ID ≤ s.cron.nextID := by
    intro entry hentry
    split_ifs at hentry
    · exact h.1 entry (cron_Remove_mem _ _ _ hentry).1
    · exact h.1 entry hentry
  have hnext : (if s.entryID ≠ 0 then s.cron.Remove s.entryID else s.cron).nextID =
      s.cron.nextID := by
    split_ifs <;> rfl
  unfold Scheduler.UpdateSchedule
  cases hp : cron.Parse env newSchedule
  · rw [cron_AddFunc_of_invalid env _ _ hp]
    exact ⟨fun entry hentry => by rw [hnext]; exact hkept entry hentry,
      by rw [hnext]; exact h.2⟩
  · rw [cron_AddFunc_of_valid env _ _ hp]
    constructor
    · intro entry hentry
      simp only [List.mem_append, List.mem_singleton] at hentry
      rcases hentry with hentry | hentry
      · show entry.ID ≤ _ + 1
        rw [hnext]
        exact Nat.le_succ_of_le (hkept entry hentry)
      · subst hentry
        exact Nat.le_refl _
    · exact Nat.le_refl _

/-- C12: for a scheduler whose identifiers were handed out by its cron instance
and a valid expression e, UpdateSchedule returns no error; the entry recorded
before, if any, is no longer installed; the installed entries are the other
earlier entries followed by one new entry with expression e; entryID records
the new entry, which is the only entry with that identifier; and GetSchedule
returns e afterwards. -/
theorem UpdateSchedule_success (env : Env) (s : Scheduler) (w : World) (e : String)
    (hwf : SchedulerWF s) (hvalid : cron.Parse env e = true) :
    (Scheduler.UpdateSchedule env s w e).1 = none ∧
    (s.entryID ≠ 0 →
      ∀ entry ∈ (Scheduler.UpdateSchedule env s w e).2.1.cron.entries,
        entry.ID ≠ s.entryID) ∧
    (Scheduler.UpdateSchedule env s w e).2.1.cron.entries =
      (if s.entryID ≠ 0 then s.cron.entries.filter fun x => decide (x.ID ≠ s.entryID)
        else s.cron.entries) ++
        [{ ID := (Scheduler.UpdateSchedule env s w e).2.1.entryID, Spec := e }] ∧
    (∀ entry ∈ s.cron.entries,
      entry.ID ≠ (Scheduler.UpdateSchedule env s w e).2.1.entryID) ∧
    (Scheduler.UpdateSchedule env s w e).2.1.cron.entries.filter
      (fun x => decide (x.ID = (Scheduler.UpdateSchedule env s w e).2.1.entryID)) =
      [{ ID := (Scheduler.UpdateSchedule env s w e).2.1.entryID, Spec := e }] ∧
    (Scheduler.UpdateSchedule env s w e).2.1.GetSchedule = e := by
  have hnext : (if s.entryID ≠ 0 then s.cron.Remove s.entryID else s.cron).nextID =
      s.cron.nextID := by
    split_ifs <;> rfl
  have hentries : (if s.entryID ≠ 0 then s.cron.Remove s.entryID else s.cron).entries =
      (if s.entryID ≠ 0 then s.cron.entries.filter fun x => decide (x.ID ≠ s.entryID)
        else s.cron.entries) := by
    split_ifs <;> rfl
  have hres : Scheduler.UpdateSchedule env s w e =
      (none,
        { cron :=
            { (if s.entryID ≠ 0 then s.cron.Remove s.entryID else s.cron) with
              nextID := s.cron.nextID + 1,
              entries :=
                (if s.entryID ≠ 0 then s.cron.entries.filter fun x => decide (x.ID ≠ s.entryID)
                  else s.cron.entries) ++ [{ ID := s.cron.nextID + 1, Spec := e }] },
          entryID := s.cron.nextID + 1,
          config := { s.config with Schedule := e, UpdatedAt := (timeNow env w).1 } },
        (timeNow env w).2) := by
    unfold Scheduler.UpdateSchedule
    rw [cron_AddFunc_of_valid env _ _ hvalid, hnext, hentries]
  have hold : ∀ entry ∈
      (if s.entryID ≠ 0 then s.cron.entries.filter fun x => decide (x.ID ≠ s.entryID)
        else s.cron.entries), entry ∈ s.cron.entries ∧ (s.entryID ≠ 0 → entry.ID ≠ s.entryID) := by
    intro entry hentry
    split_ifs at hentry with h0
    · simp only [List.mem_filter, decide_eq_true_eq] at hentry
      exact ⟨hentry.1, fun _ => hentry.2⟩
    · exact ⟨hentry, fun h => absurd h h0⟩
  rw [hres]
  refine ⟨rfl, ?_, rfl, ?_, ?_, rfl⟩
  · intro h0 entry hentry
    simp only [List.mem_append, List.mem_singleton] at hentry
    rcases hentry with hentry | hentry
    · exact (hold entry hentry).2 h0
    · rw [hentry]
      show s.cron.nextID + 1 ≠ s.entryID
      have := hwf.2
      omega
  · intro entry hentry
    show entry.ID ≠ s.cron.nextID + 1
    have := hwf.1 entry hentry
    omega
  · show List.filter _ (_ ++ _) = _
    rw [List.filter_append]
    have hnone : List.filter (fun x : cron.Entry => decide (x.ID = s.cron.nextID + 1))
        (if s.entryID ≠ 0 then s.cron.entries.filter fun x => decide (x.ID ≠ s.entryID)
          else s.cron.entries) = [] := by
      rw [List.filter_eq_nil_iff]
      intro entry hentry
      have := hwf.1 entry (hold entry hentry).1
      simp only [decide_eq_true_eq]
      omega
    rw [hnone]
    simp

/-- Witness of C12: the started scheduler of Scenario E takes the valid
expression that fires at 03:30:00 every day. -/
theorem UpdateSchedule_success_witness :
    (Scheduler.UpdateSchedule acceptingEnv schedulerE {} "0 30 3 * * *").1 = none ∧
    (Scheduler.UpdateSchedule acceptingEnv schedulerE {} "0 30 3 * * *").2.1.cron.entries
      = [{ ID := 2, Spec := "0 30 3 * * *" }] ∧
    (Scheduler.UpdateSchedule acceptingEnv schedulerE {} "0 30 3 * * *").2.1.entryID = 2 ∧
    (Scheduler.UpdateSchedule acceptingEnv schedulerE {} "0 30 3 * * *").2.1.GetSchedule
      = "0 30 3 * * *" := by
  have h := UpdateSchedule_success acceptingEnv schedulerE {} "0 30 3 * * *"
    (schedulerWF_Start acceptingEnv _ (schedulerWF_NewScheduler configE)) rfl
  exact ⟨h.1, rfl, rfl, h.2.2.2.2.2⟩

/-- C13, the code at the failing input: the default schedule of
getReconciliationConfig has five fields, the parser of the scheduler takes exactly
six, so it refuses the default schedule whatever the contents of the fields;
Start on a fresh scheduler with the default configuration returns an error
and installs no trigger. -/
theorem Start_default_config_fails (env : Env) (w : World) :
    (getReconciliationConfig env w).1.Schedule = "0 2 * * *" ∧
    cron.Fields "0 2 * * *" = ["0", "2", "*", "*", "*"] ∧
    cron.Parse env (getReconciliationConfig env w).1.Schedule = false ∧
    (Scheduler.Start env (NewScheduler (getReconciliationConfig env w).1)).1
      = some (.message "添加定时任务失败") ∧
    (Scheduler.Start env (NewScheduler (getReconciliationConfig env w).1)).2.cron.entries
      = [] := by
  have hparse : cron.Parse env "0 2 * * *" = false := rfl
  refine ⟨rfl, rfl, hparse, ?_, ?_⟩
  · unfold Scheduler.Start
    rw [cron_AddFunc_of_invalid env _ _ (by exact hparse)]
  · unfold Scheduler.Start
    rw [cron_AddFunc_of_invalid env _ _ (by exact hparse)]
    rfl

theorem Truncate_day (t : Nat) :
    Truncate t (24 * Hour) % (24 * Hour) = 0 ∧ Truncate t (24 * Hour) ≤ t ∧
    t < Truncate t (24 * Hour) + 24 * Hour := by
  have hd : 24 * Hour = 86400000000000 := by decide
  rw [hd]
  unfold Truncate
  rw [if_neg (by decide)]
  omega

/-- C14: for a trigger time t, read once from the clock and at least one day
after the zero time, runReconciliationTask calls RunReconciliation with the end of
the window at t rounded down to a multiple of 24 hours, which is 00:00 UTC of
the day containing t, so end ≤ t < end + 24h, and with the start exactly 24
hours before the end. -/
theorem runReconciliationTask_window (env : Env) (s : Scheduler) (w : World)
    (hday : 24 * Hour ≤ env.timeNow w.ticks) :
    Scheduler.runReconciliationTask env s w =
      (RunReconciliation env s.config (timeNow env w).2
        (Truncate (env.timeNow w.ticks) (24 * Hour) - 24 * Hour)
        (Truncate (env.timeNow w.ticks) (24 * Hour))).2 ∧
    Truncate (env.timeNow w.ticks) (24 * Hour) % (24 * Hour) = 0 ∧
    Truncate (env.timeNow w.ticks) (24 * Hour) ≤ env.timeNow w.ticks ∧
    env.timeNow w.ticks < Truncate (env.timeNow w.ticks) (24 * Hour) + 24 * Hour ∧
    (Truncate (env.timeNow w.ticks) (24 * Hour) - 24 * Hour) + 24 * Hour =
      Truncate (env.timeNow w.ticks) (24 * Hour) := by
  obtain ⟨h1, h2, h3⟩ := Truncate_day (env.timeNow w.ticks)
  refine ⟨rfl, h1, h2, h3, ?_⟩
  have hd : 24 * Hour = 86400000000000 := by decide
  rw [hd] at hday h1 h3 ⊢
  omega

/-- Witness of C14: the clock reads 1000000000000000000 nanoseconds after the
zero time; the window ends at 999993600000000000, a multiple of 24 hours, and
starts 24 hours before. -/
theorem runReconciliationTask_window_witness :
    Truncate 1000000000000000000 (24 * Hour) = 999993600000000000 ∧
    Truncate 1000000000000000000 (24 * Hour) % (24 * Hour) = 0 ∧
    (Truncate 1000000000000000000 (24 * Hour) - 24 * Hour) + 24 * Hour =
      Truncate 1000000000000000000 (24 * Hour) := by
  have h := runReconciliationTask_window
    { acceptingEnv with timeNow := fun _ => 1000000000000000000 } schedulerE {}
    (by decide)
  exact ⟨by decide, h.2.1, h.2.2.2.2⟩

/- The orchestrator -/

theorem createReconciliationReport_requests (env : Env) (w : World) (startDate endDate : Nat) :
    (createReconciliationReport env w startDate endDate).2.requests =
      w.requests ++ [.postReport (env.uuidNew w.uuids) (env.timeNow w.ticks) startDate endDate
        "pending" (env.timeNow (w.ticks + 1)) (env.timeNow (w.ticks + 1 + 1))] := by
  unfold createReconciliationReport
  dsimp only
  split
  · simp [uuidNewString, timeNow]
  · split_ifs <;> simp [uuidNewString, timeNow]

theorem createReconciliationReport_of_transportError (env : Env) (w : World)
    (startDate endDate : Nat) (h : env.httpDo w.requests.length = .transportError) :
    (createReconciliationReport env w startDate endDate).1 = .error .transport := by
  unfold createReconciliationReport
  simp [uuidNewString, timeNow, h]

theorem createReconciliationReport_of_status (env : Env) (w : World)
    (startDate endDate statusCode : Nat)
    (h : env.httpDo w.requests.length = .response statusCode) (hcode : statusCode ≠ 201) :
    (createReconciliationReport env w startDate endDate).1 =
      .error (.message ("创建对账报告失败: " ++ toString statusCode)) := by
  unfold createReconciliationReport
  simp [uuidNewString, timeNow, h, hcode]

theorem createReconciliationReport_of_created (env : Env) (w : World)
    (startDate endDate : Nat) (h : env.httpDo w.requests.length = .response 201) :
    (createReconciliationReport env w startDate endDate).1 =
      .ok { ID := env.uuidNew w.uuids, ReportDate := env.timeNow w.ticks,
            StartDate := startDate, EndDate := endDate, Status := "pending",
            CreatedAt := env.timeNow (w.ticks + 1),
            UpdatedAt := env.timeNow (w.ticks + 1 + 1) } := by
  unfold createReconciliationReport
  simp [uuidNewString, timeNow, h]

/-- A creation that is refused wrote at most the report table. -/
theorem createReconciliationReport_tables (env : Env) (w : World) (startDate endDate : Nat) :
    (createReconciliationReport env w startDate endDate).2.stripe_subscriptions
      = w.stripe_subscriptions ∧
    (createReconciliationReport env w startDate endDate).2.stripe_invoices
      = w.stripe_invoices ∧
    (createReconciliationReport env w startDate endDate).2.stripe_customers
      = w.stripe_customers ∧
    (createReconciliationReport env w startDate endDate).2.reconciliation_diffs
      = w.reconciliation_diffs ∧
    (createReconciliationReport env w startDate endDate).2.reconciliation_audit_logs
      = w.reconciliation_audit_logs := by
  have hw : (createReconciliationReport env w startDate endDate).2 =
      (httpclientDo env (timeNow env (timeNow env (timeNow env (uuidNewString env w).2).2).2).2
        (.postReport (uuidNewString env w).1 (timeNow env (uuidNewString env w).2).1
          startDate endDate "pending"
          (timeNow env (timeNow env (uuidNewString env w).2).2).1
          (timeNow env (timeNow env (timeNow env (uuidNewString env w).2).2).2).1)).2 := by
    unfold createReconciliationReport
    dsimp only
    split
    · rfl
    · split_ifs <;> rfl
  rw [hw]
  rcases httpclientDo_cases env
    (timeNow env (timeNow env (timeNow env (uuidNewString env w).2).2).2).2
    (.postReport (uuidNewString env w).1 (timeNow env (uuidNewString env w).2).1
      startDate endDate "pending"
      (timeNow env (timeNow env (uuidNewString env w).2).2).1
      (timeNow env (timeNow env (timeNow env (uuidNewString env w).2).2).2).1) with h | h <;>
    rw [h] <;> exact ⟨rfl, rfl, rfl, rfl, rfl⟩

/-- C15: RunReconciliation returns an error exactly when the creation of the report
fails, that is when the request ends in a transport error or in a response
whose status is not 201 Created. Then it returns no report and does nothing
after the creation request: that request is the only one sent and no local
table, diff or audit entry is written. In every other case it returns the
report and no error. -/
theorem RunReconciliation_error_iff (env : Env) (config : ReconciliationConfig) (w : World)
    (startDate endDate : Nat) :
    ((RunReconciliation env config w startDate endDate).1.2 ≠ none ↔
      (env.httpDo w.requests.length = .transportError ∨
        ∃ statusCode, env.httpDo w.requests.length = .response statusCode ∧
          statusCode ≠ 201)) ∧
    ((RunReconciliation env config w startDate endDate).1.2 ≠ none →
      (RunReconciliation env config w startDate endDate).1.1 = none ∧
      (RunReconciliation env config w startDate endDate).2.requests =
        w.requests ++ [.postReport (env.uuidNew w.uuids) (env.timeNow w.ticks) startDate
          endDate "pending" (env.timeNow (w.ticks + 1)) (env.timeNow (w.ticks + 1 + 1))] ∧
      (RunReconciliation env config w startDate endDate).2.stripe_subscriptions
        = w.stripe_subscriptions ∧
      (RunReconciliation env config w startDate endDate).2.stripe_invoices
        = w.stripe_invoices ∧
      (RunReconciliation env config w startDate endDate).2.stripe_customers
        = w.stripe_customers ∧
      (RunReconciliation env config w startDate endDate).2.reconciliation_diffs
        = w.reconciliation_diffs ∧
      (RunReconciliation env config w startDate endDate).2.reconciliation_audit_logs
        = w.reconciliation_audit_logs) ∧
    ((RunReconciliation env config w startDate endDate).1.2 = none →
      ∃ report, (RunReconciliation env config w startDate endDate).1.1 = some report) := by
  have hfail : ∀ err, (createReconciliationReport env w startDate endDate).1 = .error err →
      RunReconciliation env config w startDate endDate =
        ((none, some (.wrapped "创建对账报告失败" err)),
          (createReconciliationReport env w startDate endDate).2) := by
    intro err herr
    unfold RunReconciliation
    rw [herr]
  have hok : ∀ report, (createReconciliationReport env w startDate endDate).1 = .ok report →
      RunReconciliation env config w startDate endDate =
        ((some report, none),
          runFinished env config (createReconciliationReport env w startDate endDate).2 report
            startDate endDate) := by
    intro report hrep
    unfold RunReconciliation
    rw [hrep]
  have htables := createReconciliationReport_tables env w startDate endDate
  have hreqs := createReconciliationReport_requests env w startDate endDate
  cases hout : env.httpDo w.requests.length with
  | transportError =>
      rw [hfail _ (createReconciliationReport_of_transportError env w startDate endDate hout)]
      refine ⟨⟨fun _ => Or.inl rfl, fun _ => by simp⟩, fun _ => ⟨rfl, hreqs, htables⟩,
        fun h => by simp at h⟩
  | response statusCode =>
      by_cases hcode : statusCode = 201
      · subst hcode
        rw [hok _ (createReconciliationReport_of_created env w startDate endDate hout)]
        refine ⟨⟨fun h => by simp at h, ?_⟩, fun h => by simp at h, fun _ => ⟨_, rfl⟩⟩
        rintro (h | ⟨c, hc, hne⟩)
        · exact absurd h (by simp)
        · simp only [HttpOutcome.response.injEq] at hc
          exact absurd hc.symm hne
      · rw [hfail _ (createReconciliationReport_of_status env w startDate endDate statusCode
          hout hcode)]
        refine ⟨⟨fun _ => Or.inr ⟨statusCode, rfl, hcode⟩, fun _ => by simp⟩,
          fun _ => ⟨rfl, hreqs, htables⟩, fun h => by simp at h⟩

/- The invoice amount repair -/

theorem Atoi_of_invalid (s : String) (h : (Atoi s).2 = some .invalid) : (Atoi s).1 = 0 := by
  unfold Atoi ParseInt at h ⊢
  cases hs : s.toList with
  | nil => rfl
  | cons c cs =>
      rw [hs] at h
      simp only at h ⊢
      split_ifs at h ⊢ <;> first | rfl | simp at h

theorem Atoi_of_outOfRange (s : String) (h : (Atoi s).2 = some .outOfRange) :
    (Atoi s).1 = 2 ^ 63 - 1 ∨ (Atoi s).1 = -2 ^ 63 := by
  unfold Atoi ParseInt at h ⊢
  cases hs : s.toList with
  | nil => rw [hs] at h; simp at h
  | cons c cs =>
      rw [hs] at h
      simp only at h ⊢
      split_ifs at h ⊢ <;> first | exact Or.inl rfl | exact Or.inr rfl | simp at h

/-- C17 as stated fails for a remote value out of the int range: Atoi returns
the nearest bound together with its range error, the error is dropped, and
fixInvoiceDiff writes the amount 9223372036854775807, not 0. -/
theorem fixInvoiceDiff_out_of_range_not_zero :
    (Atoi "9223372036854775808").2 = some .outOfRange ∧
    (fixInvoiceDiff acceptingEnv {}
      { RecordType := "invoice", RecordID := "inv_1", FieldName := "amount",
        LocalValue := "500", StripeValue := "9223372036854775808" }).2.requests =
      [.patchInvoiceAmount "inv_1" 9223372036854775807 1000] := by
  exact ⟨rfl, rfl⟩

/-- C17 as amended: for a diff with field name amount whose remote value Atoi
does not accept, fixInvoiceDiff does not fail on the parse, its error is only the
transport error of the write, and it writes the value Atoi returns: 0 for a
value that is empty or not a decimal numeral, and the nearest bound of the int
range, 9223372036854775807 or -9223372036854775808, for a numeral out of
range. -/
theorem fixInvoiceDiff_unparsable_amount (env : Env) (w : World) (diff : ReconciliationDiff)
    (hfield : diff.FieldName = "amount") (hparse : (Atoi diff.StripeValue).2 ≠ none) :
    (fixInvoiceDiff env w diff).1 = doError (env.httpDo w.requests.length) ∧
    (fixInvoiceDiff env w diff).2.requests = w.requests ++
      [.patchInvoiceAmount diff.RecordID (Atoi diff.StripeValue).1 (env.timeNow w.ticks)] ∧
    ((Atoi diff.StripeValue).2 = some .invalid → (Atoi diff.StripeValue).1 = 0) ∧
    ((Atoi diff.StripeValue).2 = some .outOfRange →
      (Atoi diff.StripeValue).1 = 2 ^ 63 - 1 ∨ (Atoi diff.StripeValue).1 = -2 ^ 63) ∧
    ((Atoi diff.StripeValue).2 = some .invalid ∨
      (Atoi diff.StripeValue).2 = some .outOfRange) := by
  refine ⟨?_, ?_, Atoi_of_invalid _, Atoi_of_outOfRange _, ?_⟩
  · simp [fixInvoiceDiff, updateLocalInvoiceAmount, hfield, timeNow]
  · simp [fixInvoiceDiff, updateLocalInvoiceAmount, hfield, timeNow]
  · cases h : (Atoi diff.StripeValue).2 with
    | none => exact absurd h hparse
    | some e => cases e <;> simp

/-- Witness of C17 as amended: the remote value abc is no numeral and the
amount 0 is written to invoice inv_1. -/
theorem fixInvoiceDiff_unparsable_amount_witness :
    (Atoi "abc").2 = some .invalid ∧
    (fixInvoiceDiff acceptingEnv {}
      { RecordType := "invoice", RecordID := "inv_1", FieldName := "amount",
        LocalValue := "500", StripeValue := "abc" }).2.requests =
      [.patchInvoiceAmount "inv_1" 0 1000] := by
  have h := fixInvoiceDiff_unparsable_amount acceptingEnv {}
    { RecordType := "invoice", RecordID := "inv_1", FieldName := "amount",
      LocalValue := "500", StripeValue := "abc" } rfl (by decide)
  exact ⟨rfl, h.2.1⟩

theorem logAuditEvent_requests (env : Env) (w : World)
    (reportID action recordType recordID userID details : String) :
    (logAuditEvent env w reportID action recordType recordID userID details).requests =
      w.requests ++ [.postAuditLog
        { ID := env.uuidNew w.uuids, ReportID := reportID, Action := action,
          RecordType := recordType, RecordID := recordID, UserID := userID,
          Details := details, PerformedBy := "system",
          CreatedAt := env.timeNow w.ticks }] := by
  simp [logAuditEvent, uuidNewString, timeNow]

theorem logAuditEvent_reports (env : Env) (w : World)
    (reportID action recordType recordID userID details : String) :
    (logAuditEvent env w reportID action recordType recordID userID
      details).reconciliation_reports = w.reconciliation_reports := by
  unfold logAuditEvent
  rcases httpclientDo_cases env (timeNow env (uuidNewString env w).2).2
    (.postAuditLog { ID := (uuidNewString env w).1, ReportID := reportID, Action := action,
                     RecordType := recordType, RecordID := recordID, UserID := userID,
                     Details := details, PerformedBy := "system",
                     CreatedAt := (timeNow env (uuidNewString env w).2).1 }) with h | h <;>
    rw [h] <;> rfl

theorem updateReportStats_requests (env : Env) (w : World) (reportID : String)
    (totalDiffs matchedRecords subscriptionDiffs invoiceDiffs customerDiffs : Int) :
    (updateReportStats env w reportID totalDiffs matchedRecords subscriptionDiffs invoiceDiffs
      customerDiffs).2.requests =
      w.requests ++ [.patchReportStats reportID (totalDiffs + matchedRecords) matchedRecords
        totalDiffs (subscriptionDiffs + invoiceDiffs + customerDiffs)
        (env.timeNow w.ticks)] := by
  simp [updateReportStats, timeNow]

theorem RunReconciliation_of_created (env : Env) (config : ReconciliationConfig) (w : World)
    (startDate endDate : Nat) (report : ReconciliationReport)
    (hcreated : (createReconciliationReport env w startDate endDate).1 = .ok report) :
    RunReconciliation env config w startDate endDate =
      ((some report, none),
        runFinished env config (createReconciliationReport env w startDate endDate).2 report
          startDate endDate) := by
  unfold RunReconciliation
  rw [hcreated]

/-- The end of a run: after the auto-fix pass the statistics are sent, then the
reconciliation_completed audit entry. -/
theorem runFinished_requests (env : Env) (config : ReconciliationConfig) (w : World)
    (report : ReconciliationReport) (startDate endDate : Nat) :
    (runFinished env config w report startDate endDate).requests =
      (runFixed env config w report startDate endDate).requests ++
        [.patchReportStats report.ID
            (runTotalDiffs env w report startDate endDate +
              runMatchedRecords env w report startDate endDate)
            (runMatchedRecords env w report startDate endDate)
            (runTotalDiffs env w report startDate endDate)
            (((diffsOrNil (runSubscriptions env w report startDate endDate).1).length : Int) +
              ((diffsOrNil (runInvoices env w report startDate endDate).1).length : Int) +
              ((diffsOrNil (runCustomers env w report startDate endDate).1).length : Int))
            (env.timeNow (runFixed env config w report startDate endDate).ticks),
         .postAuditLog
            { ID := env.uuidNew (runCompleted env config w report startDate endDate).uuids,
              ReportID := report.ID, Action := "reconciliation_completed",
              RecordType := "", RecordID := "", UserID := "",
              Details := "对账完成，发现 " ++
                Itoa (runTotalDiffs env w report startDate endDate) ++ " 个差异",
              PerformedBy := "system",
              CreatedAt := env.timeNow
                (runCompleted env config w report startDate endDate).ticks }] := by
  have hnotify : (if config.NotificationEnabled ∧
        0 < runTotalDiffs env w report startDate endDate then
      sendReconciliationNotification (runCompleted env config w report startDate endDate)
        report.ID (runTotalDiffs env w report startDate endDate)
     else runCompleted env config w report startDate endDate) =
      runCompleted env config w report startDate endDate := by
    split_ifs <;> rfl
  unfold runFinished
  rw [hnotify, logAuditEvent_requests]
  unfold runCompleted
  rw [updateReportStats_requests]
  simp

/-- C18: in every run whose report was created, the statistics updateReportStats
sends when it marks the report completed satisfy total_records =
matched_records + mismatched_records, whatever the number of diffs; a gateway
that accepts the request holds them in the rows of the report. -/
theorem report_counters_sum (env : Env) (config : ReconciliationConfig) (w : World)
    (startDate endDate : Nat) (report : ReconciliationReport)
    (hcreated : (createReconciliationReport env w startDate endDate).1 = .ok report) :
    ∃ total matched mismatched missing updatedAt completedLog,
      (RunReconciliation env config w startDate endDate).2.requests =
        (runFixed env config (createReconciliationReport env w startDate endDate).2 report
          startDate endDate).requests ++
          [.patchReportStats report.ID total matched mismatched missing updatedAt,
           .postAuditLog completedLog] ∧
      total = matched + mismatched ∧
      (∀ statusCode,
        env.httpDo (runFixed env config (createReconciliationReport env w startDate endDate).2
          report startDate endDate).requests.length = .response statusCode →
        accepted statusCode = true →
        ∀ row ∈ (RunReconciliation env config w startDate endDate).2.reconciliation_reports,
          row.ID = report.ID →
            row.Status = "completed" ∧
            row.TotalRecords = row.MatchedRecords + row.MismatchedRecords) := by
  rw [RunReconciliation_of_created env config w startDate endDate report hcreated]
  generalize (createReconciliationReport env w startDate endDate).2 = w1
  refine ⟨_, _, _, _, _, _, runFinished_requests env config w1 report startDate endDate,
    Int.add_comm _ _, ?_⟩
  intro statusCode hcode hacc row hrow hid
  have hnotify : (if config.NotificationEnabled ∧
        0 < runTotalDiffs env w1 report startDate endDate then
      sendReconciliationNotification (runCompleted env config w1 report startDate endDate)
        report.ID (runTotalDiffs env w1 report startDate endDate)
     else runCompleted env config w1 report startDate endDate) =
      runCompleted env config w1 report startDate endDate := by
    split_ifs <;> rfl
  simp only [runFinished] at hrow
  rw [hnotify, logAuditEvent_reports] at hrow
  unfold runCompleted updateReportStats at hrow
  rw [httpclientDo_of_accepted env _ _ statusCode (by simpa [timeNow] using hcode) hacc] at hrow
  simp only [applyRequest, List.mem_map] at hrow
  obtain ⟨r0, _, rfl⟩ := hrow
  by_cases hr0 : r0.ID = report.ID
  · dsimp only
    rw [if_pos hr0]
    exact ⟨rfl, Int.add_comm _ _⟩
  · simp [hr0] at hid

/-- Witness of C18: a run over Scenario A with a gateway that answers 201 finds
one diff and sends the statistics 100 = 99 + 1. -/
theorem report_counters_sum_witness :
    (createReconciliationReport envCreated worldA 0 10).1 = .ok reportCreated ∧
    ∃ total matched mismatched missing updatedAt completedLog,
      (RunReconciliation envCreated configC worldA 0 10).2.requests =
        (runFixed envCreated configC (createReconciliationReport envCreated worldA 0 10).2
          reportCreated 0 10).requests ++
          [.patchReportStats "uuid-0" total matched mismatched missing updatedAt,
           .postAuditLog completedLog] ∧
      total = matched + mismatched := by
  obtain ⟨total, matched, mismatched, missing, updatedAt, completedLog, h1, h2, _⟩ :=
    report_counters_sum envCreated configC worldA 0 10 reportCreated rfl
  exact ⟨rfl, total, matched, mismatched, missing, updatedAt, completedLog, h1, h2⟩

/-- C19: in every run whose report was created, total_diffs, sent as the
mismatched count, is the number of diffs the subscription comparison returned
plus those of the invoice comparison plus those of the customer comparison (a
comparison that returned an error counting none), and the matched count sent
is the value of calculateMatchedRecords, which is 100 for every window, minus
total_diffs. -/
theorem report_counting_rule (env : Env) (config : ReconciliationConfig) (w : World)
    (startDate endDate : Nat) (report : ReconciliationReport)
    (hcreated : (createReconciliationReport env w startDate endDate).1 = .ok report) :
    ∃ (subscriptionDiffs invoiceDiffs customerDiffs : List ReconciliationDiff)
      (total missing : Int) (updatedAt : Nat) (completedLog : ReconciliationAuditLog),
      subscriptionDiffs = diffsOrNil (reconcileSubscriptions env
        (runRunning env (createReconciliationReport env w startDate endDate).2 report
          startDate endDate) startDate endDate report.ID).1 ∧
      invoiceDiffs = diffsOrNil (reconcileInvoices env
        (runSubscriptions env (createReconciliationReport env w startDate endDate).2 report
          startDate endDate).2 startDate endDate report.ID).1 ∧
      customerDiffs = diffsOrNil (reconcileCustomers env
        (runInvoices env (createReconciliationReport env w startDate endDate).2 report
          startDate endDate).2 startDate endDate report.ID).1 ∧
      (RunReconciliation env config w startDate endDate).2.requests =
        (runFixed env config (createReconciliationReport env w startDate endDate).2 report
          startDate endDate).requests ++
          [.patchReportStats report.ID total
              (100 - ((subscriptionDiffs.length : Int) + (invoiceDiffs.length : Int) +
                (customerDiffs.length : Int)))
              ((subscriptionDiffs.length : Int) + (invoiceDiffs.length : Int) +
                (customerDiffs.length : Int))
              missing updatedAt,
           .postAuditLog completedLog] ∧
      (∀ a b, calculateMatchedRecords a b = 100) := by
  rw [RunReconciliation_of_created env config w startDate endDate report hcreated]
  generalize (createReconciliationReport env w startDate endDate).2 = w1
  exact ⟨_, _, _, _, _, _, _, rfl, rfl, rfl,
    runFinished_requests env config w1 report startDate endDate, fun _ _ => rfl⟩

/-- Witness of C19: the run over Scenario A finds one subscription diff and no
other, and sends mismatched 1 and matched 99. -/
theorem report_counting_rule_witness :
    ∃ (total missing : Int) (updatedAt : Nat) (completedLog : ReconciliationAuditLog),
      (RunReconciliation envCreated configC worldA 0 10).2.requests =
        (runFixed envCreated configC (createReconciliationReport envCreated worldA 0 10).2
          reportCreated 0 10).requests ++
          [.patchReportStats "uuid-0" total 99 1 missing updatedAt,
           .postAuditLog completedLog] := by
  obtain ⟨s, i, c, total, missing, updatedAt, completedLog, hs, hi, hc, hreq, _⟩ :=
    report_counting_rule envCreated configC worldA 0 10 reportCreated rfl
  have hs1 : (s.length : Int) = 1 := by rw [hs]; rfl
  have hi0 : (i.length : Int) = 0 := by rw [hi]; rfl
  have hc0 : (c.length : Int) = 0 := by rw [hc]; rfl
  rw [hs1, hi0, hc0] at hreq
  exact ⟨total, missing, updatedAt, completedLog, hreq⟩

/- A failed fetch of the local records -/

theorem reconcileSubscriptions_of_transportError (env : Env) (w : World)
    (startDate endDate : Nat) (reportID : String)
    (h : env.httpDo w.requests.length = .transportError) :
    reconcileSubscriptions env w startDate endDate reportID =
      (.error (.wrapped "获取本地订阅数据失败" .transport),
        { w with requests := w.requests ++ [.getStripeSubscriptions startDate endDate] }) := by
  simp [reconcileSubscriptions, getLocalSubscriptions, httpclientDo, h]

theorem reconcileInvoices_of_transportError (env : Env) (w : World)
    (startDate endDate : Nat) (reportID : String)
    (h : env.httpDo w.requests.length = .transportError) :
    reconcileInvoices env w startDate endDate reportID =
      (.error (.wrapped "获取本地发票数据失败" .transport),
        { w with requests := w.requests ++ [.getStripeInvoices startDate endDate] }) := by
  simp [reconcileInvoices, getLocalInvoices, httpclientDo, h]

theorem reconcileCustomers_of_transportError (env : Env) (w : World)
    (startDate endDate : Nat) (reportID : String)
    (h : env.httpDo w.requests.length = .transportError) :
    reconcileCustomers env w startDate endDate reportID =
      (.error (.wrapped "获取本地客户数据失败" .transport),
        { w with requests := w.requests ++ [.getStripeCustomers startDate endDate] }) := by
  simp [reconcileCustomers, getLocalCustomers, httpclientDo, h]

/-- A fetch that ends in a transport error: in a run whose report was created,
when the request for the local records of one entity type ends in a transport error, the comparison of that
entity type returns an error, contributes no diff and writes no table; the
comparisons of the other entity types still run, each from the state the
previous one left; total_diffs is the sum of the diffs of the other two; and
the run completes, returning the report and no error and sending the
statistics with that total. -/
theorem fetch_failure_confined (env : Env) (config : ReconciliationConfig) (w w1 : World)
    (startDate endDate : Nat) (report : ReconciliationReport)
    (hcreated : createReconciliationReport env w startDate endDate = (.ok report, w1)) :
    (env.httpDo (runRunning env w1 report startDate endDate).requests.length
        = .transportError →
      (∃ err, (runSubscriptions env w1 report startDate endDate).1 = .error err) ∧
      diffsOrNil (runSubscriptions env w1 report startDate endDate).1 = [] ∧
      SameStore (runRunning env w1 report startDate endDate)
        (runSubscriptions env w1 report startDate endDate).2 ∧
      runTotalDiffs env w1 report startDate endDate =
        ((diffsOrNil (runInvoices env w1 report startDate endDate).1).length : Int) +
          ((diffsOrNil (runCustomers env w1 report startDate endDate).1).length : Int)) ∧
    (env.httpDo (runSubscriptions env w1 report startDate endDate).2.requests.length
        = .transportError →
      (∃ err, (runInvoices env w1 report startDate endDate).1 = .error err) ∧
      diffsOrNil (runInvoices env w1 report startDate endDate).1 = [] ∧
      SameStore (runSubscriptions env w1 report startDate endDate).2
        (runInvoices env w1 report startDate endDate).2 ∧
      runTotalDiffs env w1 report startDate endDate =
        ((diffsOrNil (runSubscriptions env w1 report startDate endDate).1).length : Int) +
          ((diffsOrNil (runCustomers env w1 report startDate endDate).1).length : Int)) ∧
    (env.httpDo (runInvoices env w1 report startDate endDate).2.requests.length
        = .transportError →
      (∃ err, (runCustomers env w1 report startDate endDate).1 = .error err) ∧
      diffsOrNil (runCustomers env w1 report startDate endDate).1 = [] ∧
      SameStore (runInvoices env w1 report startDate endDate).2
        (runCustomers env w1 report startDate endDate).2 ∧
      runTotalDiffs env w1 report startDate endDate =
        ((diffsOrNil (runSubscriptions env w1 report startDate endDate).1).length : Int) +
          ((diffsOrNil (runInvoices env w1 report startDate endDate).1).length : Int)) ∧
    runInvoices env w1 report startDate endDate =
      reconcileInvoices env (runSubscriptions env w1 report startDate endDate).2
        startDate endDate report.ID ∧
    runCustomers env w1 report startDate endDate =
      reconcileCustomers env (runInvoices env w1 report startDate endDate).2
        startDate endDate report.ID ∧
    (RunReconciliation env config w startDate endDate).1 = (some report, none) ∧
    ∃ total matched missing updatedAt completedLog,
      (RunReconciliation env config w startDate endDate).2.requests =
        (runFixed env config w1 report startDate endDate).requests ++
          [.patchReportStats report.ID total matched
              (runTotalDiffs env w1 report startDate endDate) missing updatedAt,
           .postAuditLog completedLog] := by
  have hrep : (createReconciliationReport env w startDate endDate).1 = .ok report := by
    rw [hcreated]
  have hw1 : (createReconciliationReport env w startDate endDate).2 = w1 := by
    rw [hcreated]
  refine ⟨?_, ?_, ?_, rfl, rfl, ?_, ?_⟩
  · intro h
    have hres := reconcileSubscriptions_of_transportError env
      (runRunning env w1 report startDate endDate) startDate endDate report.ID h
    have hdiffs : diffsOrNil (runSubscriptions env w1 report startDate endDate).1 = [] := by
      unfold runSubscriptions; rw [hres]; rfl
    refine ⟨⟨_, by unfold runSubscriptions; rw [hres]⟩, hdiffs, ?_, ?_⟩
    · unfold runSubscriptions; rw [hres]; exact ⟨rfl, rfl, rfl, rfl, rfl, rfl⟩
    · unfold runTotalDiffs; rw [hdiffs]; simp
  · intro h
    have hres := reconcileInvoices_of_transportError env
      (runSubscriptions env w1 report startDate endDate).2 startDate endDate report.ID h
    have hdiffs : diffsOrNil (runInvoices env w1 report startDate endDate).1 = [] := by
      unfold runInvoices; rw [hres]; rfl
    refine ⟨⟨_, by unfold runInvoices; rw [hres]⟩, hdiffs, ?_, ?_⟩
    · unfold runInvoices; rw [hres]; exact ⟨rfl, rfl, rfl, rfl, rfl, rfl⟩
    · unfold runTotalDiffs; rw [hdiffs]; simp
  · intro h
    have hres := reconcileCustomers_of_transportError env
      (runInvoices env w1 report startDate endDate).2 startDate endDate report.ID h
    have hdiffs : diffsOrNil (runCustomers env w1 report startDate endDate).1 = [] := by
      unfold runCustomers; rw [hres]; rfl
    refine ⟨⟨_, by unfold runCustomers; rw [hres]⟩, hdiffs, ?_, ?_⟩
    · unfold runCustomers; rw [hres]; exact ⟨rfl, rfl, rfl, rfl, rfl, rfl⟩
    · unfold runTotalDiffs; rw [hdiffs]; simp
  · rw [RunReconciliation_of_created env config w startDate endDate report hrep]
  · rw [RunReconciliation_of_created env config w startDate endDate report hrep, hw1]
    exact ⟨_, _, _, _, _, runFinished_requests env config w1 report startDate endDate⟩

/-- Scenario with a lost fetch: the fetch of the local subscriptions ends in a transport
error; the subscription comparison returns an error, the invoice comparison
still finds the missing invoice inv_1, total_diffs is 1 and the run returns
the report and no error. -/
theorem fetch_failure_confined_witness :
    (∃ err, (runSubscriptions envFetchFailure
      (createReconciliationReport envFetchFailure worldAB 0 10).2 reportCreated 0 10).1
        = .error err) ∧
    runTotalDiffs envFetchFailure (createReconciliationReport envFetchFailure worldAB 0 10).2
      reportCreated 0 10 = 1 ∧
    (RunReconciliation envFetchFailure configC worldAB 0 10).1 = (some reportCreated, none) := by
  have h := fetch_failure_confined envFetchFailure configC worldAB
    (createReconciliationReport envFetchFailure worldAB 0 10).2 0 10 reportCreated rfl
  obtain ⟨herr, _, _, htotal⟩ := h.1 rfl
  refine ⟨herr, ?_, h.2.2.2.2.2.1⟩
  rw [htotal]
  rfl

/- The order of the effects of a run -/

theorem issued_refl (P : Request → Prop) (w : World) : Issued P w w :=
  ⟨[], by simp, fun _ h => by simp at h⟩

theorem issued_of_requests_eq (P : Request → Prop) (w w' : World)
    (h : w'.requests = w.requests) : Issued P w w' :=
  ⟨[], by simp [h], fun _ h => by simp at h⟩

theorem issued_trans (P : Request → Prop) (a b c : World) (hab : Issued P a b)
    (hbc : Issued P b c) : Issued P a c := by
  obtain ⟨r1, h1, p1⟩ := hab
  obtain ⟨r2, h2, p2⟩ := hbc
  refine ⟨r1 ++ r2, by rw [h2, h1, List.append_assoc], ?_⟩
  intro r hr
  rcases List.mem_append.mp hr with hr | hr
  · exact p1 r hr
  · exact p2 r hr

theorem issued_httpclientDo (P : Request → Prop) (env : Env) (w : World) (req : Request)
    (h : P req) : Issued P w (httpclientDo env w req).2 :=
  ⟨[req], httpclientDo_requests env w req, fun r hr => by
    rw [List.mem_singleton] at hr; rw [hr]; exact h⟩

theorem forEachRecord_world_rel {α : Type}
    (body : World → α → Option ReconciliationDiff × World)
    (Q : World → World → Prop)
    (hrefl : ∀ w, Q w w) (htrans : ∀ a b c, Q a b → Q b c → Q a c)
    (hbody : ∀ w r, Q w (body w r).2)
    (l : List α) (w : World) (acc : List ReconciliationDiff) :
    Q w (forEachRecord body l w acc).2 := by
  induction l generalizing w acc with
  | nil => exact hrefl _
  | cons r rest ih =>
      simp only [forEachRecord]
      exact htrans _ _ _ (hbody w r) (ih _ _)

theorem autoFixDiffs_world_rel (env : Env) (config : ReconciliationConfig)
    (Q : World → World → Prop)
    (hrefl : ∀ w, Q w w) (htrans : ∀ a b c, Q a b → Q b c → Q a c)
    (hbody : ∀ w d, Q w (autoFixDiff env config w d).2)
    (w : World) (diffs : List ReconciliationDiff) :
    Q w (autoFixDiffs env config w diffs).2 := by
  induction diffs generalizing w with
  | nil => exact hrefl _
  | cons d rest ih =>
      simp only [autoFixDiffs]
      exact htrans _ _ _ (hbody w d) (ih _)

/-- Saving a diff the comparator built sends one request, the POST of a diff of
the record type given. -/
theorem issued_save_new_diff (env : Env) (w : World)
    (reportID recordType recordID userID diffType fieldName localValue stripeValue
      severity : String) :
    Issued (IsComparisonRequest recordType) w
      (saveReconciliationDiff env
        (newReconciliationDiff env w reportID recordType recordID userID diffType fieldName
          localValue stripeValue severity).2
        (newReconciliationDiff env w reportID recordType recordID userID diffType fieldName
          localValue stripeValue severity).1).2 := by
  refine ⟨[.postDiff (env.uuidNew w.uuids) reportID recordType recordID userID diffType
    fieldName localValue stripeValue severity "pending" (env.timeNow w.ticks)
    (env.timeNow (w.ticks + 1))], ?_, ?_⟩
  · simp [saveReconciliationDiff, newReconciliationDiff, uuidNewString, timeNow]
  · intro r hr
    rw [List.mem_singleton] at hr
    rw [hr]
    rfl

theorem issued_reconcileSubscription (env : Env) (reportID : String) (w : World)
    (localSub : StripeSubscription) :
    Issued (IsComparisonRequest "subscription") w
      (reconcileSubscription env reportID w localSub).2 := by
  unfold reconcileSubscription
  split
  · exact issued_save_new_diff env w _ _ _ _ _ _ _ _ _
  · split_ifs
    · exact issued_save_new_diff env w _ _ _ _ _ _ _ _ _
    · exact issued_refl _ _

theorem issued_reconcileInvoice (env : Env) (reportID : String) (w : World)
    (localInvoice : StripeInvoice) :
    Issued (IsComparisonRequest "invoice") w
      (reconcileInvoice env reportID w localInvoice).2 := by
  unfold reconcileInvoice
  split
  · exact issued_save_new_diff env w _ _ _ _ _ _ _ _ _
  · split_ifs
    · exact issued_save_new_diff env w _ _ _ _ _ _ _ _ _
    · exact issued_refl _ _

theorem issued_reconcileCustomer (env : Env) (reportID : String) (w : World)
    (localCustomer : StripeCustomer) :
    Issued (IsComparisonRequest "customer") w
      (reconcileCustomer env reportID w localCustomer).2 := by
  unfold reconcileCustomer
  split
  · exact issued_save_new_diff env w _ _ _ _ _ _ _ _ _
  · split_ifs
    · exact issued_save_new_diff env w _ _ _ _ _ _ _ _ _
    · exact issued_refl _ _

theorem getLocalSubscriptions_world (env : Env) (w : World) (startDate endDate : Nat) :
    (getLocalSubscriptions env w startDate endDate).2 =
      (httpclientDo env w (.getStripeSubscriptions startDate endDate)).2 := by
  unfold getLocalSubscriptions
  dsimp only
  split <;> rfl

theorem getLocalInvoices_world (env : Env) (w : World) (startDate endDate : Nat) :
    (getLocalInvoices env w startDate endDate).2 =
      (httpclientDo env w (.getStripeInvoices startDate endDate)).2 := by
  unfold getLocalInvoices
  dsimp only
  split <;> rfl

theorem getLocalCustomers_world (env : Env) (w : World) (startDate endDate : Nat) :
    (getLocalCustomers env w startDate endDate).2 =
      (httpclientDo env w (.getStripeCustomers startDate endDate)).2 := by
  unfold getLocalCustomers
  dsimp only
  split <;> rfl

theorem issued_reconcileSubscriptions (env : Env) (w : World) (startDate endDate : Nat)
    (reportID : String) :
    Issued (IsComparisonRequest "subscription") w
      (reconcileSubscriptions env w startDate endDate reportID).2 := by
  have hget : Issued (IsComparisonRequest "subscription") w
      (getLocalSubscriptions env w startDate endDate).2 := by
    rw [getLocalSubscriptions_world]
    exact issued_httpclientDo _ env w _ rfl
  rcases reconcileSubscriptions_world env w startDate endDate reportID with h | ⟨records, h⟩
  · rw [h]; exact hget
  · rw [h]
    exact issued_trans _ _ _ _ hget
      (forEachRecord_world_rel _ _ (issued_refl _) (issued_trans _)
        (fun w r => issued_reconcileSubscription env reportID w r) records _ [])

theorem issued_reconcileInvoices (env : Env) (w : World) (startDate endDate : Nat)
    (reportID : String) :
    Issued (IsComparisonRequest "invoice") w
      (reconcileInvoices env w startDate endDate reportID).2 := by
  have hget : Issued (IsComparisonRequest "invoice") w
      (getLocalInvoices env w startDate endDate).2 := by
    rw [getLocalInvoices_world]
    exact issued_httpclientDo _ env w _ rfl
  rcases reconcileInvoices_world env w startDate endDate reportID with h | ⟨records, h⟩
  · rw [h]; exact hget
  · rw [h]
    exact issued_trans _ _ _ _ hget
      (forEachRecord_world_rel _ _ (issued_refl _) (issued_trans _)
        (fun w r => issued_reconcileInvoice env reportID w r) records _ [])

theorem issued_reconcileCustomers (env : Env) (w : World) (startDate endDate : Nat)
    (reportID : String) :
    Issued (IsComparisonRequest "customer") w
      (reconcileCustomers env w startDate endDate reportID).2 := by
  have hget : Issued (IsComparisonRequest "customer") w
      (getLocalCustomers env w startDate endDate).2 := by
    rw [getLocalCustomers_world]
    exact issued_httpclientDo _ env w _ rfl
  rcases reconcileCustomers_world env w startDate endDate reportID with h | ⟨records, h⟩
  · rw [h]; exact hget
  · rw [h]
    exact issued_trans _ _ _ _ hget
      (forEachRecord_world_rel _ _ (issued_refl _) (issued_trans _)
        (fun w r => issued_reconcileCustomer env reportID w r) records _ [])

theorem issued_fixDiff (env : Env) (w : World) (diff : ReconciliationDiff) :
    Issued IsAutoFixRequest w (fixDiff env w diff).2 := by
  unfold fixDiff fixSubscriptionDiff fixInvoiceDiff fixCustomerDiff
    updateLocalSubscriptionStatus updateLocalInvoiceAmount updateLocalInvoiceStatus
    updateLocalCustomerEmail
  split_ifs
  all_goals first
    | exact issued_refl _ _
    | exact issued_trans _ _ _ _ (issued_of_requests_eq _ w (timeNow env w).2 rfl)
        (issued_httpclientDo _ env _ _ trivial)

theorem issued_autoFixDiff (env : Env) (config : ReconciliationConfig) (w : World)
    (diff : ReconciliationDiff) :
    Issued IsAutoFixRequest w (autoFixDiff env config w diff).2 := by
  by_cases helig : shouldAutoFix config diff = true
  · cases hfix : (fixDiff env w diff).1 with
    | some e =>
        have hpair : fixDiff env w diff = (some e, (fixDiff env w diff).2) := Prod.ext hfix rfl
        have hw : (autoFixDiff env config w diff).2 = (fixDiff env w diff).2 := by
          unfold autoFixDiff
          rw [if_pos helig, hpair]
        rw [hw]
        exact issued_fixDiff env w diff
    | none =>
        rw [autoFixDiff_of_fixed env config w diff helig hfix]
        refine issued_trans _ _ _ _ (issued_fixDiff env w diff) ?_
        refine ⟨[.patchDiff diff.ID "auto_fixed" true
            (some (env.timeNow (fixDiff env w diff).2.ticks)) "system"
            (env.timeNow ((fixDiff env w diff).2.ticks + 1)),
          .postAuditLog
            { ID := env.uuidNew (fixDiff env w diff).2.uuids, ReportID := diff.ReportID,
              Action := "auto_fix", RecordType := diff.RecordType, RecordID := diff.RecordID,
              UserID := diff.UserID,
              Details := "自动修复字段 " ++ diff.FieldName ++ ": " ++ diff.LocalValue ++ " -> "
                ++ diff.StripeValue,
              PerformedBy := "system",
              CreatedAt := env.timeNow ((fixDiff env w diff).2.ticks + 1 + 1) }], ?_, ?_⟩
        · simp [logAuditEvent, updateReconciliationDiff, uuidNewString, timeNow]
        · intro r hr
          simp only [List.mem_cons, List.mem_singleton, List.not_mem_nil, or_false] at hr
          rcases hr with hr | hr
          · rw [hr]; exact ⟨rfl, rfl, rfl⟩
          · rw [hr]; rfl
  · have hw : (autoFixDiff env config w diff).2 = w := by
      unfold autoFixDiff
      rw [if_neg helig]
    rw [hw]
    exact issued_refl _ _

theorem issued_autoFixDiffs (env : Env) (config : ReconciliationConfig) (w : World)
    (diffs : List ReconciliationDiff) :
    Issued IsAutoFixRequest w (autoFixDiffs env config w diffs).2 :=
  autoFixDiffs_world_rel env config _ (issued_refl _) (issued_trans _)
    (fun w d => issued_autoFixDiff env config w d) w diffs

/-- A created report is the literal built before the request, with status
pending and the counters at zero, and the creation sent that literal. -/
theorem createReconciliationReport_of_ok (env : Env) (w w1 : World) (startDate endDate : Nat)
    (report : ReconciliationReport)
    (hcreated : createReconciliationReport env w startDate endDate = (.ok report, w1)) :
    report = { ID := env.uuidNew w.uuids, ReportDate := env.timeNow w.ticks,
               StartDate := startDate, EndDate := endDate, Status := "pending",
               CreatedAt := env.timeNow (w.ticks + 1),
               UpdatedAt := env.timeNow (w.ticks + 1 + 1) } ∧
    w1.requests = w.requests ++
      [.postReport report.ID report.ReportDate startDate endDate "pending" report.CreatedAt
        report.UpdatedAt] := by
  have hrep : (createReconciliationReport env w startDate endDate).1 = .ok report := by
    rw [hcreated]
  have hw1 : (createReconciliationReport env w startDate endDate).2 = w1 := by
    rw [hcreated]
  have hreqs := createReconciliationReport_requests env w startDate endDate
  rw [hw1] at hreqs
  have heq : report =
      { ID := env.uuidNew w.uuids, ReportDate := env.timeNow w.ticks,
        StartDate := startDate, EndDate := endDate, Status := "pending",
        CreatedAt := env.timeNow (w.ticks + 1),
        UpdatedAt := env.timeNow (w.ticks + 1 + 1) } := by
    cases hout : env.httpDo w.requests.length with
    | transportError =>
        rw [createReconciliationReport_of_transportError env w startDate endDate hout] at hrep
        simp at hrep
    | response statusCode =>
        by_cases hcode : statusCode = 201
        · subst hcode
          rw [createReconciliationReport_of_created env w startDate endDate hout] at hrep
          simp only [Except.ok.injEq] at hrep
          exact hrep.symm
        · rw [createReconciliationReport_of_status env w startDate endDate statusCode hout
            hcode] at hrep
          simp at hrep
  refine ⟨heq, ?_⟩
  rw [hreqs, heq]

theorem updateReportStatus_requests (env : Env) (w : World) (reportID status : String) :
    (updateReportStatus env w reportID status).2.requests =
      w.requests ++ [.patchReportStatus reportID status (env.timeNow w.ticks)] := by
  simp [updateReportStatus, timeNow]

theorem reportStatusWritten_of_comparison (entity : String) (r : Request)
    (h : IsComparisonRequest entity r) : reportStatusWritten r = none := by
  cases r <;> first | rfl | exact False.elim h

theorem reportStatusWritten_of_autoFix (r : Request) (h : IsAutoFixRequest r) :
    reportStatusWritten r = none := by
  cases r <;> first | rfl | exact False.elim h

theorem filterMap_reportStatusWritten_nil (l : List Request)
    (h : ∀ r ∈ l, reportStatusWritten r = none) :
    l.filterMap reportStatusWritten = [] := by
  induction l with
  | nil => rfl
  | cons r rest ih =>
      rw [List.filterMap_cons, h r (List.mem_cons_self _ _)]
      exact ih (fun x hx => h x (List.mem_cons_of_mem _ hx))

theorem reconcileSubscriptions_requests (env : Env) (w : World) (startDate endDate : Nat)
    (reportID : String) :
    ∃ saves, (reconcileSubscriptions env w startDate endDate reportID).2.requests =
        w.requests ++ .getStripeSubscriptions startDate endDate :: saves ∧
      ∀ r ∈ saves, IsComparisonRequest "subscription" r := by
  have hget : (getLocalSubscriptions env w startDate endDate).2.requests =
      w.requests ++ [.getStripeSubscriptions startDate endDate] := by
    rw [getLocalSubscriptions_world]; exact httpclientDo_requests env w _
  rcases reconcileSubscriptions_world env w startDate endDate reportID with h | ⟨records, h⟩
  · exact ⟨[], by rw [h, hget], fun _ hr => by simp at hr⟩
  · obtain ⟨reqs, h1, h2⟩ := forEachRecord_world_rel (reconcileSubscription env reportID)
      (Issued (IsComparisonRequest "subscription")) (issued_refl _) (issued_trans _)
      (fun w r => issued_reconcileSubscription env reportID w r) records
      (getLocalSubscriptions env w startDate endDate).2 []
    refine ⟨reqs, ?_, h2⟩
    rw [h]
    show (forEachRecord _ records _ []).2.requests = _
    rw [h1, hget]
    simp

theorem reconcileInvoices_requests (env : Env) (w : World) (startDate endDate : Nat)
    (reportID : String) :
    ∃ saves, (reconcileInvoices env w startDate endDate reportID).2.requests =
        w.requests ++ .getStripeInvoices startDate endDate :: saves ∧
      ∀ r ∈ saves, IsComparisonRequest "invoice" r := by
  have hget : (getLocalInvoices env w startDate endDate).2.requests =
      w.requests ++ [.getStripeInvoices startDate endDate] := by
    rw [getLocalInvoices_world]; exact httpclientDo_requests env w _
  rcases reconcileInvoices_world env w startDate endDate reportID with h | ⟨records, h⟩
  · exact ⟨[], by rw [h, hget], fun _ hr => by simp at hr⟩
  · obtain ⟨reqs, h1, h2⟩ := forEachRecord_world_rel (reconcileInvoice env reportID)
      (Issued (IsComparisonRequest "invoice")) (issued_refl _) (issued_trans _)
      (fun w r => issued_reconcileInvoice env reportID w r) records
      (getLocalInvoices env w startDate endDate).2 []
    refine ⟨reqs, ?_, h2⟩
    rw [h]
    show (forEachRecord _ records _ []).2.requests = _
    rw [h1, hget]
    simp

theorem reconcileCustomers_requests (env : Env) (w : World) (startDate endDate : Nat)
    (reportID : String) :
    ∃ saves, (reconcileCustomers env w startDate endDate reportID).2.requests =
        w.requests ++ .getStripeCustomers startDate endDate :: saves ∧
      ∀ r ∈ saves, IsComparisonRequest "customer" r := by
  have hget : (getLocalCustomers env w startDate endDate).2.requests =
      w.requests ++ [.getStripeCustomers startDate endDate] := by
    rw [getLocalCustomers_world]; exact httpclientDo_requests env w _
  rcases reconcileCustomers_world env w startDate endDate reportID with h | ⟨records, h⟩
  · exact ⟨[], by rw [h, hget], fun _ hr => by simp at hr⟩
  · obtain ⟨reqs, h1, h2⟩ := forEachRecord_world_rel (reconcileCustomer env reportID)
      (Issued (IsComparisonRequest "customer")) (issued_refl _) (issued_trans _)
      (fun w r => issued_reconcileCustomer env reportID w r) records
      (getLocalCustomers env w startDate endDate).2 []
    refine ⟨reqs, ?_, h2⟩
    rw [h]
    show (forEachRecord _ records _ []).2.requests = _
    rw [h1, hget]
    simp

/-- C20: in every run whose report was created, the effects on the store occur
in this order: the creation of the report with status pending; the
reconciliation_started audit entry; the report set to running; the subscription
comparison, then the invoice comparison, then the customer comparison, each
run from the state the previous step left and each sending first the fetch of
its local records and then the saves of its diffs; the auto-fix pass over the
diffs of the three comparisons in that order when auto-fix is enabled, and
nothing when it is disabled; the statistics that set the report to completed,
with the counters of the diffs found; and last the reconciliation_completed
audit entry, which states the number of diffs. The state a run leaves is the
state these steps leave, its requests are the requests of these steps in this
order, and the statuses written to the report are therefore pending, running,
completed, in this order. -/
theorem run_lifecycle_order (env : Env) (config : ReconciliationConfig) (w w1 : World)
    (startDate endDate : Nat) (report : ReconciliationReport)
    (hcreated : createReconciliationReport env w startDate endDate = (.ok report, w1)) :
    ∃ (startedLog completedLog : ReconciliationAuditLog) (runningAt statsAt : Nat)
      (subSaves invSaves custSaves fixReqs trace : List Request) (wRunning wFixed : World)
      (subs invs custs : Except GoError (List ReconciliationDiff) × World) (n : Int),
      wRunning =
        (updateReportStatus env
          (logAuditEvent env w1 report.ID "reconciliation_started" "" "" ""
            ("开始对账，时间范围: " ++ env.formatDate startDate ++ " 到 " ++
              env.formatDate endDate))
          report.ID "running").2 ∧
      subs = reconcileSubscriptions env wRunning startDate endDate report.ID ∧
      invs = reconcileInvoices env subs.2 startDate endDate report.ID ∧
      custs = reconcileCustomers env invs.2 startDate endDate report.ID ∧
      wFixed =
        (if config.AutoFixEnabled then
          (autoFixDiffs env config custs.2
            (diffsOrNil subs.1 ++ diffsOrNil invs.1 ++ diffsOrNil custs.1)).2
         else custs.2) ∧
      n = ((diffsOrNil subs.1).length : Int) + ((diffsOrNil invs.1).length : Int) +
        ((diffsOrNil custs.1).length : Int) ∧
      (RunReconciliation env config w startDate endDate).2 =
        logAuditEvent env
          (updateReportStats env wFixed report.ID n (100 - n)
            ((diffsOrNil subs.1).length : Int) ((diffsOrNil invs.1).length : Int)
            ((diffsOrNil custs.1).length : Int)).2
          report.ID "reconciliation_completed" "" "" ""
          ("对账完成，发现 " ++ Itoa n ++ " 个差异") ∧
      subs.2.requests =
        wRunning.requests ++ .getStripeSubscriptions startDate endDate :: subSaves ∧
      invs.2.requests = subs.2.requests ++ .getStripeInvoices startDate endDate :: invSaves ∧
      custs.2.requests =
        invs.2.requests ++ .getStripeCustomers startDate endDate :: custSaves ∧
      wFixed.requests = custs.2.requests ++ fixReqs ∧
      trace =
        .postReport report.ID report.ReportDate startDate endDate "pending"
            report.CreatedAt report.UpdatedAt ::
          .postAuditLog startedLog ::
          .patchReportStatus report.ID "running" runningAt ::
          (.getStripeSubscriptions startDate endDate :: subSaves ++
            (.getStripeInvoices startDate endDate :: invSaves ++
              (.getStripeCustomers startDate endDate :: custSaves ++ (fixReqs ++
                [.patchReportStats report.ID (n + (100 - n)) (100 - n) n n statsAt,
                 .postAuditLog completedLog])))) ∧
      (RunReconciliation env config w startDate endDate).2.requests = w.requests ++ trace ∧
      startedLog.Action = "reconciliation_started" ∧ startedLog.ReportID = report.ID ∧
      (∀ r ∈ subSaves, IsComparisonRequest "subscription" r) ∧
      (∀ r ∈ invSaves, IsComparisonRequest "invoice" r) ∧
      (∀ r ∈ custSaves, IsComparisonRequest "customer" r) ∧
      (∀ r ∈ fixReqs, IsAutoFixRequest r) ∧
      (config.AutoFixEnabled = false → fixReqs = []) ∧
      completedLog.Action = "reconciliation_completed" ∧
      completedLog.ReportID = report.ID ∧
      completedLog.Details = "对账完成，发现 " ++ Itoa n ++ " 个差异" ∧
      List.filterMap reportStatusWritten trace = ["pending", "running", "completed"] := by
  have hrep : (createReconciliationReport env w startDate endDate).1 = .ok report := by
    rw [hcreated]
  have hw1 : (createReconciliationReport env w startDate endDate).2 = w1 := by
    rw [hcreated]
  obtain ⟨_, hpost⟩ := createReconciliationReport_of_ok env w w1 startDate endDate report hcreated
  have hstarted := logAuditEvent_requests env w1 report.ID "reconciliation_started" "" "" ""
    ("开始对账，时间范围: " ++ env.formatDate startDate ++ " 到 " ++ env.formatDate endDate)
  have hrunning := updateReportStatus_requests env (runStarted env w1 report startDate endDate)
    report.ID "running"
  obtain ⟨subSaves, hsub, psub⟩ := reconcileSubscriptions_requests env
    (runRunning env w1 report startDate endDate) startDate endDate report.ID
  obtain ⟨invSaves, hinv, pinv⟩ := reconcileInvoices_requests env
    (runSubscriptions env w1 report startDate endDate).2 startDate endDate report.ID
  obtain ⟨custSaves, hcust, pcust⟩ := reconcileCustomers_requests env
    (runInvoices env w1 report startDate endDate).2 startDate endDate report.ID
  have hfix : ∃ fixReqs, (runFixed env config w1 report startDate endDate).requests =
      (runCustomers env w1 report startDate endDate).2.requests ++ fixReqs ∧
      (∀ r ∈ fixReqs, IsAutoFixRequest r) ∧ (config.AutoFixEnabled = false → fixReqs = []) := by
    unfold runFixed
    cases hen : config.AutoFixEnabled
    · exact ⟨[], by simp, fun _ h => by simp at h, fun _ => rfl⟩
    · obtain ⟨fixReqs, h1, h2⟩ := issued_autoFixDiffs env config
        (runCustomers env w1 report startDate endDate).2
        (diffsOrNil (runSubscriptions env w1 report startDate endDate).1 ++
          diffsOrNil (runInvoices env w1 report startDate endDate).1 ++
          diffsOrNil (runCustomers env w1 report startDate endDate).1)
      exact ⟨fixReqs, by simpa using h1, h2, fun h => by simp at h⟩
  obtain ⟨fixReqs, hfixReqs, pfix, hdisabled⟩ := hfix
  have hfinal := runFinished_requests env config w1 report startDate endDate
  have hnotify : (if config.NotificationEnabled ∧
        0 < runTotalDiffs env w1 report startDate endDate then
      sendReconciliationNotification (runCompleted env config w1 report startDate endDate)
        report.ID (runTotalDiffs env w1 report startDate endDate)
     else runCompleted env config w1 report startDate endDate) =
      runCompleted env config w1 report startDate endDate := by
    split_ifs <;> rfl
  have hworld : (RunReconciliation env config w startDate endDate).2 =
      logAuditEvent env
        (updateReportStats env (runFixed env config w1 report startDate endDate) report.ID
          (runTotalDiffs env w1 report startDate endDate)
          (100 - runTotalDiffs env w1 report startDate endDate)
          ((diffsOrNil (runSubscriptions env w1 report startDate endDate).1).length : Int)
          ((diffsOrNil (runInvoices env w1 report startDate endDate).1).length : Int)
          ((diffsOrNil (runCustomers env w1 report startDate endDate).1).length : Int)).2
        report.ID "reconciliation_completed" "" "" ""
        ("对账完成，发现 " ++ Itoa (runTotalDiffs env w1 report startDate endDate) ++
          " 个差异") := by
    rw [RunReconciliation_of_created env config w startDate endDate report hrep, hw1]
    unfold runFinished
    rw [hnotify]
    rfl
  have hall : (RunReconciliation env config w startDate endDate).2.requests =
      w.requests ++
        (.postReport report.ID report.ReportDate startDate endDate "pending"
            report.CreatedAt report.UpdatedAt ::
          .postAuditLog
            { ID := env.uuidNew w1.uuids, ReportID := report.ID,
              Action := "reconciliation_started", RecordType := "", RecordID := "",
              UserID := "",
              Details := "开始对账，时间范围: " ++ env.formatDate startDate ++ " 到 " ++
                env.formatDate endDate,
              PerformedBy := "system", CreatedAt := env.timeNow w1.ticks } ::
          .patchReportStatus report.ID "running"
            (env.timeNow (runStarted env w1 report startDate endDate).ticks) ::
          (.getStripeSubscriptions startDate endDate :: subSaves ++
            (.getStripeInvoices startDate endDate :: invSaves ++
              (.getStripeCustomers startDate endDate :: custSaves ++ (fixReqs ++
            [.patchReportStats report.ID
                (runTotalDiffs env w1 report startDate endDate +
                  (100 - runTotalDiffs env w1 report startDate endDate))
                (100 - runTotalDiffs env w1 report startDate endDate)
                (runTotalDiffs env w1 report startDate endDate)
                (runTotalDiffs env w1 report startDate endDate)
                (env.timeNow (runFixed env config w1 report startDate endDate).ticks),
             .postAuditLog
                { ID := env.uuidNew (runCompleted env config w1 report startDate endDate).uuids,
                  ReportID := report.ID, Action := "reconciliation_completed",
                  RecordType := "", RecordID := "", UserID := "",
                  Details := "对账完成，发现 " ++
                    Itoa (runTotalDiffs env w1 report startDate endDate) ++ " 个差异",
                  PerformedBy := "system",
                  CreatedAt := env.timeNow
                    (runCompleted env config w1 report startDate endDate).ticks }]))))) := by
    rw [RunReconciliation_of_created env config w startDate endDate report hrep, hw1, hfinal,
      hfixReqs]
    show (reconcileCustomers env _ startDate endDate report.ID).2.requests ++ _ ++ _ = _
    rw [hcust]
    show (reconcileInvoices env _ startDate endDate report.ID).2.requests ++ _ ++ _ ++ _ = _
    rw [hinv]
    show (reconcileSubscriptions env _ startDate endDate report.ID).2.requests ++ _ ++ _ ++ _
      ++ _ = _
    rw [hsub]
    show (updateReportStatus env _ report.ID "running").2.requests ++ _ ++ _ ++ _ ++ _ ++ _ = _
    rw [hrunning]
    show (logAuditEvent env w1 report.ID "reconciliation_started" "" "" "" _).requests ++ _
      ++ _ ++ _ ++ _ ++ _ ++ _ = _
    rw [hstarted, hpost]
    simp only [List.append_assoc, List.cons_append, List.nil_append]
    rfl
  refine ⟨_, _, _, _, subSaves, invSaves, custSaves, fixReqs, _,
    runRunning env w1 report startDate endDate, runFixed env config w1 report startDate endDate,
    runSubscriptions env w1 report startDate endDate,
    runInvoices env w1 report startDate endDate, runCustomers env w1 report startDate endDate,
    runTotalDiffs env w1 report startDate endDate,
    rfl, rfl, rfl, rfl, rfl, rfl, hworld, hsub, hinv, hcust, hfixReqs, rfl, hall, rfl, rfl,
    psub, pinv, pcust, pfix, hdisabled, rfl, rfl, rfl, ?_⟩
  simp only [List.filterMap_cons, List.filterMap_append, reportStatusWritten,
    filterMap_reportStatusWritten_nil subSaves
      (fun r hr => reportStatusWritten_of_comparison _ r (psub r hr)),
    filterMap_reportStatusWritten_nil invSaves
      (fun r hr => reportStatusWritten_of_comparison _ r (pinv r hr)),
    filterMap_reportStatusWritten_nil custSaves
      (fun r hr => reportStatusWritten_of_comparison _ r (pcust r hr)),
    filterMap_reportStatusWritten_nil fixReqs
      (fun r hr => reportStatusWritten_of_autoFix r (pfix r hr)),
    List.filterMap_nil, List.nil_append]

/-- Witness of C20: the run over Scenario A with a gateway that answers 201 and
auto-fix enabled sends these twelve requests, the three of the auto-fix pass
between the fetch of the customers and the statistics; the statuses written
to the report are pending, running, completed, in this order. -/
theorem run_lifecycle_order_witness :
    (RunReconciliation envCreated configC worldA 0 10).2.requests =
      [.postReport "uuid-0" 1000 0 10 "pending" 1001 1002,
       .postAuditLog
         { ID := "uuid-1", ReportID := "uuid-0", Action := "reconciliation_started",
           Details := "开始对账，时间范围: day-0 到 day-0", PerformedBy := "system",
           CreatedAt := 1003 },
       .patchReportStatus "uuid-0" "running" 1004,
       .getStripeSubscriptions 0 10,
       .postDiff "uuid-2" "uuid-0" "subscription" "sub_1" "user_1" "mismatch" "status"
         "active" "canceled" "medium" "pending" 1005 1006,
       .getStripeInvoices 0 10,
       .getStripeCustomers 0 10,
       .patchSubscriptionStatus "sub_1" "canceled" 1007,
       .patchDiff "uuid-2" "auto_fixed" true (some 1008) "system" 1009,
       .postAuditLog
         { ID := "uuid-3", ReportID := "uuid-0", Action := "auto_fix",
           RecordType := "subscription", RecordID := "sub_1", UserID := "user_1",
           Details := "自动修复字段 status: active -> canceled", PerformedBy := "system",
           CreatedAt := 1010 },
       .patchReportStats "uuid-0" 100 99 1 1 1011,
       .postAuditLog
         { ID := "uuid-4", ReportID := "uuid-0", Action := "reconciliation_completed",
           Details := "对账完成，发现 1 个差异", PerformedBy := "system",
           CreatedAt := 1012 }] ∧
    (RunReconciliation envCreated configC worldA 0 10).2.requests.filterMap
      reportStatusWritten = ["pending", "running", "completed"] := by
  obtain ⟨startedLog, completedLog, runningAt, statsAt, subSaves, invSaves, custSaves, fixReqs,
    trace, wRunning, wFixed, subs, invs, custs, n, _, _, _, _, _, _, _, _, _, _, _, _, hreq,
    _, _, _, _, _, _, _, _, _, _, hstatus⟩ :=
    run_lifecycle_order envCreated configC worldA
      (createReconciliationReport envCreated worldA 0 10).2 0 10 reportCreated rfl
  refine ⟨rfl, ?_⟩
  rw [hreq, List.filterMap_append, hstatus]
  rfl

/- Pagination of the list endpoints -/

theorem wrapInt64_of_range (n : Int) (hlo : -2 ^ 63 ≤ n) (hhi : n < 2 ^ 63) :
    wrapInt64 n = n := by
  unfold wrapInt64
  omega

theorem Atoi_range (s : String) : -2 ^ 63 ≤ (Atoi s).1 ∧ (Atoi s).1 < 2 ^ 63 := by
  unfold Atoi ParseInt
  cases hs : s.toList with
  | nil => simp
  | cons c cs =>
      simp only
      by_cases hc : c = '-'
      · simp only [hc, ne_eq, not_true_eq_false, false_and, true_and, if_false, if_true]
        split_ifs <;> simp only <;> omega
      · simp only [hc, ne_eq, not_false_eq_true, false_and, true_and, if_false, if_true]
        split_ifs <;> simp only <;> omega

theorem limitOf_eq (limitParam : String) :
    admin.limitOf limitParam =
      if 1 ≤ (Atoi limitParam).1 ∧ (Atoi limitParam).1 ≤ 100 then (Atoi limitParam).1
      else 20 := by
  unfold admin.limitOf
  split_ifs <;> omega

theorem pageOf_eq (pageParam : String) :
    admin.pageOf pageParam =
      if 1 ≤ (Atoi pageParam).1 then (Atoi pageParam).1 else 1 := by
  unfold admin.pageOf
  split_ifs <;> omega

theorem limitOf_range (limitParam : String) :
    1 ≤ admin.limitOf limitParam ∧ admin.limitOf limitParam ≤ 100 := by
  unfold admin.limitOf
  split_ifs <;> omega

theorem pageOf_range (pageParam : String) :
    1 ≤ admin.pageOf pageParam ∧ admin.pageOf pageParam < 2 ^ 63 := by
  have h := Atoi_range pageParam
  unfold admin.pageOf
  split_ifs <;> omega

theorem offsetOf_of_fits (page limit : Int) (hpage : 1 ≤ page) (hpage2 : page < 2 ^ 63)
    (hlimit : 1 ≤ limit) (hfits : (page - 1) * limit < 2 ^ 63) :
    admin.offsetOf page limit = (page - 1) * limit ∧ 0 ≤ admin.offsetOf page limit := by
  have h0 : 0 ≤ (page - 1) * limit := Int.mul_nonneg (by omega) (by omega)
  unfold admin.offsetOf
  rw [wrapInt64_of_range (page - 1) (by omega) (by omega),
    wrapInt64_of_range _ (by omega) hfits]
  exact ⟨rfl, h0⟩

/- Not-found handling of the admin handlers -/

/-- Handler.IgnoreDiff has no answer 404: it never looks the diff up. -/
theorem IgnoreDiff_never_404 (env : Env) (w : World) (diffID : String) (notes : Option String) :
    (admin.IgnoreDiff env w diffID notes).1 = 400 ∨
    (admin.IgnoreDiff env w diffID notes).1 = 500 ∨
    (admin.IgnoreDiff env w diffID notes).1 = 200 := by
  unfold admin.IgnoreDiff
  split_ifs
  · exact Or.inl rfl
  · cases notes with
    | none => exact Or.inl rfl
    | some requestNotes =>
        dsimp only
        split
        · exact Or.inr (Or.inl rfl)
        · exact Or.inr (Or.inr rfl)

/-- C22 fails for IgnoreDiff: on the store of Scenario C, which holds the one
diff diff_1 and no report, with a gateway that accepts every request,
GetReconciliationReport answers 404 for the report report_9 and FixDiff answers 404 for
the diff diff_9, each leaving the tables as they were, but IgnoreDiff answers 200
for the diff diff_9: it sends its PATCH without looking the diff up, the PATCH
matches no row and the tables stay as they were. -/
theorem IgnoreDiff_missing_diff_answers_200 :
    (∀ row ∈ worldC.reconciliation_diffs, row.ID ≠ "diff_9") ∧
    (admin.GetReconciliationReport acceptingEnv worldC "report_9").1 = (404, none) ∧
    SameStore worldC (admin.GetReconciliationReport acceptingEnv worldC "report_9").2 ∧
    (admin.FixDiff acceptingEnv worldC "diff_9" (some "note")).1 = 404 ∧
    SameStore worldC (admin.FixDiff acceptingEnv worldC "diff_9" (some "note")).2 ∧
    (admin.IgnoreDiff acceptingEnv worldC "diff_9" (some "note")).1 = 200 ∧
    (admin.IgnoreDiff acceptingEnv worldC "diff_9" (some "note")).2.requests =
      [.patchDiffIgnore "diff_9" "note" 1000] ∧
    SameStore worldC (admin.IgnoreDiff acceptingEnv worldC "diff_9" (some "note")).2 := by
  refine ⟨by decide, rfl, ⟨rfl, rfl, rfl, rfl, rfl, rfl⟩, rfl, ⟨rfl, rfl, rfl, rfl, rfl, rfl⟩,
    rfl, rfl, ⟨rfl, rfl, rfl, rfl, rfl, rfl⟩⟩

/- The comparator as a function of the snapshots -/

theorem forEachRecord_map {α : Type} (body : World → α → Option ReconciliationDiff × World)
    (f : ReconciliationDiff → ReconciliationDiff) (g : α → Option ReconciliationDiff)
    (hbody : ∀ w record, (body w record).1.map f = g record) :
    ∀ (l : List α) (w : World) (acc : List ReconciliationDiff),
      (forEachRecord body l w acc).1.map f = acc.map f ++ l.filterMap g := by
  intro l
  induction l with
  | nil => intro w acc; simp [forEachRecord]
  | cons record rest ih =>
      intro w acc
      simp only [forEachRecord]
      rw [ih, List.filterMap_cons, ← hbody w record]
      cases (body w record).1 <;> simp

theorem reconcileSubscription_spec (env : Env) (reportID : String) (w : World)
    (localSub : StripeSubscription) :
    (reconcileSubscription env reportID w localSub).1.map stripGenerated =
      specSubscriptionDiff reportID env.GetSubscription localSub := by
  unfold reconcileSubscription specSubscriptionDiff
  cases env.GetSubscription localSub.SubscriptionID with
  | none => rfl
  | some stripeSub =>
      dsimp only
      by_cases h : stripeSub.Status = localSub.Status
      · simp [h]
      · simp only [ne_eq, h, not_false_eq_true, if_true, if_false]; rfl

theorem reconcileInvoice_spec (env : Env) (reportID : String) (w : World)
    (localInvoice : StripeInvoice) :
    (reconcileInvoice env reportID w localInvoice).1.map stripGenerated =
      specInvoiceDiff reportID env.GetInvoice localInvoice := by
  unfold reconcileInvoice specInvoiceDiff
  cases env.GetInvoice localInvoice.InvoiceID with
  | none => rfl
  | some stripeInvoice =>
      dsimp only
      by_cases h : stripeInvoice.AmountPaid = localInvoice.Amount
      · simp [h]
      · simp only [ne_eq, h, not_false_eq_true, if_true, if_false]; rfl

theorem reconcileCustomer_spec (env : Env) (reportID : String) (w : World)
    (localCustomer : StripeCustomer) :
    (reconcileCustomer env reportID w localCustomer).1.map stripGenerated =
      specCustomerDiff reportID env.GetCustomer localCustomer := by
  unfold reconcileCustomer specCustomerDiff
  cases env.GetCustomer localCustomer.CustomerID with
  | none => rfl
  | some stripeCustomer =>
      dsimp only
      by_cases h : stripeCustomer.Email = localCustomer.Email
      · simp [h]
      · simp only [ne_eq, h, not_false_eq_true, if_true, if_false]; rfl

theorem diffContent_eq (d : ReconciliationDiff) :
    diffContent d = { stripGenerated d with ReportID := "" } := rfl

theorem specSubscriptionDiff_content (reportID reportID2 : String)
    (remote : String → Option stripe.Subscription) (localSub : StripeSubscription) :
    (specSubscriptionDiff reportID remote localSub).map (fun d => { d with ReportID := "" }) =
      (specSubscriptionDiff reportID2 remote localSub).map
        (fun d => { d with ReportID := "" }) := by
  unfold specSubscriptionDiff
  cases remote localSub.SubscriptionID with
  | none => rfl
  | some stripeSub => dsimp only; split_ifs <;> rfl

theorem specInvoiceDiff_content (reportID reportID2 : String)
    (remote : String → Option stripe.Invoice) (localInvoice : StripeInvoice) :
    (specInvoiceDiff reportID remote localInvoice).map (fun d => { d with ReportID := "" }) =
      (specInvoiceDiff reportID2 remote localInvoice).map
        (fun d => { d with ReportID := "" }) := by
  unfold specInvoiceDiff
  cases remote localInvoice.InvoiceID with
  | none => rfl
  | some stripeInvoice => dsimp only; split_ifs <;> rfl

theorem specCustomerDiff_content (reportID reportID2 : String)
    (remote : String → Option stripe.Customer) (localCustomer : StripeCustomer) :
    (specCustomerDiff reportID remote localCustomer).map (fun d => { d with ReportID := "" }) =
      (specCustomerDiff reportID2 remote localCustomer).map
        (fun d => { d with ReportID := "" }) := by
  unfold specCustomerDiff
  cases remote localCustomer.CustomerID with
  | none => rfl
  | some stripeCustomer => dsimp only; split_ifs <;> rfl

/-- The comparison of one entity type, for any loop body that agrees with a
mapping g of the specification up to generated fields: the diffs are the
mapping over the records, at most one per record, and a second run with the
same mapping, whatever its state and report, gives the same content. -/
theorem forEachRecord_snapshots {α : Type}
    (body body2 : World → α → Option ReconciliationDiff × World)
    (g g2 : α → Option ReconciliationDiff)
    (hbody : ∀ w record, (body w record).1.map stripGenerated = g record)
    (hbody2 : ∀ w record, (body2 w record).1.map stripGenerated = g2 record)
    (hg : ∀ record, (g record).map (fun d => { d with ReportID := "" }) =
      (g2 record).map (fun d => { d with ReportID := "" }))
    (l : List α) (w w2 : World) :
    (forEachRecord body l w []).1.map stripGenerated = l.filterMap g ∧
    (forEachRecord body l w []).1.length ≤ l.length ∧
    (forEachRecord body2 l w2 []).1.length = (forEachRecord body l w []).1.length ∧
    (forEachRecord body2 l w2 []).1.map diffContent =
      (forEachRecord body l w []).1.map diffContent := by
  have h1 := forEachRecord_map body stripGenerated g hbody l w []
  have h2 := forEachRecord_map body2 stripGenerated g2 hbody2 l w2 []
  simp only [List.map_nil, List.nil_append] at h1 h2
  have hc : ∀ ds : List ReconciliationDiff,
      ds.map diffContent = (ds.map stripGenerated).map (fun d => { d with ReportID := "" }) := by
    intro ds; rw [List.map_map]; rfl
  have hcontent : (forEachRecord body2 l w2 []).1.map diffContent =
      (forEachRecord body l w []).1.map diffContent := by
    rw [hc, hc, h1, h2, List.map_filterMap, List.map_filterMap]
    congr 1
    funext record
    exact (hg record).symm
  refine ⟨h1, ?_, ?_, hcontent⟩
  · have := congrArg List.length h1
    rw [List.length_map] at this
    rw [this]
    exact List.length_filterMap_le _ _
  · have := congrArg List.length hcontent
    simpa using this

/-- C23: for each entity type, when the fetch of the local records gives the
list l, the comparison returns a list which, apart from the generated id and
the timestamps, is l mapped in order by the specification's rule (one missing
diff when the remote lookup fails, one mismatch diff when the compared field
differs, none when it is equal); it has at most as many diffs as l has
records; and a second run with the same remote lookups over the same local
list, whatever its gateway answers, clock, uuids, state and report, returns a
list of the same length with the same content apart from generated
identifiers and timestamps. -/
theorem comparator_function_of_snapshots (env env2 : Env) (w w2 : World)
    (startDate endDate : Nat) (reportID reportID2 : String)
    (subs : List StripeSubscription) (invs : List StripeInvoice) (custs : List StripeCustomer)
    (hsubs : (getLocalSubscriptions env w startDate endDate).1 = .ok subs)
    (hinvs : (getLocalInvoices env w startDate endDate).1 = .ok invs)
    (hcusts : (getLocalCustomers env w startDate endDate).1 = .ok custs)
    (hsubs2 : (getLocalSubscriptions env2 w2 startDate endDate).1 = .ok subs)
    (hinvs2 : (getLocalInvoices env2 w2 startDate endDate).1 = .ok invs)
    (hcusts2 : (getLocalCustomers env2 w2 startDate endDate).1 = .ok custs)
    (hremote : env2.GetSubscription = env.GetSubscription ∧ env2.GetInvoice = env.GetInvoice ∧
      env2.GetCustomer = env.GetCustomer) :
    (∃ ds ds2, (reconcileSubscriptions env w startDate endDate reportID).1 = .ok ds ∧
      (reconcileSubscriptions env2 w2 startDate endDate reportID2).1 = .ok ds2 ∧
      ds.map stripGenerated = subs.filterMap (specSubscriptionDiff reportID env.GetSubscription) ∧
      ds.length ≤ subs.length ∧ ds2.length = ds.length ∧
      ds2.map diffContent = ds.map diffContent) ∧
    (∃ ds ds2, (reconcileInvoices env w startDate endDate reportID).1 = .ok ds ∧
      (reconcileInvoices env2 w2 startDate endDate reportID2).1 = .ok ds2 ∧
      ds.map stripGenerated = invs.filterMap (specInvoiceDiff reportID env.GetInvoice) ∧
      ds.length ≤ invs.length ∧ ds2.length = ds.length ∧
      ds2.map diffContent = ds.map diffContent) ∧
    (∃ ds ds2, (reconcileCustomers env w startDate endDate reportID).1 = .ok ds ∧
      (reconcileCustomers env2 w2 startDate endDate reportID2).1 = .ok ds2 ∧
      ds.map stripGenerated = custs.filterMap (specCustomerDiff reportID env.GetCustomer) ∧
      ds.length ≤ custs.length ∧ ds2.length = ds.length ∧
      ds2.map diffContent = ds.map diffContent) := by
  obtain ⟨hs, hi, hc⟩ := hremote
  refine ⟨?_, ?_, ?_⟩
  · have key := forEachRecord_snapshots (reconcileSubscription env reportID)
      (reconcileSubscription env2 reportID2) _ _
      (reconcileSubscription_spec env reportID) (reconcileSubscription_spec env2 reportID2)
      (fun record => by rw [hs]; exact specSubscriptionDiff_content _ _ _ _) subs
      (getLocalSubscriptions env w startDate endDate).2
      (getLocalSubscriptions env2 w2 startDate endDate).2
    refine ⟨_, _, ?_, ?_, key⟩
    · unfold reconcileSubscriptions
      split
      · rename_i err w1 heq; rw [heq] at hsubs; cases hsubs
      · rename_i l w1 heq; rw [heq] at hsubs; cases hsubs; rw [heq]; rfl
    · unfold reconcileSubscriptions
      split
      · rename_i err w1 heq; rw [heq] at hsubs2; cases hsubs2
      · rename_i l w1 heq; rw [heq] at hsubs2; cases hsubs2; rw [heq]; rfl
  · have key := forEachRecord_snapshots (reconcileInvoice env reportID)
      (reconcileInvoice env2 reportID2) _ _
      (reconcileInvoice_spec env reportID) (reconcileInvoice_spec env2 reportID2)
      (fun record => by rw [hi]; exact specInvoiceDiff_content _ _ _ _) invs
      (getLocalInvoices env w startDate endDate).2
      (getLocalInvoices env2 w2 startDate endDate).2
    refine ⟨_, _, ?_, ?_, key⟩
    · unfold reconcileInvoices
      split
      · rename_i err w1 heq; rw [heq] at hinvs; cases hinvs
      · rename_i l w1 heq; rw [heq] at hinvs; cases hinvs; rw [heq]; rfl
    · unfold reconcileInvoices
      split
      · rename_i err w1 heq; rw [heq] at hinvs2; cases hinvs2
      · rename_i l w1 heq; rw [heq] at hinvs2; cases hinvs2; rw [heq]; rfl
  · have key := forEachRecord_snapshots (reconcileCustomer env reportID)
      (reconcileCustomer env2 reportID2) _ _
      (reconcileCustomer_spec env reportID) (reconcileCustomer_spec env2 reportID2)
      (fun record => by rw [hc]; exact specCustomerDiff_content _ _ _ _) custs
      (getLocalCustomers env w startDate endDate).2
      (getLocalCustomers env2 w2 startDate endDate).2
    refine ⟨_, _, ?_, ?_, key⟩
    · unfold reconcileCustomers
      split
      · rename_i err w1 heq; rw [heq] at hcusts; cases hcusts
      · rename_i l w1 heq; rw [heq] at hcusts; cases hcusts; rw [heq]; rfl
    · unfold reconcileCustomers
      split
      · rename_i err w1 heq; rw [heq] at hcusts2; cases hcusts2
      · rename_i l w1 heq; rw [heq] at hcusts2; cases hcusts2; rw [heq]; rfl

theorem comparator_function_of_snapshots_witness :
    ((getLocalSubscriptions (envA 200) worldAB 0 10).1 = .ok [subscriptionA] ∧
      (getLocalInvoices (envA 200) worldAB 0 10).1 = .ok [invoiceB] ∧
      (getLocalCustomers (envA 200) worldAB 0 10).1 = .ok []) ∧
    ((getLocalSubscriptions envA2 { worldAB with uuids := 7, ticks := 3 } 0 10).1 =
        .ok [subscriptionA] ∧
      (getLocalInvoices envA2 { worldAB with uuids := 7, ticks := 3 } 0 10).1 =
        .ok [invoiceB] ∧
      (getLocalCustomers envA2 { worldAB with uuids := 7, ticks := 3 } 0 10).1 = .ok []) ∧
    (envA2.GetSubscription = (envA 200).GetSubscription ∧
      envA2.GetInvoice = (envA 200).GetInvoice ∧
      envA2.GetCustomer = (envA 200).GetCustomer) ∧
    ((∃ ds ds2, (reconcileSubscriptions (envA 200) worldAB 0 10 "report_1").1 = .ok ds ∧
      (reconcileSubscriptions envA2 { worldAB with uuids := 7, ticks := 3 } 0 10
        "report_2").1 = .ok ds2 ∧
      ds.map stripGenerated =
        [subscriptionA].filterMap (specSubscriptionDiff "report_1" (envA 200).GetSubscription) ∧
      ds.length ≤ [subscriptionA].length ∧ ds2.length = ds.length ∧
      ds2.map diffContent = ds.map diffContent) ∧
    (∃ ds ds2, (reconcileInvoices (envA 200) worldAB 0 10 "report_1").1 = .ok ds ∧
      (reconcileInvoices envA2 { worldAB with uuids := 7, ticks := 3 } 0 10
        "report_2").1 = .ok ds2 ∧
      ds.map stripGenerated =
        [invoiceB].filterMap (specInvoiceDiff "report_1" (envA 200).GetInvoice) ∧
      ds.length ≤ [invoiceB].length ∧ ds2.length = ds.length ∧
      ds2.map diffContent = ds.map diffContent) ∧
    (∃ ds ds2, (reconcileCustomers (envA 200) worldAB 0 10 "report_1").1 = .ok ds ∧
      (reconcileCustomers envA2 { worldAB with uuids := 7, ticks := 3 } 0 10
        "report_2").1 = .ok ds2 ∧
      ds.map stripGenerated =
        ([] : List StripeCustomer).filterMap
          (specCustomerDiff "report_1" (envA 200).GetCustomer) ∧
      ds.length ≤ ([] : List StripeCustomer).length ∧ ds2.length = ds.length ∧
      ds2.map diffContent = ds.map diffContent)) :=
  ⟨⟨rfl, rfl, rfl⟩, ⟨rfl, rfl, rfl⟩, ⟨rfl, rfl, rfl⟩,
    comparator_function_of_snapshots (envA 200) envA2 worldAB
      { worldAB with uuids := 7, ticks := 3 } 0 10 "report_1" "report_2"
      [subscriptionA] [invoiceB] [] rfl rfl rfl rfl rfl rfl ⟨rfl, rfl, rfl⟩⟩

/- Status changes of the fixing operations -/

theorem statusMovesOnlyTo_refl (target : String) (ds : List ReconciliationDiff) :
    StatusMovesOnlyTo target ds ds :=
  fun _ row hrow => ⟨row, hrow, rfl, Or.inl rfl⟩

theorem statusMovesOnlyTo_trans (target : String) (a b c : List ReconciliationDiff)
    (hab : StatusMovesOnlyTo target a b) (hbc : StatusMovesOnlyTo target b c) :
    StatusMovesOnlyTo target a c := by
  intro i row hrow
  obtain ⟨row1, h1, hid1, hs1⟩ := hab i row hrow
  obtain ⟨row2, h2, hid2, hs2⟩ := hbc i row1 h1
  refine ⟨row2, h2, hid2.trans hid1, ?_⟩
  rcases hs2 with hs2 | hs2
  · rcases hs1 with hs1 | hs1
    · exact Or.inl (hs2.trans hs1)
    · exact Or.inr (hs2.trans hs1)
  · exact Or.inr hs2

theorem statusMovesOnlyTo_of_eq (target : String) (ds ds' : List ReconciliationDiff)
    (h : ds' = ds) : StatusMovesOnlyTo target ds ds' := by
  rw [h]; exact statusMovesOnlyTo_refl _ _

theorem statusMovesOnlyTo_of_map (target : String) (ds : List ReconciliationDiff)
    (f : ReconciliationDiff → ReconciliationDiff)
    (hf : ∀ d, (f d).ID = d.ID ∧ ((f d).Status = d.Status ∨ (f d).Status = target)) :
    StatusMovesOnlyTo target ds (ds.map f) := by
  intro i row hrow
  refine ⟨f row, ?_, (hf row).1, (hf row).2⟩
  rw [List.getElem?_map, hrow]
  rfl

theorem statusMovesOnlyTo_of_patch (ds : List ReconciliationDiff) (id status : String)
    (autoFixed : Bool) (fixedAt : Option Nat) (fixedBy : String) (updatedAt : Nat) :
    StatusMovesOnlyTo status ds
      (ds.map (patchDiffRow id status autoFixed fixedAt fixedBy updatedAt)) := by
  apply statusMovesOnlyTo_of_map
  intro d
  unfold patchDiffRow
  split_ifs
  · exact ⟨rfl, Or.inr rfl⟩
  · exact ⟨rfl, Or.inl rfl⟩

theorem statusMovesOnlyTo_of_ignore (ds : List ReconciliationDiff) (id notes : String)
    (updatedAt : Nat) :
    StatusMovesOnlyTo "ignored" ds (ds.map (ignoreDiffRow id notes updatedAt)) := by
  apply statusMovesOnlyTo_of_map
  intro d
  unfold ignoreDiffRow
  split_ifs
  · exact ⟨rfl, Or.inr rfl⟩
  · exact ⟨rfl, Or.inl rfl⟩

theorem autoFixDiffs_objects (env : Env) (config : ReconciliationConfig) (w : World)
    (diffs : List ReconciliationDiff) :
    List.Forall₂ (fun d d' => d'.ID = d.ID ∧ (d'.Status = d.Status ∨ d'.Status = "auto_fixed"))
      diffs (autoFixDiffs env config w diffs).1 := by
  induction diffs generalizing w with
  | nil => exact List.Forall₂.nil
  | cons d rest ih =>
      simp only [autoFixDiffs]
      refine List.Forall₂.cons ?_ (ih _)
      rcases autoFixDiff_object env config w d with h | ⟨fixedAt, updatedAt, h⟩
      · rw [h]; exact ⟨rfl, Or.inl rfl⟩
      · rw [h]; exact ⟨rfl, Or.inr rfl⟩

/-- C24 as stated fails: no operation looks at the current status. On the
store whose diff diff_1 is already auto_fixed, IgnoreDiff moves the row to
ignored; on the store whose diff diff_1 is already ignored, the auto-fix pass
over the diff object moves the object and the row to auto_fixed, and FixDiff
moves the row to manual_fixed. -/
theorem final_status_moved_again :
    (worldAutoFixed.reconciliation_diffs.map fun d => d.Status) = ["auto_fixed"] ∧
    (admin.IgnoreDiff acceptingEnv worldAutoFixed "diff_1" (some "note")).1 = 200 ∧
    ((admin.IgnoreDiff acceptingEnv worldAutoFixed "diff_1"
      (some "note")).2.reconciliation_diffs.map fun d => d.Status) = ["ignored"] ∧
    (worldIgnored.reconciliation_diffs.map fun d => d.Status) = ["ignored"] ∧
    ((autoFixDiffs acceptingEnv configC worldIgnored [diffIgnored]).1.map fun d => d.Status) =
      ["auto_fixed"] ∧
    ((autoFixDiffs acceptingEnv configC worldIgnored
      [diffIgnored]).2.reconciliation_diffs.map fun d => d.Status) = ["auto_fixed"] ∧
    (admin.FixDiff acceptingEnv worldIgnored "diff_1" (some "note")).1 = 200 ∧
    ((admin.FixDiff acceptingEnv worldIgnored "diff_1"
      (some "note")).2.reconciliation_diffs.map fun d => d.Status) = ["manual_fixed"] := by
  exact ⟨rfl, rfl, rfl, rfl, rfl, rfl, rfl, rfl⟩

/-- C24 as amended: every status change made by autoFixDiffs, by the admin
FixDiff and by the admin IgnoreDiff ends in auto_fixed, manual_fixed and
ignored respectively, whatever the status was before: after each of them every
row of the diff table is at its position with its id and has either the
status it had or the operation's target status, and so has every diff object
of the slice passed to autoFixDiffs. -/
theorem status_change_targets (env : Env) (config : ReconciliationConfig) (w : World)
    (diffs : List ReconciliationDiff) (diffID : String) (notes : Option String) :
    StatusMovesOnlyTo "auto_fixed" w.reconciliation_diffs
      (autoFixDiffs env config w diffs).2.reconciliation_diffs ∧
    List.Forall₂ (fun d d' => d'.ID = d.ID ∧ (d'.Status = d.Status ∨ d'.Status = "auto_fixed"))
      diffs (autoFixDiffs env config w diffs).1 ∧
    StatusMovesOnlyTo "manual_fixed" w.reconciliation_diffs
      (admin.FixDiff env w diffID notes).2.reconciliation_diffs ∧
    StatusMovesOnlyTo "ignored" w.reconciliation_diffs
      (admin.IgnoreDiff env w diffID notes).2.reconciliation_diffs := by
  refine ⟨?_, autoFixDiffs_objects env config w diffs, ?_, ?_⟩
  · apply autoFixDiffs_diffs_rel env config (StatusMovesOnlyTo "auto_fixed")
      (statusMovesOnlyTo_refl _) (statusMovesOnlyTo_trans _)
    intro w1 d
    rcases autoFixDiff_diffs env config w1 d with h | ⟨fixedAt, updatedAt, h⟩
    · exact statusMovesOnlyTo_of_eq _ _ _ h
    · rw [h]; exact statusMovesOnlyTo_of_patch _ _ _ _ _ _ _
  · rcases admin.FixDiff_diffs env w diffID notes with h | ⟨row, fixedAt, updatedAt, _, _, h⟩
    · exact statusMovesOnlyTo_of_eq _ _ _ h
    · rw [h]; exact statusMovesOnlyTo_of_patch _ _ _ _ _ _ _
  · rcases admin.IgnoreDiff_diffs env w diffID notes with h | ⟨requestNotes, updatedAt, h⟩
    · exact statusMovesOnlyTo_of_eq _ _ _ h
    · rw [h]; exact statusMovesOnlyTo_of_ignore _ _ _ _

/- Missing diffs and the auto-fix pass -/

/-- A missing diff of the comparator carries the entity name as record type
and as field name, is pending and is not marked auto-fixed. -/
theorem comparatorMissingDiff_shape (diff : ReconciliationDiff)
    (h : ComparatorMissingDiff diff) :
    (diff.RecordType = "subscription" ∨ diff.RecordType = "invoice" ∨
      diff.RecordType = "customer") ∧
    diff.FieldName = diff.RecordType ∧ diff.Status = "pending" ∧ diff.AutoFixed = false := by
  obtain ⟨hmissing, env, reportID, w, hsub | hinv | hcust⟩ := h
  · obtain ⟨localSub, h⟩ := hsub
    unfold reconcileSubscription at h
    cases hlookup : env.GetSubscription localSub.SubscriptionID with
    | none =>
        rw [hlookup] at h
        simp only [Option.some.injEq] at h
        subst h
        exact ⟨Or.inl rfl, rfl, rfl, rfl⟩
    | some stripeSub =>
        rw [hlookup] at h
        dsimp only at h
        split_ifs at h
        · simp only [Prod.mk.injEq, Option.some.injEq] at h
          subst h
          exact absurd hmissing (show "mismatch" ≠ "missing" by decide)
  · obtain ⟨localInvoice, h⟩ := hinv
    unfold reconcileInvoice at h
    cases hlookup : env.GetInvoice localInvoice.InvoiceID with
    | none =>
        rw [hlookup] at h
        simp only [Option.some.injEq] at h
        subst h
        exact ⟨Or.inr (Or.inl rfl), rfl, rfl, rfl⟩
    | some stripeInvoice =>
        rw [hlookup] at h
        dsimp only at h
        split_ifs at h
        · simp only [Prod.mk.injEq, Option.some.injEq] at h
          subst h
          exact absurd hmissing (show "mismatch" ≠ "missing" by decide)
  · obtain ⟨localCustomer, h⟩ := hcust
    unfold reconcileCustomer at h
    cases hlookup : env.GetCustomer localCustomer.CustomerID with
    | none =>
        rw [hlookup] at h
        simp only [Option.some.injEq] at h
        subst h
        exact ⟨Or.inr (Or.inr rfl), rfl, rfl, rfl⟩
    | some stripeCustomer =>
        rw [hlookup] at h
        dsimp only at h
        split_ifs at h
        · simp only [Prod.mk.injEq, Option.some.injEq] at h
          subst h
          exact absurd hmissing (show "mismatch" ≠ "missing" by decide)

/-- C25: for every configuration and every diff the comparator produced with
diff type missing, fixDiff returns the unsupported field error of the diff's
record type, the diff's field name being the entity name, without sending a
request; so the auto-fix pass over a slice holding the diff leaves the diff
object as it was, pending and not auto-fixed, and goes on with the diffs
after it from the very state it reached the diff in: nothing was written. -/
theorem missing_diff_never_auto_fixed (env : Env) (config : ReconciliationConfig)
    (w : World) (before after : List ReconciliationDiff) (diff : ReconciliationDiff)
    (h : ComparatorMissingDiff diff) :
    diff.FieldName = diff.RecordType ∧
    (fixDiff env w diff = (some (.message ("不支持的订阅字段: " ++ diff.FieldName)), w) ∨
      fixDiff env w diff = (some (.message ("不支持的发票字段: " ++ diff.FieldName)), w) ∨
      fixDiff env w diff = (some (.message ("不支持的客户字段: " ++ diff.FieldName)), w)) ∧
    autoFixDiff env config w diff = (diff, w) ∧
    autoFixDiffs env config w (before ++ diff :: after) =
      ((autoFixDiffs env config w before).1 ++ diff ::
          (autoFixDiffs env config (autoFixDiffs env config w before).2 after).1,
        (autoFixDiffs env config (autoFixDiffs env config w before).2 after).2) ∧
    diff.Status = "pending" ∧ diff.AutoFixed = false := by
  obtain ⟨htype, hfield, hstatus, hauto⟩ := comparatorMissingDiff_shape diff h
  have hfix : ∀ w1 : World,
      (fixDiff env w1 diff = (some (.message ("不支持的订阅字段: " ++ diff.FieldName)), w1) ∨
        fixDiff env w1 diff = (some (.message ("不支持的发票字段: " ++ diff.FieldName)), w1) ∨
        fixDiff env w1 diff = (some (.message ("不支持的客户字段: " ++ diff.FieldName)), w1)) := by
    intro w1
    rcases htype with ht | ht | ht
    · left
      unfold fixDiff fixSubscriptionDiff
      rw [if_pos ht, if_neg (by rw [hfield, ht]; decide)]
    · right; left
      unfold fixDiff fixInvoiceDiff
      rw [if_neg (by rw [ht]; decide), if_pos ht, if_neg (by rw [hfield, ht]; decide),
        if_neg (by rw [hfield, ht]; decide)]
    · right; right
      unfold fixDiff fixCustomerDiff
      rw [if_neg (by rw [ht]; decide), if_neg (by rw [ht]; decide), if_pos ht,
        if_neg (by rw [hfield, ht]; decide)]
  have hbody : ∀ w1 : World, autoFixDiff env config w1 diff = (diff, w1) := by
    intro w1
    unfold autoFixDiff
    split_ifs
    · rcases hfix w1 with hf | hf | hf <;> rw [hf]
    · rfl
  refine ⟨hfield, hfix w, hbody w, ?_, hstatus, hauto⟩
  rw [autoFixDiffs_split, hbody]

/-- Witness of C25, Scenario B: the missing diff of the invoice inv_1 with
auto-fix enabled for every severity; the pass leaves diff and state as they were. -/
theorem missing_diff_never_auto_fixed_witness :
    ComparatorMissingDiff diffB ∧ shouldAutoFix configB diffB = true ∧
    autoFixDiffs acceptingEnv configB worldB [diffB] = ([diffB], worldB) ∧
    diffB.Status = "pending" ∧ diffB.AutoFixed = false := by
  have hB : ComparatorMissingDiff diffB :=
    ⟨rfl, acceptingEnv, "report_1", worldB, Or.inr (Or.inl ⟨invoiceB, rfl⟩)⟩
  obtain ⟨_, _, _, hrun, hstatus, hauto⟩ :=
    missing_diff_never_auto_fixed acceptingEnv configB worldB [] [] diffB hB
  exact ⟨hB, rfl, hrun, hstatus, hauto⟩

/- The report returned and the statistics persisted -/

theorem createReconciliationReport_of_returned (env : Env) (config : ReconciliationConfig)
    (w : World) (startDate endDate : Nat) (report : ReconciliationReport)
    (hrun : (RunReconciliation env config w startDate endDate).1 = (some report, none)) :
    (createReconciliationReport env w startDate endDate).1 = .ok report := by
  unfold RunReconciliation at hrun
  cases hrep : (createReconciliationReport env w startDate endDate).1 with
  | error err => rw [hrep] at hrun; simp at hrun
  | ok created =>
      rw [hrep] at hrun
      simp only [Prod.mk.injEq, Option.some.injEq, and_true] at hrun
      rw [hrun]

/-- C26: the report a successful run returns is the literal built at
creation: a fresh uuid and three readings of the clock, status pending, the
four counters 0 and the window passed in. What the run writes afterwards, the
statistics that mark the report completed among it, goes to the store in
requests that carry the report's id; the value returned is not touched. -/
theorem returned_report_is_creation_literal (env : Env) (config : ReconciliationConfig)
    (w : World) (startDate endDate : Nat) (report : ReconciliationReport)
    (hrun : (RunReconciliation env config w startDate endDate).1 = (some report, none)) :
    report = { ID := env.uuidNew w.uuids, ReportDate := env.timeNow w.ticks,
               StartDate := startDate, EndDate := endDate, Status := "pending",
               CreatedAt := env.timeNow (w.ticks + 1),
               UpdatedAt := env.timeNow (w.ticks + 1 + 1) } ∧
    report.Status = "pending" ∧ report.TotalRecords = 0 ∧ report.MatchedRecords = 0 ∧
    report.MismatchedRecords = 0 ∧ report.MissingRecords = 0 ∧
    report.StartDate = startDate ∧ report.EndDate = endDate ∧
    ∃ total matched mismatched missing updatedAt completedLog,
      (RunReconciliation env config w startDate endDate).2.requests =
        (runFixed env config (createReconciliationReport env w startDate endDate).2 report
          startDate endDate).requests ++
          [.patchReportStats report.ID total matched mismatched missing updatedAt,
           .postAuditLog completedLog] := by
  have hcreated := createReconciliationReport_of_returned env config w startDate endDate report
    hrun
  have hlit := (createReconciliationReport_of_ok env w
    (createReconciliationReport env w startDate endDate).2 startDate endDate report
    (Prod.ext hcreated rfl)).1
  refine ⟨hlit, ?_, ?_, ?_, ?_, ?_, ?_, ?_, ?_⟩
  · rw [hlit]
  · rw [hlit]
  · rw [hlit]
  · rw [hlit]
  · rw [hlit]
  · rw [hlit]
  · rw [hlit]
  · rw [RunReconciliation_of_created env config w startDate endDate report hcreated]
    exact ⟨_, _, _, _, _, _, runFinished_requests env config _ report startDate endDate⟩

/-- Witness of C26: the run over Scenario A returns the report as created,
pending with the counters at 0, while the row of the store is completed with
the counters 100, 99, 1 and 1. -/
theorem returned_report_is_creation_literal_witness :
    (RunReconciliation envCreated configC worldA 0 10).1 = (some reportCreated, none) ∧
    reportCreated.Status = "pending" ∧ reportCreated.TotalRecords = 0 ∧
    reportCreated.MatchedRecords = 0 ∧ reportCreated.MismatchedRecords = 0 ∧
    reportCreated.MissingRecords = 0 ∧
    ((RunReconciliation envCreated configC worldA 0 10).2.reconciliation_reports.map
      fun r => (r.ID, r.Status, r.TotalRecords, r.MatchedRecords, r.MismatchedRecords,
        r.MissingRecords)) = [("uuid-0", "completed", 100, 99, 1, 1)] := by
  obtain ⟨_, h1, h2, h3, h4, h5, _⟩ :=
    returned_report_is_creation_literal envCreated configC worldA 0 10 reportCreated rfl
  exact ⟨rfl, h1, h2, h3, h4, h5, rfl⟩

/-- C27: in every run whose report was created, with n the number of diffs the
three comparisons returned, the statistics updateReportStats sends are
total_records = 100 and matched_records = 100 - n; matched_records is negative
exactly when n is above 100. -/
theorem persisted_total_records_constant (env : Env) (config : ReconciliationConfig)
    (w : World) (startDate endDate : Nat) (report : ReconciliationReport)
    (hcreated : (createReconciliationReport env w startDate endDate).1 = .ok report) :
    ∃ (n : Nat) (mismatched missing : Int) (updatedAt : Nat)
      (completedLog : ReconciliationAuditLog),
      n = (diffsOrNil (runSubscriptions env
            (createReconciliationReport env w startDate endDate).2 report startDate
            endDate).1).length +
          (diffsOrNil (runInvoices env
            (createReconciliationReport env w startDate endDate).2 report startDate
            endDate).1).length +
          (diffsOrNil (runCustomers env
            (createReconciliationReport env w startDate endDate).2 report startDate
            endDate).1).length ∧
      (RunReconciliation env config w startDate endDate).2.requests =
        (runFixed env config (createReconciliationReport env w startDate endDate).2 report
          startDate endDate).requests ++
          [.patchReportStats report.ID 100 (100 - (n : Int)) mismatched missing updatedAt,
           .postAuditLog completedLog] ∧
      ((100 - (n : Int) < 0) ↔ 100 < n) := by
  rw [RunReconciliation_of_created env config w startDate endDate report hcreated]
  generalize (createReconciliationReport env w startDate endDate).2 = w1
  have hreq := runFinished_requests env config w1 report startDate endDate
  have htotal : runTotalDiffs env w1 report startDate endDate =
      (((diffsOrNil (runSubscriptions env w1 report startDate endDate).1).length +
        (diffsOrNil (runInvoices env w1 report startDate endDate).1).length +
        (diffsOrNil (runCustomers env w1 report startDate endDate).1).length : Nat) : Int) := by
    unfold runTotalDiffs
    push_cast
    rfl
  have hmatched : runMatchedRecords env w1 report startDate endDate =
      100 - runTotalDiffs env w1 report startDate endDate := rfl
  have hsum : runTotalDiffs env w1 report startDate endDate +
      runMatchedRecords env w1 report startDate endDate = 100 := by
    rw [hmatched]; omega
  rw [hsum, hmatched, htotal] at hreq
  exact ⟨_, _, _, _, _, rfl, hreq, by omega⟩

/-- Witness of C27: the run over Scenario A finds one diff and sends
total_records 100 and matched_records 99. -/
theorem persisted_total_records_constant_witness :
    ∃ (mismatched missing : Int) (updatedAt : Nat) (completedLog : ReconciliationAuditLog),
      (RunReconciliation envCreated configC worldA 0 10).2.requests =
        (runFixed envCreated configC (createReconciliationReport envCreated worldA 0 10).2
          reportCreated 0 10).requests ++
          [.patchReportStats "uuid-0" 100 99 mismatched missing updatedAt,
           .postAuditLog completedLog] := by
  obtain ⟨n, mismatched, missing, updatedAt, completedLog, hn, hreq, _⟩ :=
    persisted_total_records_constant envCreated configC worldA 0 10 reportCreated rfl
  have hn1 : n = 1 := by rw [hn]; rfl
  subst hn1
  exact ⟨mismatched, missing, updatedAt, completedLog, hreq⟩

/-- C28: in every run whose report was created, the missing_records value
updateReportStats sends is the number of subscription diffs plus the number of
invoice diffs plus the number of customer diffs, whatever their diff type; it
equals the mismatched_records value sent, which is total_diffs. -/
theorem persisted_missing_records_counts_all (env : Env) (config : ReconciliationConfig)
    (w : World) (startDate endDate : Nat) (report : ReconciliationReport)
    (hcreated : (createReconciliationReport env w startDate endDate).1 = .ok report) :
    ∃ (subscriptionDiffs invoiceDiffs customerDiffs : List ReconciliationDiff)
      (total matched mismatched missing : Int) (updatedAt : Nat)
      (completedLog : ReconciliationAuditLog),
      subscriptionDiffs = diffsOrNil (runSubscriptions env
        (createReconciliationReport env w startDate endDate).2 report startDate endDate).1 ∧
      invoiceDiffs = diffsOrNil (runInvoices env
        (createReconciliationReport env w startDate endDate).2 report startDate endDate).1 ∧
      customerDiffs = diffsOrNil (runCustomers env
        (createReconciliationReport env w startDate endDate).2 report startDate endDate).1 ∧
      (RunReconciliation env config w startDate endDate).2.requests =
        (runFixed env config (createReconciliationReport env w startDate endDate).2 report
          startDate endDate).requests ++
          [.patchReportStats report.ID total matched mismatched missing updatedAt,
           .postAuditLog completedLog] ∧
      missing = (subscriptionDiffs.length : Int) + (invoiceDiffs.length : Int) +
        (customerDiffs.length : Int) ∧
      missing = mismatched ∧
      mismatched = runTotalDiffs env (createReconciliationReport env w startDate endDate).2
        report startDate endDate := by
  rw [RunReconciliation_of_created env config w startDate endDate report hcreated]
  generalize (createReconciliationReport env w startDate endDate).2 = w1
  exact ⟨_, _, _, _, _, _, _, _, _, rfl, rfl, rfl,
    runFinished_requests env config w1 report startDate endDate, rfl, rfl, rfl⟩

/-- Witness of C28: the run over Scenario A finds one diff, a mismatch and no
missing diff, and sends missing_records 1. -/
theorem persisted_missing_records_counts_all_witness :
    ((diffsOrNil (runSubscriptions envCreated
      (createReconciliationReport envCreated worldA 0 10).2 reportCreated 0 10).1).map
        fun d => d.DiffType) = ["mismatch"] ∧
    ∃ (total matched : Int) (updatedAt : Nat) (completedLog : ReconciliationAuditLog),
      (RunReconciliation envCreated configC worldA 0 10).2.requests =
        (runFixed envCreated configC (createReconciliationReport envCreated worldA 0 10).2
          reportCreated 0 10).requests ++
          [.patchReportStats "uuid-0" total matched 1 1 updatedAt,
           .postAuditLog completedLog] := by
  obtain ⟨s, i, c, total, matched, mismatched, missing, updatedAt, completedLog, hs, hi, hc,
    hreq, hmissing, hsame, _⟩ :=
    persisted_missing_records_counts_all envCreated configC worldA 0 10 reportCreated rfl
  have h1 : missing = 1 := by rw [hmissing, hs, hi, hc]; rfl
  have h2 : mismatched = 1 := by rw [← hsame, h1]
  subst h1 h2
  exact ⟨rfl, total, matched, updatedAt, completedLog, hreq⟩

/- The trigger of the scheduler over sequences of calls -/

/-- C29 as stated fails: a Start made while a trigger is installed installs a
second one. After Start, Start on the scheduler of Scenario E two triggers are
installed; so after Start, Stop, Start; and so after a successful UpdateSchedule
followed by Start. -/
theorem second_Start_installs_second_trigger :
    (runCalls acceptingEnv [.Start, .Start] (NewScheduler configE, {})).1.cron.entries =
      [{ ID := 1, Spec := "0 0 2 * * *" }, { ID := 2, Spec := "0 0 2 * * *" }] ∧
    (runCalls acceptingEnv [.Start, .Stop, .Start] (NewScheduler configE, {})).1.cron.entries =
      [{ ID := 1, Spec := "0 0 2 * * *" }, { ID := 2, Spec := "0 0 2 * * *" }] ∧
    (runCalls acceptingEnv [.UpdateSchedule "0 0 3 * * *", .Start]
      (NewScheduler configE, {})).1.cron.entries =
      [{ ID := 1, Spec := "0 0 3 * * *" }, { ID := 2, Spec := "0 0 3 * * *" }] ∧
    ¬ TriggerInvariant (runCalls acceptingEnv [.Start, .Start] (NewScheduler configE, {})).1 := by
  refine ⟨rfl, rfl, rfl, ?_⟩
  intro h
  have h1 : (runCalls acceptingEnv [.Start, .Start]
      (NewScheduler configE, {})).1.cron.entries.length = 2 := rfl
  have h2 := h.1
  omega

/-- The invariant that carries the trigger invariant through the calls: the
identifiers of installed triggers are at least 1, so that entryID is not 0
when a trigger is installed. -/
theorem triggerInvariant_step (env : Env) (sw : Scheduler × World) (call : SchedulerCall)
    (hinv : TriggerInvariant sw.1) (hids : ∀ entry ∈ sw.1.cron.entries, 1 ≤ entry.ID)
    (hguard : call = .Start → sw.1.cron.entries = []) :
    TriggerInvariant (SchedulerCall.apply env sw call).1 ∧
    ∀ entry ∈ (SchedulerCall.apply env sw call).1.cron.entries, 1 ≤ entry.ID := by
  obtain ⟨s, w⟩ := sw
  dsimp only at hinv hids hguard
  cases call with
  | Start =>
      have hnil : s.cron.entries = [] := hguard rfl
      simp only [SchedulerCall.apply, Scheduler.Start, cron.Cron.AddFunc]
      by_cases hparse : cron.Parse env s.config.Schedule = true
      · simp only [hparse, if_true, cron.Cron.Start, hnil, List.nil_append]
        refine ⟨⟨by simp, ?_⟩, ?_⟩
        · intro entry hentry
          simp only [List.mem_singleton] at hentry
          subst hentry
          exact ⟨rfl, rfl⟩
        · intro entry hentry
          simp only [List.mem_singleton] at hentry
          subst hentry
          exact Nat.le_add_left 1 _
      · simp only [hparse, Bool.false_eq_true, if_false]
        exact ⟨hinv, hids⟩
  | Stop => exact ⟨hinv, hids⟩
  | UpdateSchedule newSchedule =>
      have hnil : (if s.entryID ≠ 0 then s.cron.Remove s.entryID else s.cron).entries = [] := by
        cases hentries : s.cron.entries with
        | nil =>
            split_ifs
            · simp [cron.Cron.Remove, hentries]
            · exact hentries
        | cons entry rest =>
            have hlen := hinv.1
            rw [hentries] at hlen
            have hrest : rest = [] := by
              cases rest with
              | nil => rfl
              | cons _ _ => simp at hlen
            subst hrest
            have hmem : entry ∈ s.cron.entries := by rw [hentries]; exact List.mem_singleton.mpr rfl
            have hid := (hinv.2 entry hmem).1
            have hpos := hids entry hmem
            have hne : s.entryID ≠ 0 := by omega
            rw [if_pos hne]
            simp [cron.Cron.Remove, hentries, hid]
      simp only [SchedulerCall.apply, Scheduler.UpdateSchedule, cron.Cron.AddFunc]
      by_cases hparse : cron.Parse env newSchedule = true
      · simp only [hparse, if_true, hnil, List.nil_append]
        refine ⟨⟨by simp, ?_⟩, ?_⟩
        · intro entry hentry
          simp only [List.mem_singleton] at hentry
          subst hentry
          exact ⟨rfl, rfl⟩
        · intro entry hentry
          simp only [List.mem_singleton] at hentry
          subst hentry
          exact Nat.le_add_left 1 _
      · simp only [hparse, Bool.false_eq_true, if_false]
        refine ⟨⟨by rw [hnil]; simp, ?_⟩, ?_⟩
        · intro entry hentry; rw [hnil] at hentry; simp at hentry
        · intro entry hentry; rw [hnil] at hentry; simp at hentry

theorem triggerInvariant_runCalls (env : Env) (calls : List SchedulerCall) :
    ∀ (sw : Scheduler × World), TriggerInvariant sw.1 →
      (∀ entry ∈ sw.1.cron.entries, 1 ≤ entry.ID) →
      StartOnlyWithoutTrigger env calls sw →
      TriggerInvariant (runCalls env calls sw).1 := by
  induction calls with
  | nil => intro sw hinv _ _; exact hinv
  | cons call rest ih =>
      intro sw hinv hids hguard
      obtain ⟨h1, h2⟩ := triggerInvariant_step env sw call hinv hids hguard.1
      exact ih _ h1 h2 hguard.2

/-- C29 as amended: in every state reachable from NewScheduler by a sequence of
Start, Stop and UpdateSchedule calls, with valid or invalid expressions, in which
every Start is made while no trigger is installed, at most one trigger is
installed in the cron instance, and an installed trigger has the identifier
entryID and the expression GetSchedule() returns. -/
theorem trigger_invariant_of_guarded_Start (env : Env) (config : ReconciliationConfig)
    (w : World) (calls : List SchedulerCall)
    (hguard : StartOnlyWithoutTrigger env calls (NewScheduler config, w)) :
    TriggerInvariant (runCalls env calls (NewScheduler config, w)).1 := by
  apply triggerInvariant_runCalls env calls (NewScheduler config, w) _ _ hguard
  · exact ⟨by simp [NewScheduler], fun entry hentry => by simp [NewScheduler] at hentry⟩
  · intro entry hentry
    simp [NewScheduler] at hentry

/-- Witness of C29: Start, an update with an invalid expression, an update with
a valid one and Stop on the scheduler of Scenario E: one trigger is installed,
with the identifier entryID and the expression GetSchedule() returns. -/
theorem trigger_invariant_of_guarded_Start_witness :
    (runCalls acceptingEnv [.Start, .UpdateSchedule "bad cron", .UpdateSchedule "0 0 3 * * *",
      .Stop] (NewScheduler configE, {})).1.cron.entries = [{ ID := 2, Spec := "0 0 3 * * *" }] ∧
    TriggerInvariant (runCalls acceptingEnv [.Start, .UpdateSchedule "bad cron",
      .UpdateSchedule "0 0 3 * * *", .Stop] (NewScheduler configE, {})).1 :=
  ⟨rfl, trigger_invariant_of_guarded_Start acceptingEnv configE {}
    [.Start, .UpdateSchedule "bad cron", .UpdateSchedule "0 0 3 * * *", .Stop]
    ⟨fun _ => rfl, ⟨fun h => (by cases h), ⟨fun h => (by cases h), ⟨fun h => (by cases h),
      trivial⟩⟩⟩⟩⟩

/- The usage functions and usageMutex -/

/-- Called while usageMutex is held, checkUserQuota blocks in its Lock. -/
theorem checkUserQuota_of_locked (env : webhook.UsageEnv) (s : webhook.UsageState)
    (userID : String) (characterCount : Int) (hlocked : s.usageMutex = true) :
    webhook.checkUserQuota env s userID characterCount = .blocked := by
  unfold webhook.checkUserQuota webhook.usageMutexLock
  rw [if_pos hlocked]

/-- CheckAndRecordUsage returns for no input: if usageMutex is held on entry the call
waits in its own Lock, and if it is free the call takes it and then waits in
the Lock of checkUserQuota for the mutex it holds itself. -/
theorem CheckAndRecordUsage_blocked (env : webhook.UsageEnv) (s : webhook.UsageState)
    (userID : String) (characterCount : Int) (requestType : String) :
    webhook.CheckAndRecordUsage env s userID characterCount requestType = .blocked := by
  unfold webhook.CheckAndRecordUsage
  cases hlock : webhook.usageMutexLock s with
  | none => rfl
  | some s1 =>
      have hheld : s1.usageMutex = true := by
        unfold webhook.usageMutexLock at hlock
        split_ifs at hlock
        simp only [Option.some.injEq] at hlock
        rw [← hlock]
      dsimp only
      rw [checkUserQuota_of_locked env s1 userID characterCount hheld]

/-- C30 fails: a single call CheckAndRecordUsage("user_1", 10, "translate") made while
usageMutex is free, with a gateway that answers every request 200 and an
empty store, does not return: it locks usageMutex and calls checkUserQuota, whose
first statement locks usageMutex again. No request is sent and no usage record
is posted. Called alone on the same input, checkUserQuota sends its two reads and
returns (true, nil). -/
theorem CheckAndRecordUsage_never_returns :
    ({} : webhook.UsageState).usageMutex = false ∧
    webhook.CheckAndRecordUsage webhook.usageEnv {} "user_1" 10 "translate" = .blocked ∧
    webhook.checkUserQuota webhook.usageEnv {} "user_1" 10 =
      .returned (true, none)
        { requests := [.getActiveSubscriptions "user_1", .getUsageRecords "user_1" 0],
          ticks := 1 } ∧
    ∀ (env : webhook.UsageEnv) (s : webhook.UsageState) (userID : String)
      (characterCount : Int) (requestType : String),
      webhook.CheckAndRecordUsage env s userID characterCount requestType = .blocked :=
  ⟨rfl, rfl, rfl, CheckAndRecordUsage_blocked⟩

/- The list handlers -/

/-- The int product of the offset wraps around for a page near the end of the
int range: page 9223372036854775807 with the default limit gives offset -40. -/
theorem offset_wraps_for_huge_page :
    (admin.GetReconciliationReports acceptingEnv {} "9223372036854775807" "" "" ""
      "").2.requests =
      [.getList "reconciliation_reports"
        "select=*&order=created_at.desc&limit=20&offset=-40"] := by
  rfl

/-- A filter value is pasted into the query as it is: the status x&limit=1000
puts a second limit after the one the handler wrote, and a status with a line
feed makes http.NewRequest refuse the URL, so the handler panics without sending a
request. -/
theorem filter_value_pasted_unescaped :
    admin.GetReconciliationReports acceptingEnv {} "1" "10" "x&limit=1000" "" "" =
      (some 200,
        { requests := [.getList "reconciliation_reports"
            "select=*&order=created_at.desc&limit=10&offset=0&status=eq.x&limit=1000"] }) ∧
    admin.GetReconciliationReports acceptingEnv {} "1" "10" "a\nb" "" "" = (none, {}) := by
  exact ⟨rfl, rfl⟩

/-- The report identifier is pasted before the limit: a report identifier with a
number sign turns the rest of the query into the fragment of the URL, and the
GET is sent without limit and offset. -/
theorem report_id_with_number_sign_drops_limit :
    admin.GetReconciliationDiffs acceptingEnv {} "r#" "1" "10" "" "" "" =
      (some 200,
        { requests := [.getList "reconciliation_diffs" "select=*&report_id=eq.r"] }) := by
  rfl

/-- C21 as stated fails for a requested limit above 100: the limit the handlers
write is the default 20, not min(requested, 100) = 100. -/
theorem limit_above_100_resets_to_default :
    (Atoi "150").1 = 150 ∧ min (150 : Int) 100 = 100 ∧
    (admin.GetReconciliationReports acceptingEnv {} "1" "150" "" "" "").2.requests =
      [.getList "reconciliation_reports"
        "select=*&order=created_at.desc&limit=20&offset=0"] ∧
    (admin.GetReconciliationDiffs acceptingEnv {} "report_1" "1" "150" "" "" "").2.requests =
      [.getList "reconciliation_diffs"
        "select=*&report_id=eq.report_1&order=created_at.desc&limit=20&offset=0"] ∧
    (admin.GetReconciliationAuditLogs acceptingEnv {} "report_1" "1" "150").2.requests =
      [.getList "reconciliation_audit_logs"
        "select=*&report_id=eq.report_1&order=created_at.desc&limit=20&offset=0"] := by
  exact ⟨rfl, rfl, rfl, rfl, rfl⟩

theorem listAnswer_sendsOnly (env : Env) (w : World) (table query : String) :
    SendsOnly (admin.listAnswer env w table query) w table query := by
  unfold SendsOnly admin.listAnswer
  constructor
  · intro hacc
    rw [if_pos hacc]
    have h := httpclientDo_requests env w (.getList table (beforeFragment query))
    split
    · rename_i w1 heq
      rw [heq] at h
      exact ⟨by simp, h⟩
    · rename_i statusCode w1 heq
      rw [heq] at h
      split
      · exact ⟨by simp, h⟩
      · exact ⟨by simp, h⟩
  · intro hrej
    rw [hrej]
    rfl

/-- C21 as amended: the three list handlers write into the query of their GET
the requested limit when it is between 1 and 100 and the default 20 otherwise
(a requested limit above 100 included), so a limit between 1 and 100; the page
is the requested page when that is at least 1 and 1 otherwise; and whenever
the product (page - 1) * limit fits the 64 bit int it is the offset written,
and is not negative. The query text is the fixed part with that limit and
offset followed by the filter values, pasted as they are. When http.NewRequest
accepts the URL the handler answers and sends exactly one GET, with this text
up to its first number sign; when it refuses the URL the handler panics and
sends nothing. -/
theorem list_endpoints_pagination (env : Env) (w : World)
    (reportID pageParam limitParam status startDate endDate severity recordType : String)
    (hid : reportID ≠ "") :
    ∃ page limit offset : Int,
      (limit = if 1 ≤ (Atoi limitParam).1 ∧ (Atoi limitParam).1 ≤ 100
                then (Atoi limitParam).1 else 20) ∧
      (page = if 1 ≤ (Atoi pageParam).1 then (Atoi pageParam).1 else 1) ∧
      1 ≤ limit ∧ limit ≤ 100 ∧ 1 ≤ page ∧
      ((page - 1) * limit < 2 ^ 63 → offset = (page - 1) * limit ∧ 0 ≤ offset) ∧
      SendsOnly
        (admin.GetReconciliationReports env w pageParam limitParam status startDate endDate)
        w "reconciliation_reports"
        ("select=*&order=created_at.desc&limit=" ++ Itoa limit ++ "&offset=" ++ Itoa offset ++
          admin.filterText "status" status ++ admin.rangeText "gte" startDate ++
          admin.rangeText "lte" endDate) ∧
      SendsOnly
        (admin.GetReconciliationDiffs env w reportID pageParam limitParam status severity
          recordType)
        w "reconciliation_diffs"
        ("select=*&report_id=eq." ++ reportID ++ "&order=created_at.desc&limit=" ++
          Itoa limit ++ "&offset=" ++ Itoa offset ++
          admin.filterText "status" status ++ admin.filterText "severity" severity ++
          admin.filterText "record_type" recordType) ∧
      SendsOnly
        (admin.GetReconciliationAuditLogs env w reportID pageParam limitParam)
        w "reconciliation_audit_logs"
        ("select=*&report_id=eq." ++ reportID ++ "&order=created_at.desc&limit=" ++
          Itoa limit ++ "&offset=" ++ Itoa offset) := by
  refine ⟨admin.pageOf pageParam, admin.limitOf limitParam,
    admin.offsetOf (admin.pageOf pageParam) (admin.limitOf limitParam),
    limitOf_eq _, pageOf_eq _, (limitOf_range _).1, (limitOf_range _).2, (pageOf_range _).1,
    offsetOf_of_fits _ _ (pageOf_range _).1 (pageOf_range _).2 (limitOf_range _).1, ?_, ?_, ?_⟩
  · have h := listAnswer_sendsOnly env w "reconciliation_reports"
      ("select=*&order=created_at.desc&" ++ admin.pageText pageParam limitParam ++
        admin.filterText "status" status ++ admin.rangeText "gte" startDate ++
        admin.rangeText "lte" endDate)
    unfold admin.GetReconciliationReports
    simpa [admin.pageText, String.append_assoc] using h
  · have h := listAnswer_sendsOnly env w "reconciliation_diffs"
      ("select=*&report_id=eq." ++ reportID ++ "&order=created_at.desc&" ++
        admin.pageText pageParam limitParam ++ admin.filterText "status" status ++
        admin.filterText "severity" severity ++ admin.filterText "record_type" recordType)
    unfold admin.GetReconciliationDiffs
    rw [if_neg hid]
    simpa [admin.pageText, String.append_assoc] using h
  · have h := listAnswer_sendsOnly env w "reconciliation_audit_logs"
      ("select=*&report_id=eq." ++ reportID ++ "&order=created_at.desc&" ++
        admin.pageText pageParam limitParam)
    unfold admin.GetReconciliationAuditLogs
    rw [if_neg hid]
    simpa [admin.pageText, String.append_assoc] using h

/-- Witness of C21: page 3 with limit 50 on the three handlers, for the report
report_1 and without filters. -/
theorem list_endpoints_pagination_witness :
    "report_1" ≠ "" ∧
    admin.GetReconciliationReports acceptingEnv {} "3" "50" "" "" "" =
      (some 200,
        { requests := [.getList "reconciliation_reports"
            "select=*&order=created_at.desc&limit=50&offset=100"] }) ∧
    ∃ page limit offset : Int,
      (limit = if 1 ≤ (Atoi "50").1 ∧ (Atoi "50").1 ≤ 100 then (Atoi "50").1 else 20) ∧
      (page = if 1 ≤ (Atoi "3").1 then (Atoi "3").1 else 1) ∧
      1 ≤ limit ∧ limit ≤ 100 ∧ 1 ≤ page ∧
      ((page - 1) * limit < 2 ^ 63 → offset = (page - 1) * limit ∧ 0 ≤ offset) ∧
      SendsOnly (admin.GetReconciliationReports acceptingEnv {} "3" "50" "" "" "")
        {} "reconciliation_reports"
        ("select=*&order=created_at.desc&limit=" ++ Itoa limit ++ "&offset=" ++ Itoa offset ++
          admin.filterText "status" "" ++ admin.rangeText "gte" "" ++
          admin.rangeText "lte" "") ∧
      SendsOnly (admin.GetReconciliationDiffs acceptingEnv {} "report_1" "3" "50" "" "" "")
        {} "reconciliation_diffs"
        ("select=*&report_id=eq." ++ "report_1" ++ "&order=created_at.desc&limit=" ++
          Itoa limit ++ "&offset=" ++ Itoa offset ++
          admin.filterText "status" "" ++ admin.filterText "severity" "" ++
          admin.filterText "record_type" "") ∧
      SendsOnly (admin.GetReconciliationAuditLogs acceptingEnv {} "report_1" "3" "50")
        {} "reconciliation_audit_logs"
        ("select=*&report_id=eq." ++ "report_1" ++ "&order=created_at.desc&limit=" ++
          Itoa limit ++ "&offset=" ++ Itoa offset) :=
  ⟨by decide, rfl,
    list_endpoints_pagination acceptingEnv {} "report_1" "3" "50" "" "" "" "" ""
      (by decide)⟩

/- Repair dispatch, the call as a whole -/

theorem validEscapes_nil : validEscapes [] = true := rfl

/-- A query text without control character and without number sign is accepted. -/
theorem newRequestAccepts_of_safe (query : String)
    (h : ∀ c ∈ query.toList, c ≠ '#' ∧ 0x20 ≤ c.toNat ∧ c.toNat ≠ 0x7f) :
    newRequestAccepts query = true := by
  have htake : (query.toList.takeWhile fun c => decide (c ≠ '#')) = query.toList := by
    rw [List.takeWhile_eq_self_iff]
    intro c hc
    simpa using (h c hc).1
  have hdrop : (query.toList.dropWhile fun c => decide (c ≠ '#')) = [] := by
    rw [List.dropWhile_eq_nil_iff]
    intro c hc
    simpa using (h c hc).1
  unfold newRequestAccepts
  rw [htake, hdrop]
  simp only [List.drop_nil, validEscapes_nil, Bool.and_true, Bool.not_eq_true']
  unfold stringContainsCTLByte
  rw [List.any_eq_false]
  intro c hc
  have := h c hc
  simp only [Bool.or_eq_true, decide_eq_true_eq, not_or]
  omega

theorem safe_of_unreserved (c : Char) (h : unreserved c = true) :
    c ≠ '#' ∧ 0x20 ≤ c.toNat ∧ c.toNat ≠ 0x7f := by
  unfold unreserved at h
  simp only [Bool.or_eq_true, Bool.and_eq_true, decide_eq_true_eq] at h
  refine ⟨?_, by omega, by omega⟩
  intro hc
  subst hc
  have h35 : ('#' : Char).toNat = 35 := rfl
  omega

theorem newRequestAccepts_of_plain (pre id : String)
    (hpre : ∀ c ∈ pre.toList, c ≠ '#' ∧ 0x20 ≤ c.toNat ∧ c.toNat ≠ 0x7f)
    (hid : PlainQueryValue id) : newRequestAccepts (pre ++ id) = true := by
  apply newRequestAccepts_of_safe
  intro c hc
  have happ : (pre ++ id).toList = pre.toList ++ id.toList := String.data_append pre id
  rw [happ, List.mem_append] at hc
  rcases hc with hc | hc
  · exact hpre c hc
  · exact safe_of_unreserved c (hid c hc)

theorem beforeFragment_of_plain (id : String) (hid : PlainQueryValue id) :
    beforeFragment id = id := by
  have htake : (id.toList.takeWhile fun c => decide (c ≠ '#')) = id.toList := by
    rw [List.takeWhile_eq_self_iff]
    intro c hc
    simpa using (safe_of_unreserved c (hid c hc)).1
  unfold beforeFragment
  rw [htake]
  rfl

theorem subscriptionPrefix_safe :
    ∀ c ∈ "subscription_id=eq.".toList, c ≠ '#' ∧ 0x20 ≤ c.toNat ∧ c.toNat ≠ 0x7f := by
  decide

theorem invoicePrefix_safe :
    ∀ c ∈ "invoice_id=eq.".toList, c ≠ '#' ∧ 0x20 ≤ c.toNat ∧ c.toNat ≠ 0x7f := by
  decide

theorem customerPrefix_safe :
    ∀ c ∈ "customer_id=eq.".toList, c ≠ '#' ∧ 0x20 ≤ c.toNat ∧ c.toNat ≠ 0x7f := by
  decide

/-- With a record identifier that http.NewRequest refuses in the URL, the repair of
a supported pair panics after reading the clock and sends nothing. -/
theorem fixDiff_panics_of_refused (env : Env) (w : World) (diff : ReconciliationDiff)
    (htype : diff.RecordType = "subscription") (hfield : diff.FieldName = "status")
    (hrefused : newRequestAccepts ("subscription_id=eq." ++ diff.RecordID) = false) :
    ReconciliationService.fixDiff env w diff = .panicked { w with ticks := w.ticks + 1 } := by
  unfold ReconciliationService.fixDiff ReconciliationService.fixSubscriptionDiff
    ReconciliationService.updateLocalSubscriptionStatus
  rw [if_pos htype, if_pos hfield, hrefused]
  rfl

/-- C5 fails for a record identifier with a control character: the identifier
is pasted unescaped into the URL, http.NewRequest refuses the URL, its error is
discarded and the call panics on the nil request. For the status diff of a
subscription whose identifier holds a line feed, a supported pair, fixDiff reads
the clock and panics: it issues no write and returns nothing. The same diff
for the identifier sub_1 returns after the one write addressed to sub_1. -/
theorem fixDiff_panics_on_control_character :
    SupportedRepair "subscription" "status" ∧
    ReconciliationService.fixDiff acceptingEnv worldA
      { RecordType := "subscription", RecordID := "sub\n1", FieldName := "status",
        LocalValue := "active", StripeValue := "canceled" } =
      .panicked { worldA with ticks := 1 } ∧
    ({ worldA with ticks := 1 } : World).requests = [] ∧
    ReconciliationService.fixDiff acceptingEnv worldA
      { RecordType := "subscription", RecordID := "sub_1", FieldName := "status",
        LocalValue := "active", StripeValue := "canceled" } =
      .returned none
        { stripe_subscriptions := [{ subscriptionA with Status := "canceled", UpdatedAt := 1000 }],
          requests := [.patchSubscriptionStatus "sub_1" "canceled" 1000], ticks := 1 } :=
  ⟨Or.inl ⟨rfl, rfl⟩, rfl, rfl, rfl⟩

/-- Repair dispatch for a diff whose record identifier is made of unreserved
characters: fixDiff returns after issuing exactly one write to the local store,
chosen by record type and field name and addressed to the diff's record
identifier: the subscription status, the invoice amount (the integer Atoi reads
from the remote value), the invoice status or the customer email, each set to
the diff's remote value; what it returns is the transport error of that
write, if any. For every other pair of record type and field name it returns
an error built by fmt.Errorf and leaves the state as it was, so no request is
issued. -/
theorem fixDiff_dispatch (env : Env) (w : World) (diff : ReconciliationDiff)
    (hplain : PlainQueryValue diff.RecordID) :
    (diff.RecordType = "subscription" → diff.FieldName = "status" →
      ∃ w', ReconciliationService.fixDiff env w diff =
          .returned (doError (env.httpDo w.requests.length)) w' ∧
        w'.requests = w.requests ++
          [.patchSubscriptionStatus diff.RecordID diff.StripeValue (env.timeNow w.ticks)]) ∧
    (diff.RecordType = "invoice" → diff.FieldName = "amount" →
      ∃ w', ReconciliationService.fixDiff env w diff =
          .returned (doError (env.httpDo w.requests.length)) w' ∧
        w'.requests = w.requests ++
          [.patchInvoiceAmount diff.RecordID (Atoi diff.StripeValue).1
            (env.timeNow w.ticks)]) ∧
    (diff.RecordType = "invoice" → diff.FieldName = "status" →
      ∃ w', ReconciliationService.fixDiff env w diff =
          .returned (doError (env.httpDo w.requests.length)) w' ∧
        w'.requests = w.requests ++
          [.patchInvoiceStatus diff.RecordID diff.StripeValue (env.timeNow w.ticks)]) ∧
    (diff.RecordType = "customer" → diff.FieldName = "email" →
      ∃ w', ReconciliationService.fixDiff env w diff =
          .returned (doError (env.httpDo w.requests.length)) w' ∧
        w'.requests = w.requests ++
          [.patchCustomerEmail diff.RecordID diff.StripeValue (env.timeNow w.ticks)]) ∧
    (¬ SupportedRepair diff.RecordType diff.FieldName →
      ∃ msg, ReconciliationService.fixDiff env w diff = .returned (some (.message msg)) w) := by
  have hsub := newRequestAccepts_of_plain "subscription_id=eq." diff.RecordID
    subscriptionPrefix_safe hplain
  have hinv := newRequestAccepts_of_plain "invoice_id=eq." diff.RecordID
    invoicePrefix_safe hplain
  have hcust := newRequestAccepts_of_plain "customer_id=eq." diff.RecordID
    customerPrefix_safe hplain
  have hsent := beforeFragment_of_plain diff.RecordID hplain
  refine ⟨?_, ?_, ?_, ?_, ?_⟩
  · intro ht hf
    refine ⟨(reconciliation.updateLocalSubscriptionStatus env w diff.RecordID diff.StripeValue).2, ?_, ?_⟩
    · unfold ReconciliationService.fixDiff ReconciliationService.fixSubscriptionDiff
        ReconciliationService.updateLocalSubscriptionStatus
      rw [if_pos ht, if_pos hf, hsub, if_pos rfl, hsent]
      simp [updateLocalSubscriptionStatus, timeNow]
    · simp [updateLocalSubscriptionStatus, timeNow]
  · intro ht hf
    have hns : diff.RecordType ≠ "subscription" := by rw [ht]; decide
    refine ⟨(reconciliation.updateLocalInvoiceAmount env w diff.RecordID (Atoi diff.StripeValue).1).2, ?_, ?_⟩
    · unfold ReconciliationService.fixDiff ReconciliationService.fixInvoiceDiff
        ReconciliationService.updateLocalInvoiceAmount
      rw [if_neg hns, if_pos ht, if_pos hf, hinv, if_pos rfl, hsent]
      simp [updateLocalInvoiceAmount, timeNow]
    · simp [updateLocalInvoiceAmount, timeNow]
  · intro ht hf
    have hns : diff.RecordType ≠ "subscription" := by rw [ht]; decide
    have hna : diff.FieldName ≠ "amount" := by rw [hf]; decide
    refine ⟨(reconciliation.updateLocalInvoiceStatus env w diff.RecordID diff.StripeValue).2, ?_, ?_⟩
    · unfold ReconciliationService.fixDiff ReconciliationService.fixInvoiceDiff
        ReconciliationService.updateLocalInvoiceStatus
      rw [if_neg hns, if_pos ht, if_neg hna, if_pos hf, hinv, if_pos rfl, hsent]
      simp [updateLocalInvoiceStatus, timeNow]
    · simp [updateLocalInvoiceStatus, timeNow]
  · intro ht hf
    have hns : diff.RecordType ≠ "subscription" := by rw [ht]; decide
    have hni : diff.RecordType ≠ "invoice" := by rw [ht]; decide
    refine ⟨(reconciliation.updateLocalCustomerEmail env w diff.RecordID diff.StripeValue).2, ?_, ?_⟩
    · unfold ReconciliationService.fixDiff ReconciliationService.fixCustomerDiff
        ReconciliationService.updateLocalCustomerEmail
      rw [if_neg hns, if_neg hni, if_pos ht, if_pos hf, hcust, if_pos rfl, hsent]
      simp [updateLocalCustomerEmail, timeNow]
    · simp [updateLocalCustomerEmail, timeNow]
  · intro hns
    simp only [SupportedRepair, not_or, not_and] at hns
    obtain ⟨h1, h2, h3, h4⟩ := hns
    unfold ReconciliationService.fixDiff ReconciliationService.fixSubscriptionDiff
      ReconciliationService.fixInvoiceDiff ReconciliationService.fixCustomerDiff
    by_cases ht1 : diff.RecordType = "subscription"
    · simp [ht1, h1 ht1]
    by_cases ht2 : diff.RecordType = "invoice"
    · simp [ht2, h2 ht2, h3 ht2]
    by_cases ht3 : diff.RecordType = "customer"
    · simp [ht3, h4 ht3]
    simp [ht1, ht2, ht3]

theorem plainQueryValue_sub_1 : PlainQueryValue "sub_1" := by
  unfold PlainQueryValue
  decide

/-- Scenario A: the status diff of subscription sub_1 returns after issuing
the one request that sets the status of sub_1 to the remote value canceled. -/
theorem fixDiff_dispatch_witness :
    PlainQueryValue "sub_1" ∧
    ∃ w', ReconciliationService.fixDiff (envA 200) worldA
        { RecordType := "subscription", RecordID := "sub_1", FieldName := "status",
          LocalValue := "active", StripeValue := "canceled" } = .returned none w' ∧
      w'.requests = [.patchSubscriptionStatus "sub_1" "canceled" 1000] :=
  ⟨plainQueryValue_sub_1,
    (fixDiff_dispatch (envA 200) worldA
      { RecordType := "subscription", RecordID := "sub_1", FieldName := "status",
        LocalValue := "active", StripeValue := "canceled" } plainQueryValue_sub_1).1 rfl rfl⟩

/- The update of the diff in the auto-fix pass -/

/-- C6 fails when the update of the diff does not reach the store: in Scenario C
with a gateway that accepts the repair and then loses the PATCH of
updateReconciliationDiff in a transport error, the diff is eligible and fixDiff returns
no error; autoFixDiffs leaves the diff object with status auto_fixed, auto_fixed
true and fixed_by system and appends the auto_fix audit entry, but the row of
the diff in the store is as it was, pending and not auto-fixed: the update is
not persisted and the error updateReconciliationDiff returns is dropped. The admin
FixDiff, in the same situation, answers 500 and appends no audit entry. -/
theorem autoFixDiffs_update_lost :
    shouldAutoFix configC diffA = true ∧
    (fixDiff envUpdateLost worldC diffA).1 = none ∧
    envUpdateLost.httpDo 1 = .transportError ∧
    (autoFixDiffs envUpdateLost configC worldC [diffA]).1 =
      [{ diffA with Status := "auto_fixed", AutoFixed := true, FixedAt := some 1001,
                    FixedBy := "system", UpdatedAt := 1002 }] ∧
    (autoFixDiffs envUpdateLost configC worldC [diffA]).2.requests =
      [.patchSubscriptionStatus "sub_1" "canceled" 1000,
       .patchDiff "diff_1" "auto_fixed" true (some 1001) "system" 1002,
       .postAuditLog
         { ID := "uuid-0", ReportID := "report_1", Action := "auto_fix",
           RecordType := "subscription", RecordID := "sub_1", UserID := "user_1",
           Details := "自动修复字段 status: active -> canceled", PerformedBy := "system",
           CreatedAt := 1003 }] ∧
    (autoFixDiffs envUpdateLost configC worldC [diffA]).2.reconciliation_diffs = [diffA] ∧
    diffA.Status = "pending" ∧ diffA.AutoFixed = false ∧
    ((autoFixDiffs envUpdateLost configC worldC [diffA]).2.reconciliation_audit_logs.map
      fun log => log.Action) = ["auto_fix"] ∧
    (admin.FixDiff envThirdLost worldC "diff_1" (some "note")).1 = 500 ∧
    (admin.FixDiff envThirdLost worldC "diff_1" (some "note")).2.reconciliation_diffs
      = [diffA] ∧
    (admin.FixDiff envThirdLost worldC "diff_1" (some "note")).2.reconciliation_audit_logs
      = [] := by
  exact ⟨rfl, rfl, rfl, rfl, rfl, rfl, rfl, rfl, rfl, rfl, rfl, rfl⟩

/- A fetch the gateway rejects -/

/-- C16 fails when the gateway answers the fetch with an error status: in a run
over the store with the local subscription sub_1 and the local invoice inv_1,
with a provider that knows neither, the gateway answers the fetch of the
local subscriptions 500 Internal Server Error. The request has failed, yet
the subscription comparison returns no error: getLocalSubscriptions reads neither
the status code nor the decoding error and returns an empty list, so the
comparison returns an empty list of diffs and nil, and the run cannot tell the
failed fetch from an empty table. The same fetch ending in a transport error
does return an error, and answered 201 it yields the missing diff of sub_1. The
rest of the run is as the claim says: the invoice comparison finds inv_1,
total_diffs is 1 and the run returns the report. -/
theorem rejected_fetch_returns_no_error :
    envFetchRejected.httpDo 3 = .response 500 ∧
    (runRunning envFetchRejected (createReconciliationReport envFetchRejected worldAB 0 10).2
      reportCreated 0 10).requests.length = 3 ∧
    (runSubscriptions envFetchRejected
      (createReconciliationReport envFetchRejected worldAB 0 10).2 reportCreated 0 10).1
        = .ok [] ∧
    (runSubscriptions envFetchFailure
      (createReconciliationReport envFetchFailure worldAB 0 10).2 reportCreated 0 10).1
        = .error (.wrapped "获取本地订阅数据失败" .transport) ∧
    ((diffsOrNil (runSubscriptions envCreatedEmpty
      (createReconciliationReport envCreatedEmpty worldAB 0 10).2 reportCreated 0 10).1).map
        fun d => (d.RecordID, d.DiffType)) = [("sub_1", "missing")] ∧
    ((diffsOrNil (runInvoices envFetchRejected
      (createReconciliationReport envFetchRejected worldAB 0 10).2 reportCreated 0 10).1).map
        fun d => (d.RecordID, d.DiffType)) = [("inv_1", "missing")] ∧
    runTotalDiffs envFetchRejected (createReconciliationReport envFetchRejected worldAB 0 10).2
      reportCreated 0 10 = 1 ∧
    (RunReconciliation envFetchRejected configC worldAB 0 10).1 = (some reportCreated, none) := by
  exact ⟨rfl, rfl, rfl, rfl, rfl, rfl, rfl, rfl⟩

end reconciliation
